import Mathlib

/-!
Verification development for the IGCSE pseudocode compiler.

The definitions below are a shallow embedding of the compiler core:

* the diagnostic model and the `(startLine, startColumn, code)` sort used
  by the compiler facade (`compilePseudocode`);
* the abstract syntax tree produced by the parser;
* the semantic analyzer (`semantics.ts`): scopes, static types, expression
  type inference, statement analysis, the file-mode map and the collection
  of `SEM###` diagnostics;
* the Python code generator (`PythonGenerator`), including the fixed
  runtime prelude it emits;
* the behaviour of the emitted runtime helpers `__inclusive_range` and
  `READFILE`/`OPENFILE`/`WRITEFILE`/`CLOSEFILE`, modelled from the Python
  text the generator emits.

JavaScript `Map`s and plain-object records are modelled as association
lists (insertion order preserved, which is the observable order in the
source); mutation is modelled by explicit state passing.  `toLowerCase` /
`toUpperCase` are modelled for the ASCII range, which covers every
identifier the tokenizer can produce (`[A-Za-z][A-Za-z0-9]*`).
`String.prototype.localeCompare` on the compiler's ASCII diagnostic codes
is modelled as code-point lexicographic comparison.
-/

/-- Models `String.prototype.toLowerCase` on one character (ASCII range;
identifiers in this language are ASCII by construction). -/
def jsCharToLower (c : Char) : Char :=
  if 65 ≤ c.toNat ∧ c.toNat ≤ 90 then Char.ofNat (c.toNat + 32) else c

/-- Models `String.prototype.toUpperCase` on one character (ASCII range). -/
def jsCharToUpper (c : Char) : Char :=
  if 97 ≤ c.toNat ∧ c.toNat ≤ 122 then Char.ofNat (c.toNat - 32) else c

/-- Models `name.toLowerCase()` as used for symbol-table keys. -/
def jsToLower (s : String) : String :=
  String.mk (s.data.map jsCharToLower)

/-- Models `name.toUpperCase()` as used for keyword and builtin lookup. -/
def jsToUpper (s : String) : String :=
  String.mk (s.data.map jsCharToUpper)

/-- Diagnostic severity (`types.ts`, `Severity`). -/
inductive Severity
  | error
  | warning
  | info
deriving DecidableEq, Repr

/-- Diagnostic record on the wire (`types.ts`, `Diagnostic`). -/
structure Diagnostic where
  code : String
  message : String
  severity : Severity
  line : Nat
  column : Nat
  endLine : Nat
  endColumn : Nat
  hint : Option String := none
deriving DecidableEq, Repr

/-- Code-point lexicographic comparison of character lists; `true` when the
first list is less than or equal to the second. -/
def strLeAux : List Char → List Char → Bool
  | [], _ => true
  | _ :: _, [] => false
  | a :: as, b :: bs =>
    if a.toNat < b.toNat then true
    else if b.toNat < a.toNat then false
    else strLeAux as bs

/-- Models `a.localeCompare(b) ≤ 0` on the compiler's ASCII diagnostic codes
as code-point lexicographic string comparison. -/
def strLe (a b : String) : Bool := strLeAux a.data b.data

/-- Models the facade's sort comparator (`part_008`): order by `line`, then
`column`, then `code.localeCompare`; `diagLe a b` holds when `a` may appear
before (or at) `b` in the sorted output. -/
def diagLe (a b : Diagnostic) : Bool :=
  if a.line ≠ b.line then decide (a.line < b.line)
  else if a.column ≠ b.column then decide (a.column < b.column)
  else strLe a.code b.code

/-- Insert a diagnostic into a list sorted by `diagLe`. -/
def insertDiag (d : Diagnostic) : List Diagnostic → List Diagnostic
  | [] => [d]
  | e :: rest => if diagLe d e then d :: e :: rest else e :: insertDiag d rest

/-- Models the facade's `Array.prototype.sort` call with the comparator of
`part_008` as an insertion sort with respect to `diagLe` (the ECMAScript
specification guarantees the output is sorted by a consistent comparator;
which correct sort runs is unobservable up to ties). -/
def sortDiags : List Diagnostic → List Diagnostic
  | [] => []
  | d :: rest => insertDiag d (sortDiags rest)

/-- Basic type names (`types.ts`, `BasicTypeName`). -/
inductive BasicTypeName
  | INTEGER
  | REAL
  | CHAR
  | STRING
  | BOOLEAN
deriving DecidableEq, Repr

/-- Rendering of a basic type name, as it appears in messages and emitted
code. -/
def basicName : BasicTypeName → String
  | .INTEGER => "INTEGER"
  | .REAL => "REAL"
  | .CHAR => "CHAR"
  | .STRING => "STRING"
  | .BOOLEAN => "BOOLEAN"

/-- Source span (`types.ts`, `SourceSpan`). -/
structure SourceSpan where
  startLine : Nat
  startColumn : Nat
  endLine : Nat
  endColumn : Nat
deriving DecidableEq, Repr

/-- File mode (`types.ts`, `FileMode`). -/
inductive FileMode
  | READ
  | WRITE
deriving DecidableEq, Repr

def fileModeName : FileMode → String
  | .READ => "READ"
  | .WRITE => "WRITE"

/-- Literal payloads.  JavaScript stores numbers as doubles; integer
literals are modelled exactly as `Int`, and real literals keep their source
lexeme (only `String(value)` rendering and the static type ever consume
them, so this is faithful up to JavaScript float re-formatting, which no
claim touches). -/
inductive LiteralValue
  | int (n : Int)
  | realRaw (raw : String)
  | str (s : String)
  | bool (b : Bool)
deriving DecidableEq, Repr

/-- Type annotation node (`types.ts`, `TypeNode`). -/
inductive TypeNode
  | basic (name : BasicTypeName) (span : SourceSpan)
  | array (elementType : BasicTypeName) (dimensions : List (Int × Int)) (span : SourceSpan)
deriving DecidableEq, Repr

/-- Identifier node (`types.ts`, `IdentifierNode`). -/
structure IdentNode where
  name : String
  span : SourceSpan
deriving DecidableEq, Repr

/-- Routine parameter (`types.ts`, `ParameterNode`). -/
structure ParameterNode where
  name : String
  typeNode : TypeNode
  span : SourceSpan
deriving DecidableEq, Repr

mutual
/-- Expression node (`types.ts`, `ExpressionNode`).  Unary and binary
operators are carried as strings exactly as the parser produces them. -/
inductive ExpressionNode
  | literal (value : LiteralValue) (literalType : BasicTypeName) (span : SourceSpan)
  | identifier (name : String) (span : SourceSpan)
  | unary (operator : String) (operand : ExpressionNode) (span : SourceSpan)
  | binary (operator : String) (left : ExpressionNode) (right : ExpressionNode) (span : SourceSpan)
  | call (name : String) (args : ExprList) (span : SourceSpan)
  | arrayAccess (name : String) (indices : ExprList) (span : SourceSpan)
/-- Argument / index vectors, kept as a dedicated list type so that every
traversal below is by plain structural recursion. -/
inductive ExprList
  | nil
  | cons (head : ExpressionNode) (tail : ExprList)
end
deriving instance Repr for ExpressionNode
deriving instance Repr for ExprList

/-- Length of an expression vector (models `args.length`). -/
def ExprList.length : ExprList → Nat
  | .nil => 0
  | .cons _ t => 1 + ExprList.length t

/-- Assignment / INPUT / READFILE target: `IdentifierNode | ArrayAccessNode`
(`types.ts`). -/
inductive AssignTarget
  | ident (name : String) (span : SourceSpan)
  | arrayAccess (name : String) (indices : ExprList) (span : SourceSpan)
deriving Repr

/-- Span of an assignment target. -/
def AssignTarget.span : AssignTarget → SourceSpan
  | .ident _ sp => sp
  | .arrayAccess _ _ sp => sp

mutual
/-- Statement node (`types.ts`, `StatementNode`). -/
inductive StatementNode
  | declare (identifier : IdentNode) (typeNode : TypeNode) (span : SourceSpan)
  | constant (identifier : IdentNode) (value : ExpressionNode) (span : SourceSpan)
  | assignment (target : AssignTarget) (value : ExpressionNode) (span : SourceSpan)
  | input (target : AssignTarget) (span : SourceSpan)
  | output (values : ExprList) (span : SourceSpan)
  | ifStmt (condition : ExpressionNode) (thenBody : StmtList) (elseBody : StmtList) (span : SourceSpan)
  | caseStmt (expression : ExpressionNode) (clauses : ClauseList) (span : SourceSpan)
  | forStmt (iterator : IdentNode) (startValue : ExpressionNode) (endValue : ExpressionNode)
      (stepValue : Option ExpressionNode) (body : StmtList) (span : SourceSpan)
  | repeatStmt (body : StmtList) (condition : ExpressionNode) (span : SourceSpan)
  | whileStmt (condition : ExpressionNode) (body : StmtList) (span : SourceSpan)
  | procedureDefinition (name : String) (params : List ParameterNode) (body : StmtList) (span : SourceSpan)
  | functionDefinition (name : String) (params : List ParameterNode) (returnType : BasicTypeName)
      (body : StmtList) (span : SourceSpan)
  | callStatement (name : String) (args : ExprList) (span : SourceSpan)
  | returnStmt (value : ExpressionNode) (span : SourceSpan)
  | openfile (fileIdentifier : ExpressionNode) (mode : FileMode) (span : SourceSpan)
  | readfile (fileIdentifier : ExpressionNode) (target : AssignTarget) (span : SourceSpan)
  | writefile (fileIdentifier : ExpressionNode) (value : ExpressionNode) (span : SourceSpan)
  | closefile (fileIdentifier : ExpressionNode) (span : SourceSpan)
/-- Statement vectors (bodies), as a dedicated list type. -/
inductive StmtList
  | nil
  | cons (head : StatementNode) (tail : StmtList)
/-- CASE clause vectors (`types.ts`, `CaseClauseNode`): a clause value of
`none` is an `OTHERWISE` clause. -/
inductive ClauseList
  | nil
  | cons (value : Option ExpressionNode) (statement : StatementNode) (span : SourceSpan) (tail : ClauseList)
end
deriving instance Repr for StatementNode
deriving instance Repr for StmtList
deriving instance Repr for ClauseList

/-- Program node (`types.ts`, `ProgramNode`). -/
structure ProgramNode where
  body : StmtList
  span : SourceSpan
deriving Repr

/-- Span accessor for expressions (TS nodes carry `span` directly). -/
def ExpressionNode.span : ExpressionNode → SourceSpan
  | .literal _ _ sp => sp
  | .identifier _ sp => sp
  | .unary _ _ sp => sp
  | .binary _ _ _ sp => sp
  | .call _ _ sp => sp
  | .arrayAccess _ _ sp => sp

/-- Static types used by the analyzer (`types.ts`, `StaticType`). -/
inductive StaticType
  | unknown
  | basic (name : BasicTypeName)
  | array (elementType : BasicTypeName) (dimensions : List (Int × Int))
deriving DecidableEq, Repr

/-- Symbol kinds (`semantics.ts`, `SymbolEntry.kind`); `var` stands for the
source's `"variable"`. -/
inductive SymbolKind
  | var
  | constant
  | param
  | procedure
  | function
deriving DecidableEq, Repr

/-- Symbol-table entry (`semantics.ts`, `SymbolEntry`). -/
structure SymbolEntry where
  name : String
  kind : SymbolKind
  type : StaticType
  params : Option (List StaticType) := none
deriving Repr

/-- Function signature (`types.ts`, `FunctionSignature`). -/
structure FunctionSignature where
  name : String
  params : List StaticType
  returnType : StaticType
deriving Repr

/-- Procedure signature (`types.ts`, `ProcedureSignature`). -/
structure ProcedureSignature where
  name : String
  params : List StaticType
deriving Repr

/-- Own-property lookup: models `Map.get` and the own-property part of a
plain-object bracket read, as an association list (first match wins; keys
are unique by construction of `recSet`).  A plain-object read that can hit
the `Object.prototype` chain additionally consults `OBJECT_PROTOTYPE_KEYS`
at its use sites (see `jsObjTruthy`). -/
def recGet {α : Type} : List (String × α) → String → Option α
  | [], _ => none
  | (k, v) :: rest, key => if k = key then some v else recGet rest key

/-- Own-property write: models `Map.set`, and plain-object assignment
`obj[key] = v` for keys that cannot be `"__proto__"` — replace in place,
else append (JavaScript preserves insertion order).  The analyzer's
signature-table and `symbolTypes` keys are lowercased tokenized lexemes,
which never contain an underscore (the tokenizer rejects `_` with
`SYN002`), so `"__proto__"` is unreachable there; the `openFiles` map,
whose keys are raw string-literal contents, writes through `jsObjSet`
instead. -/
def recSet {α : Type} : List (String × α) → String → α → List (String × α)
  | [], key, v => [(key, v)]
  | (k, w) :: rest, key, v =>
    if k = key then (k, v) :: rest else (k, w) :: recSet rest key v

/-- Models `delete obj[key]`: removes the own property only — inherited
`Object.prototype` members are unaffected and keep showing through reads. -/
def recDelete {α : Type} : List (String × α) → String → List (String × α)
  | [], _ => []
  | (k, w) :: rest, key =>
    if k = key then recDelete rest key else (k, w) :: recDelete rest key

/-- The own properties of `Object.prototype`: a plain-object bracket read
of one of these keys with no matching own property returns an inherited
value (a builtin function, or the current prototype for `__proto__`), and
every such inherited value is truthy. -/
def OBJECT_PROTOTYPE_KEYS : List String :=
  ["constructor", "hasOwnProperty", "isPrototypeOf", "propertyIsEnumerable",
   "toLocaleString", "toString", "valueOf", "__defineGetter__", "__defineSetter__",
   "__lookupGetter__", "__lookupSetter__", "__proto__"]

/-- Truthiness of a full plain-object bracket read `obj[key]`, prototype
chain included: own values are truthy (the analyzer never stores a falsy
value), and so is every inherited `Object.prototype` member; only a miss
on both is `undefined`, hence falsy. -/
def jsObjTruthy {α : Type} (m : List (String × α)) (key : String) : Bool :=
  match recGet m key with
  | some _ => true
  | none => OBJECT_PROTOTYPE_KEYS.contains key

/-- Plain-object assignment `obj[key] = v` for a non-object `v` (the
`openFiles` modes are the strings `"READ"`/`"WRITE"`): writing through the
inherited `__proto__` accessor is a silent no-op; every other key creates
or overwrites an own property. -/
def jsObjSet {α : Type} (m : List (String × α)) (key : String) (v : α) :
    List (String × α) :=
  if key = "__proto__" then m else recSet m key v

/-- The analyzer's `openFiles` map: literal file name to recorded mode. -/
abbrev OpenFiles := List (String × FileMode)

/-- A lexical scope chain (`semantics.ts`, `class Scope`): the head is the
innermost frame, the tail is the parent chain.  `new Scope(null)` is
`[[]]`; `new Scope(scope)` is `[] :: scope`. -/
abbrev Scope := List (List (String × SymbolEntry))

/-- Models `Scope.define`: fails (returns `false`) when the lowercased name
already exists in the innermost frame. -/
def scopeDefine (scope : Scope) (symbol : SymbolEntry) : Bool × Scope :=
  match scope with
  | [] => (false, [])
  | frame :: rest =>
    let key := jsToLower symbol.name
    match recGet frame key with
    | some _ => (false, frame :: rest)
    | none => (true, recSet frame key symbol :: rest)

/-- Models `Scope.lookup`: case-insensitive search through the chain. -/
def scopeLookup (scope : Scope) (name : String) : Option SymbolEntry :=
  match scope with
  | [] => none
  | frame :: rest =>
    match recGet frame (jsToLower name) with
    | some s => some s
    | none => scopeLookup rest name

def UNKNOWN : StaticType := .unknown
def BOOLEAN : StaticType := .basic .BOOLEAN
def INTEGER : StaticType := .basic .INTEGER
def REAL : StaticType := .basic .REAL
def STRING : StaticType := .basic .STRING

/-- The builtin signature table (`semantics.ts`, `BUILTIN_FUNCTIONS`),
keyed by the uppercase builtin name. -/
def BUILTIN_FUNCTIONS : List (String × FunctionSignature) :=
  [("DIV", { name := "DIV", params := [INTEGER, INTEGER], returnType := INTEGER }),
   ("MOD", { name := "MOD", params := [INTEGER, INTEGER], returnType := INTEGER }),
   ("LENGTH", { name := "LENGTH", params := [STRING], returnType := INTEGER }),
   ("LCASE", { name := "LCASE", params := [STRING], returnType := STRING }),
   ("UCASE", { name := "UCASE", params := [STRING], returnType := STRING }),
   ("SUBSTRING", { name := "SUBSTRING", params := [STRING, INTEGER, INTEGER], returnType := STRING }),
   ("ROUND", { name := "ROUND", params := [REAL, INTEGER], returnType := REAL }),
   ("RANDOM", { name := "RANDOM", params := [], returnType := REAL })]

/-- Models `toStaticType` (`semantics.ts`). -/
def toStaticType : TypeNode → StaticType
  | .basic name _ => .basic name
  | .array elementType dimensions _ => .array elementType dimensions

/-- Models `typeName` (`semantics.ts`). -/
def typeName : StaticType → String
  | .unknown => "UNKNOWN"
  | .basic name => basicName name
  | .array elementType _ => "ARRAY OF " ++ basicName elementType

/-- Models `isNumeric` (`semantics.ts`). -/
def isNumeric : StaticType → Bool
  | .basic .INTEGER => true
  | .basic .REAL => true
  | _ => false

/-- Models `isBoolean` (`semantics.ts`). -/
def isBoolean : StaticType → Bool
  | .basic .BOOLEAN => true
  | _ => false

/-- Models `typesCompatible` (`semantics.ts`): `unknown` feeds anything,
basic names must match except `REAL` accepts `INTEGER`, arrays match on
element type and dimension count. -/
def typesCompatible (target : StaticType) (value : StaticType) : Bool :=
  match target, value with
  | .unknown, _ => true
  | _, .unknown => true
  | .array te td, .array ve vd => te = ve && td.length = vd.length
  | .array _ _, _ => false
  | _, .array _ _ => false
  | .basic tn, .basic vn => tn = vn || (tn = .REAL && vn = .INTEGER)

/-- Mutable analyzer fields (`semantics.ts`, `class Analyzer`); the first
four fields are exactly the TS `SemanticResult` record.  `crashed` is not
a TS field: it records that the analyzer has thrown a `TypeError` (see
`setCrashed`). -/
structure AState where
  diagnostics : List Diagnostic
  symbolTypes : List (String × StaticType)
  functionSignatures : List (String × FunctionSignature)
  procedureSignatures : List (String × ProcedureSignature)
  crashed : Bool
deriving Repr

/-- Models `Analyzer.pushError`: appends an error diagnostic located at the
given span. -/
def pushError (st : AState) (span : SourceSpan) (code : String) (message : String) : AState :=
  { st with diagnostics := st.diagnostics ++
      [{ code := code, message := message, severity := .error,
         line := span.startLine, column := span.startColumn,
         endLine := span.endLine, endColumn := span.endColumn }] }

/-- Marks that the analyzer has thrown a `TypeError` at this point (the
pipeline has no try/catch anywhere, so the exception surfaces to the
caller of `compilePseudocode`).  The flag is never cleared, and nothing
reads it before `compilePseudocode` does, so the model state computed
after it is set — code the real program never reaches — cannot influence
it: `crashed` ends up `true` exactly when the real analyzer throws. -/
def setCrashed (st : AState) : AState := { st with crashed := true }

mutual
/-- Models `Analyzer.inferExpressionType` (`semantics.ts`).  The
`arrayAccess` case carries the body of `resolveArrayAccessType` inline and
the `call` case carries the body of `validateCallArgsWithScope` inline so
that every recursive call is structural; the standalone definitions below
are definitionally equal to these inlined copies.  The signature lookup
models the plain-object prototype chain: when the lowered name misses the
own properties but is an `Object.prototype` key (only `"constructor"` is
reachable from tokenized identifiers), the source receives an inherited
truthy non-signature, dereferences `signature.params` (`undefined`) inside
the argument validator, and throws at `expected.length` — modelled by
`setCrashed`. -/
def inferExpressionType (e : ExpressionNode) (scope : Option Scope) (st : AState) :
    StaticType × AState :=
  match e with
  | .literal _ literalType _ => (.basic literalType, st)
  | .identifier name span =>
    match scope with
    | none => (UNKNOWN, st)
    | some sc =>
      match scopeLookup sc name with
      | none => (UNKNOWN, pushError st span "SEM019" ("Undeclared identifier \"" ++ name ++ "\"."))
      | some symbol => (symbol.type, st)
  | .arrayAccess name indices span =>
    match scope with
    | none => (UNKNOWN, st)
    | some sc =>
      match scopeLookup sc name with
      | none => (UNKNOWN, pushError st span "SEM019" ("Undeclared identifier \"" ++ name ++ "\"."))
      | some symbol =>
        match symbol.type with
        | .array elementType dimensions =>
          if indices.length ≠ dimensions.length then
            (.basic elementType,
              pushError st span "SEM027" ("ARRAY \"" ++ name ++ "\" expects " ++
                toString dimensions.length ++ " index value(s), got " ++
                toString indices.length ++ "."))
          else
            (.basic elementType, checkIndexList indices scope st)
        | _ => (UNKNOWN, pushError st span "SEM026" ("Identifier \"" ++ name ++ "\" is not an ARRAY."))
  | .unary operator operand span =>
    let r := inferExpressionType operand scope st
    if operator = "NOT" then
      if isBoolean r.1 then (BOOLEAN, r.2)
      else (BOOLEAN, pushError r.2 span "SEM020" "NOT operator requires a BOOLEAN operand.")
    else
      if isNumeric r.1 then (r.1, r.2)
      else (r.1, pushError r.2 span "SEM021" "Unary minus requires a numeric operand.")
  | .binary operator left right span =>
    let rl := inferExpressionType left scope st
    let rr := inferExpressionType right scope rl.2
    if ["+", "-", "*", "/", "^"].contains operator then
      if !isNumeric rl.1 || !isNumeric rr.1 then
        (UNKNOWN, pushError rr.2 span "SEM022" ("Operator " ++ operator ++ " requires numeric operands."))
      else
        match rl.1, rr.1 with
        | .basic ln, .basic rn =>
          if ln = .REAL ∨ rn = .REAL ∨ operator = "/" then (REAL, rr.2) else (INTEGER, rr.2)
        | _, _ => (INTEGER, rr.2)
    else if ["=", "<", "<=", ">", ">=", "<>"].contains operator then
      (BOOLEAN, rr.2)
    else if ["AND", "OR"].contains operator then
      if !isBoolean rl.1 || !isBoolean rr.1 then
        (BOOLEAN, pushError rr.2 span "SEM023" ("Operator " ++ operator ++ " requires BOOLEAN operands."))
      else (BOOLEAN, rr.2)
    else (UNKNOWN, rr.2)
  | .call name args span =>
    match recGet BUILTIN_FUNCTIONS (jsToUpper name) with
    | some builtin =>
      let st1 :=
        if args.length ≠ builtin.params.length then
          pushError st span "SEM017" ("Routine \"" ++ name ++ "\" expects " ++
            toString builtin.params.length ++ " argument(s), got " ++ toString args.length ++ ".")
        else validateArgsLoop args builtin.params 0 name scope st
      (builtin.returnType, st1)
    | none =>
      match recGet st.functionSignatures (jsToLower name) with
      | none =>
        if OBJECT_PROTOTYPE_KEYS.contains (jsToLower name) then
          (UNKNOWN, setCrashed st)
        else
          (UNKNOWN, pushError st span "SEM024" ("Unknown function \"" ++ name ++ "\"."))
      | some signature =>
        let st1 :=
          if args.length ≠ signature.params.length then
            pushError st span "SEM017" ("Routine \"" ++ name ++ "\" expects " ++
              toString signature.params.length ++ " argument(s), got " ++ toString args.length ++ ".")
          else validateArgsLoop args signature.params 0 name scope st
        (signature.returnType, st1)

/-- Models the index loop of `Analyzer.resolveArrayAccessType`: each index
must infer to `INTEGER`, otherwise `SEM028`. -/
def checkIndexList (l : ExprList) (scope : Option Scope) (st : AState) : AState :=
  match l with
  | .nil => st
  | .cons index rest =>
    let r := inferExpressionType index scope st
    let st1 :=
      match r.1 with
      | .basic .INTEGER => r.2
      | _ => pushError r.2 index.span "SEM028" "Array index must evaluate to INTEGER."
    checkIndexList rest scope st1

/-- Models the `forEach` loop shared by `validateCallArguments` and
`validateCallArgsWithScope`: positional type compatibility, `SEM018` on
mismatch (lengths are equal at every call site). -/
def validateArgsLoop (args : ExprList) (expected : List StaticType) (index : Nat)
    (name : String) (scope : Option Scope) (st : AState) : AState :=
  match args, expected with
  | .cons arg restArgs, e :: restExpected =>
    let r := inferExpressionType arg scope st
    let st1 :=
      if typesCompatible e r.1 then r.2
      else
        pushError r.2 arg.span "SEM018" ("Argument " ++ toString (index + 1) ++ " for \"" ++
          name ++ "\" must be " ++ typeName e ++ ", got " ++ typeName r.1 ++ ".")
    validateArgsLoop restArgs restExpected (index + 1) name scope st1
  | _, _ => st
end

/-- Models `Analyzer.resolveArrayAccessType` (`semantics.ts`), applied to
the fields of an `ArrayAccessNode`. -/
def resolveArrayAccessType (name : String) (indices : ExprList) (span : SourceSpan)
    (scope : Option Scope) (st : AState) : StaticType × AState :=
  match scope with
  | none => (UNKNOWN, st)
  | some sc =>
    match scopeLookup sc name with
    | none => (UNKNOWN, pushError st span "SEM019" ("Undeclared identifier \"" ++ name ++ "\"."))
    | some symbol =>
      match symbol.type with
      | .array elementType dimensions =>
        if indices.length ≠ dimensions.length then
          (.basic elementType,
            pushError st span "SEM027" ("ARRAY \"" ++ name ++ "\" expects " ++
              toString dimensions.length ++ " index value(s), got " ++
              toString indices.length ++ "."))
        else
          (.basic elementType, checkIndexList indices scope st)
      | _ => (UNKNOWN, pushError st span "SEM026" ("Identifier \"" ++ name ++ "\" is not an ARRAY."))

/-- Models `Analyzer.literalFileName` (`semantics.ts`): returns the literal
string value for string literals, otherwise type-checks the expression and
returns nothing. -/
def literalFileName (e : ExpressionNode) (scope : Scope) (st : AState) :
    Option String × AState :=
  match e with
  | .literal (.str v) .STRING _ => (some v, st)
  | _ => (none, (inferExpressionType e (some scope) st).2)

/-- Models `Analyzer.resolveAssignableType` (`semantics.ts`). -/
def resolveAssignableType (target : AssignTarget) (scope : Scope) (st : AState) :
    StaticType × AState :=
  match target with
  | .ident name span =>
    match scopeLookup scope name with
    | none => (UNKNOWN, pushError st span "SEM019" ("Undeclared identifier \"" ++ name ++ "\"."))
    | some symbol =>
      let st1 :=
        if symbol.kind = .constant then
          pushError st span "SEM025" ("Cannot assign/input into CONSTANT \"" ++ name ++ "\".")
        else st
      (symbol.type, st1)
  | .arrayAccess name indices span => resolveArrayAccessType name indices span (some scope) st

/-- Models `Analyzer.validateCallArgsWithScope` (`semantics.ts`). -/
def validateCallArgsWithScope (args : ExprList) (expected : List StaticType)
    (span : SourceSpan) (name : String) (scope : Option Scope) (st : AState) : AState :=
  if args.length ≠ expected.length then
    pushError st span "SEM017" ("Routine \"" ++ name ++ "\" expects " ++
      toString expected.length ++ " argument(s), got " ++ toString args.length ++ ".")
  else validateArgsLoop args expected 0 name scope st

/-- Models `Analyzer.validateCallArguments` (`semantics.ts`; its body is a
verbatim duplicate of `validateCallArgsWithScope` with a non-null scope). -/
def validateCallArguments (args : ExprList) (expected : List StaticType)
    (span : SourceSpan) (name : String) (scope : Scope) (st : AState) : AState :=
  if args.length ≠ expected.length then
    pushError st span "SEM017" ("Routine \"" ++ name ++ "\" expects " ++
      toString expected.length ++ " argument(s), got " ++ toString args.length ++ ".")
  else validateArgsLoop args expected 0 name (some scope) st

/-- Models the `OUTPUT` loop of `analyzeStatements`: infer each value. -/
def inferEachExpr (l : ExprList) (scope : Option Scope) (st : AState) : AState :=
  match l with
  | .nil => st
  | .cons e rest => inferEachExpr rest scope (inferExpressionType e scope st).2

/-- Models the parameter loop shared by the `procedureDefinition` and
`functionDefinition` cases of `analyzeStatements`: define each parameter in
the routine scope, `SEM010` on duplicates. -/
def defineParams (params : List ParameterNode) (scope : Scope) (st : AState) : Scope × AState :=
  match params with
  | [] => (scope, st)
  | param :: rest =>
    let paramType := toStaticType param.typeNode
    let r := scopeDefine scope { name := param.name, kind := .param, type := paramType }
    let st1 :=
      if r.1 then st
      else pushError st param.span "SEM010" ("Duplicate parameter \"" ++ param.name ++ "\".")
    defineParams rest r.2 st1

mutual
/-- Models `Analyzer.analyzeStatements` (`semantics.ts`): the returned
`Bool` is `sawReturn`, which is set only by `return` statements at the top
level of this statement list — the recursive calls for block bodies discard
their own `sawReturn` exactly as the source does.  The scope and the
`openFiles` map are threaded to model in-place mutation. -/
def analyzeStatements (l : StmtList) (scope : Scope) (currentFunctionReturnType : Option StaticType)
    (openFiles : OpenFiles) (st : AState) : Bool × Scope × OpenFiles × AState :=
  match l with
  | .nil => (false, scope, openFiles, st)
  | .cons s rest =>
    let r1 := analyzeStatement s scope currentFunctionReturnType openFiles st
    let r2 := analyzeStatements rest r1.2.1 currentFunctionReturnType r1.2.2.1 r1.2.2.2
    (r1.1 || r2.1, r2.2)

/-- Models one iteration of the `analyzeStatements` loop: the `switch` on
`statement.kind`. -/
def analyzeStatement (s : StatementNode) (scope : Scope) (currentFunctionReturnType : Option StaticType)
    (openFiles : OpenFiles) (st : AState) : Bool × Scope × OpenFiles × AState :=
  match s with
  | .declare identifier typeNode span =>
    let declaredType := toStaticType typeNode
    let r := scopeDefine scope { name := identifier.name, kind := .var, type := declaredType }
    let st1 :=
      if r.1 then st
      else pushError st span "SEM002" ("Duplicate identifier \"" ++ identifier.name ++ "\" in scope.")
    let st2 := { st1 with symbolTypes := recSet st1.symbolTypes (jsToLower identifier.name) declaredType }
    (false, r.2, openFiles, st2)
  | .constant identifier value span =>
    let rv := inferExpressionType value (some scope) st
    let r := scopeDefine scope { name := identifier.name, kind := .constant, type := rv.1 }
    let st1 :=
      if r.1 then rv.2
      else pushError rv.2 span "SEM002" ("Duplicate identifier \"" ++ identifier.name ++ "\" in scope.")
    let st2 := { st1 with symbolTypes := recSet st1.symbolTypes (jsToLower identifier.name) rv.1 }
    (false, r.2, openFiles, st2)
  | .assignment target value span =>
    let rt := resolveAssignableType target scope st
    let rv := inferExpressionType value (some scope) rt.2
    let st1 :=
      if typesCompatible rt.1 rv.1 then rv.2
      else pushError rv.2 span "SEM003" ("Cannot assign " ++ typeName rv.1 ++ " to " ++ typeName rt.1 ++ ".")
    (false, scope, openFiles, st1)
  | .input target _ =>
    (false, scope, openFiles, (resolveAssignableType target scope st).2)
  | .output values _ =>
    (false, scope, openFiles, inferEachExpr values (some scope) st)
  | .ifStmt condition thenBody elseBody _ =>
    let rc := inferExpressionType condition (some scope) st
    let st1 :=
      if isBoolean rc.1 then rc.2
      else pushError rc.2 condition.span "SEM004" "IF condition must evaluate to BOOLEAN."
    let rThen := analyzeStatements thenBody ([] :: scope) currentFunctionReturnType openFiles st1
    let rElse := analyzeStatements elseBody ([] :: scope) currentFunctionReturnType openFiles rThen.2.2.2
    (false, scope, openFiles, rElse.2.2.2)
  | .caseStmt expression clauses _ =>
    let re := inferExpressionType expression (some scope) st
    (false, scope, openFiles, analyzeClauses clauses scope currentFunctionReturnType openFiles re.2)
  | .forStmt iterator startValue endValue stepValue body _ =>
    let st1 :=
      match scopeLookup scope iterator.name with
      | none =>
        pushError st iterator.span "SEM005"
          ("Loop iterator \"" ++ iterator.name ++ "\" must be declared before use.")
      | some iteratorSymbol =>
        match iteratorSymbol.type with
        | .basic .INTEGER => st
        | _ => pushError st iterator.span "SEM006" "FOR iterator must be INTEGER."
    let rs := inferExpressionType startValue (some scope) st1
    let st2 :=
      if isNumeric rs.1 then rs.2
      else pushError rs.2 startValue.span "SEM007" "FOR bounds and STEP must be numeric."
    let re := inferExpressionType endValue (some scope) st2
    let st3 :=
      if isNumeric re.1 then re.2
      else pushError re.2 endValue.span "SEM007" "FOR bounds and STEP must be numeric."
    let st4 :=
      match stepValue with
      | none => st3
      | some stepExpr =>
        let rp := inferExpressionType stepExpr (some scope) st3
        if isNumeric rp.1 then rp.2
        else pushError rp.2 stepExpr.span "SEM007" "FOR bounds and STEP must be numeric."
    let rBody := analyzeStatements body ([] :: scope) currentFunctionReturnType openFiles st4
    (false, scope, openFiles, rBody.2.2.2)
  | .repeatStmt body condition _ =>
    let rBody := analyzeStatements body ([] :: scope) currentFunctionReturnType openFiles st
    let rc := inferExpressionType condition (some scope) rBody.2.2.2
    let st1 :=
      if isBoolean rc.1 then rc.2
      else pushError rc.2 condition.span "SEM008" "UNTIL condition must evaluate to BOOLEAN."
    (false, scope, openFiles, st1)
  | .whileStmt condition body _ =>
    let rc := inferExpressionType condition (some scope) st
    let st1 :=
      if isBoolean rc.1 then rc.2
      else pushError rc.2 condition.span "SEM009" "WHILE condition must evaluate to BOOLEAN."
    let rBody := analyzeStatements body ([] :: scope) currentFunctionReturnType openFiles st1
    (false, scope, openFiles, rBody.2.2.2)
  | .procedureDefinition _ params body _ =>
    let rp := defineParams params ([] :: scope) st
    let rBody := analyzeStatements body rp.1 none [] rp.2
    (false, scope, openFiles, rBody.2.2.2)
  | .functionDefinition name params returnType body span =>
    let rp := defineParams params ([] :: scope) st
    let rBody := analyzeStatements body rp.1 (some (.basic returnType)) [] rp.2
    let st1 :=
      if rBody.1 then rBody.2.2.2
      else
        pushError rBody.2.2.2 span "SEM011"
          ("Function \"" ++ name ++ "\" must contain a RETURN statement.")
    (false, scope, openFiles, st1)
  | .callStatement name args span =>
    match recGet st.procedureSignatures (jsToLower name) with
    | none =>
      if OBJECT_PROTOTYPE_KEYS.contains (jsToLower name) then
        (false, scope, openFiles, setCrashed st)
      else
        (false, scope, openFiles, pushError st span "SEM012" ("Unknown procedure \"" ++ name ++ "\"."))
    | some signature =>
      (false, scope, openFiles, validateCallArguments args signature.params span name scope st)
  | .returnStmt value span =>
    let rv := inferExpressionType value (some scope) st
    let st1 :=
      match currentFunctionReturnType with
      | none => pushError rv.2 span "SEM013" "RETURN is only valid inside FUNCTION definitions."
      | some rt =>
        if typesCompatible rt rv.1 then rv.2
        else
          pushError rv.2 span "SEM014" ("RETURN type mismatch. Expected " ++ typeName rt ++
            ", got " ++ typeName rv.1 ++ ".")
    (true, scope, openFiles, st1)
  | .openfile fileIdentifier mode _ =>
    let rf := literalFileName fileIdentifier scope st
    let openFiles1 :=
      match rf.1 with
      | some f => if f = "" then openFiles else jsObjSet openFiles f mode
      | none => openFiles
    (false, scope, openFiles1, (inferExpressionType fileIdentifier (some scope) rf.2).2)
  | .readfile fileIdentifier target span =>
    let rf := literalFileName fileIdentifier scope st
    let st1 :=
      match rf.1 with
      | some f =>
        if f = "" then rf.2
        else
          match recGet openFiles f with
          | some m =>
            if m ≠ .READ then
              pushError rf.2 span "SEM015" ("READFILE used on write-only handle \"" ++ f ++ "\".")
            else rf.2
          | none =>
            if OBJECT_PROTOTYPE_KEYS.contains f then
              pushError rf.2 span "SEM015" ("READFILE used on write-only handle \"" ++ f ++ "\".")
            else rf.2
      | none => rf.2
    let st2 := (inferExpressionType fileIdentifier (some scope) st1).2
    (false, scope, openFiles, (resolveAssignableType target scope st2).2)
  | .writefile fileIdentifier value span =>
    let rf := literalFileName fileIdentifier scope st
    let st1 :=
      match rf.1 with
      | some f =>
        if f = "" then rf.2
        else
          match recGet openFiles f with
          | some m =>
            if m ≠ .WRITE then
              pushError rf.2 span "SEM016" ("WRITEFILE used on read-only handle \"" ++ f ++ "\".")
            else rf.2
          | none =>
            if OBJECT_PROTOTYPE_KEYS.contains f then
              pushError rf.2 span "SEM016" ("WRITEFILE used on read-only handle \"" ++ f ++ "\".")
            else rf.2
      | none => rf.2
    let st2 := (inferExpressionType fileIdentifier (some scope) st1).2
    (false, scope, openFiles, (inferExpressionType value (some scope) st2).2)
  | .closefile fileIdentifier _ =>
    let rf := literalFileName fileIdentifier scope st
    let openFiles1 :=
      match rf.1 with
      | some f => if f = "" then openFiles else recDelete openFiles f
      | none => openFiles
    (false, scope, openFiles1, (inferExpressionType fileIdentifier (some scope) rf.2).2)

/-- Models the CASE clause loop of `analyzeStatements`: infer the clause
value when present, then analyze the single clause statement in a fresh
child scope with a copy of `openFiles` (the source wraps the statement in a
one-element list; analysing that list is exactly analysing the statement,
and the discarded `sawReturn` is discarded here too). -/
def analyzeClauses (clauses : ClauseList) (scope : Scope) (currentFunctionReturnType : Option StaticType)
    (openFiles : OpenFiles) (st : AState) : AState :=
  match clauses with
  | .nil => st
  | .cons value statement _ rest =>
    let st1 :=
      match value with
      | some v => (inferExpressionType v (some scope) st).2
      | none => st
    let rs := analyzeStatement statement ([] :: scope) currentFunctionReturnType openFiles st1
    analyzeClauses rest scope currentFunctionReturnType openFiles rs.2.2.2
end

/-- Models `Analyzer.predeclareRoutines` (`semantics.ts`): register every
top-level routine in the signature tables and the global scope, `SEM001` on
duplicate or cross-kind collisions.  The duplicate guard is the JS truthy
test on plain-object reads, so a routine named `Constructor` (any casing)
always collides with the inherited `Object.prototype.constructor` and is
never registered. -/
def predeclareRoutines (l : StmtList) (globalScope : Scope) (st : AState) : Scope × AState :=
  match l with
  | .nil => (globalScope, st)
  | .cons s rest =>
    match s with
    | .procedureDefinition name params _ span =>
      let paramsT := params.map (fun p => toStaticType p.typeNode)
      let key := jsToLower name
      if jsObjTruthy st.procedureSignatures key || jsObjTruthy st.functionSignatures key then
        predeclareRoutines rest globalScope
          (pushError st span "SEM001" ("Duplicate routine name \"" ++ name ++ "\"."))
      else
        let sig : ProcedureSignature := { name := name, params := paramsT }
        let st1 := { st with procedureSignatures := recSet st.procedureSignatures key sig }
        let r := scopeDefine globalScope
          { name := name, kind := .procedure, type := UNKNOWN, params := some paramsT }
        predeclareRoutines rest r.2 st1
    | .functionDefinition name params returnType _ span =>
      let paramsT := params.map (fun p => toStaticType p.typeNode)
      let returnTypeS : StaticType := .basic returnType
      let key := jsToLower name
      if jsObjTruthy st.functionSignatures key || jsObjTruthy st.procedureSignatures key then
        predeclareRoutines rest globalScope
          (pushError st span "SEM001" ("Duplicate routine name \"" ++ name ++ "\"."))
      else
        let sig : FunctionSignature := { name := name, params := paramsT, returnType := returnTypeS }
        let st1 := { st with functionSignatures := recSet st.functionSignatures key sig }
        let r := scopeDefine globalScope
          { name := name, kind := .function, type := returnTypeS, params := some paramsT }
        predeclareRoutines rest r.2 st1
    | _ => predeclareRoutines rest globalScope st

/-- Models `analyzeProgram` (`semantics.ts`): the returned `AState` is the
TS `SemanticResult` record. -/
def analyzeProgram (program : ProgramNode) : AState :=
  let st0 : AState :=
    { diagnostics := [], symbolTypes := [],
      functionSignatures := BUILTIN_FUNCTIONS, procedureSignatures := [],
      crashed := false }
  let globalScope : Scope := [[]]
  let r := predeclareRoutines program.body globalScope st0
  (analyzeStatements program.body r.1 none [] r.2).2.2.2

/-- Generator state (`PythonGenerator` fields `lines`, `caseCounter`,
`scopeStack`; the innermost scope frame is the head). -/
structure GState where
  lines : List String
  caseCounter : Nat
  scopeStack : List (List (String × StaticType))
deriving Repr

def pushLine (g : GState) (s : String) : GState := { g with lines := g.lines ++ [s] }

/-- Models `PythonGenerator.pushScope`. -/
def pushScopeGen (g : GState) : GState := { g with scopeStack := [] :: g.scopeStack }

/-- Models `PythonGenerator.popScope`. -/
def popScopeGen (g : GState) : GState := { g with scopeStack := g.scopeStack.tail }

/-- Models `PythonGenerator.declareType` (writes into the innermost frame,
keyed by the lowercased name). -/
def declareTypeGen (g : GState) (name : String) (type : StaticType) : GState :=
  match g.scopeStack with
  | [] => g
  | frame :: rest => { g with scopeStack := recSet frame (jsToLower name) type :: rest }

/-- Walk of the generator's scope stack from the innermost frame outwards
(the loop inside `PythonGenerator.lookupType`). -/
def lookupWalk (sem : AState) (lower : String) : List (List (String × StaticType)) → StaticType
  | [] => (recGet sem.symbolTypes lower).getD .unknown
  | frame :: rest =>
    match recGet frame lower with
    | some t => t
    | none => lookupWalk sem lower rest

/-- Models `PythonGenerator.lookupType`: innermost frame first, then the
analyzer's `symbolTypes`, else unknown. -/
def lookupTypeGen (sem : AState) (g : GState) (name : String) : StaticType :=
  lookupWalk sem (jsToLower name) g.scopeStack

/-- Models `PythonGenerator.normalizeName` — the identity on names. -/
def normalizeName (name : String) : String := name

/-- Models `PythonGenerator.defaultValueLiteral`. -/
def defaultValueLiteral : BasicTypeName → String
  | .INTEGER => "0"
  | .REAL => "0.0"
  | .CHAR => "''"
  | .STRING => "\"\""
  | .BOOLEAN => "False"

/-- Models `PythonGenerator.typeNodeToStatic` (a verbatim duplicate of the
analyzer's `toStaticType`). -/
def typeNodeToStatic : TypeNode → StaticType
  | .basic name _ => .basic name
  | .array elementType dimensions _ => .array elementType dimensions

/-- Models `PythonGenerator.inferStaticType`. -/
def inferStaticTypeGen (sem : AState) (g : GState) : ExpressionNode → StaticType
  | .literal _ literalType _ => .basic literalType
  | .identifier name _ => lookupTypeGen sem g name
  | .arrayAccess name _ _ =>
    match lookupTypeGen sem g name with
    | .array elementType _ => .basic elementType
    | _ => .unknown
  | _ => .unknown

/-- Models `PythonGenerator.resolveTargetType`. -/
def resolveTargetTypeGen (sem : AState) (g : GState) : AssignTarget → StaticType
  | .ident name _ => lookupTypeGen sem g name
  | .arrayAccess name _ _ =>
    match lookupTypeGen sem g name with
    | .array elementType _ => .basic elementType
    | _ => .unknown

/-- Escape of one character inside a JSON string (models the escapes
`JSON.stringify` applies to the characters that can occur here). -/
def jsonEscapeChar (c : Char) : String :=
  if c = '"' then "\\\""
  else if c = '\\' then "\\\\"
  else if c = '\n' then "\\n"
  else if c = '\r' then "\\r"
  else if c = '\t' then "\\t"
  else String.singleton c

/-- Models `JSON.stringify(String(v))` for string/char literal emission. -/
def jsonQuote (s : String) : String :=
  "\"" ++ String.join (s.data.map jsonEscapeChar) ++ "\""

/-- Models the JavaScript `String(value)` rendering of a literal payload. -/
def jsStringOfValue : LiteralValue → String
  | .int n => toString n
  | .realRaw raw => raw
  | .str s => s
  | .bool b => if b then "true" else "false"

mutual
/-- Models `PythonGenerator.emitExpression` (`types.ts`): pure rendering of
an expression into Python text, with aggressive parenthesisation of unary
and binary operators. -/
def emitExpression (e : ExpressionNode) : String :=
  match e with
  | .literal value literalType _ =>
    if literalType = .STRING ∨ literalType = .CHAR then jsonQuote (jsStringOfValue value)
    else if literalType = .BOOLEAN then
      match value with
      | .bool true => "True"
      | _ => "False"
    else jsStringOfValue value
  | .identifier name _ => normalizeName name
  | .arrayAccess name indices _ =>
    normalizeName name ++ "[" ++ emitExprJoin indices ++ "]"
  | .unary operator operand _ =>
    if operator = "NOT" then "(not (" ++ emitExpression operand ++ "))"
    else "(-(" ++ emitExpression operand ++ "))"
  | .binary operator left right _ =>
    let op :=
      if operator = "=" then "=="
      else if operator = "<>" then "!="
      else if operator = "AND" then "and"
      else if operator = "OR" then "or"
      else operator
    "((" ++ emitExpression left ++ ") " ++ op ++ " (" ++ emitExpression right ++ "))"
  | .call name args _ =>
    normalizeName name ++ "(" ++ emitExprJoin args ++ ")"

/-- Models `args.map((a) => this.emitExpression(a)).join(", ")`. -/
def emitExprJoin (l : ExprList) : String :=
  match l with
  | .nil => ""
  | .cons e .nil => emitExpression e
  | .cons e rest => emitExpression e ++ ", " ++ emitExprJoin rest
end

/-- Models `PythonGenerator.emitAssignable` (the `__invalid_target`
fallback of the source is unreachable, since targets are always identifier
or array-access nodes). -/
def emitAssignable : AssignTarget → String
  | .ident name _ => normalizeName name
  | .arrayAccess name indices _ => normalizeName name ++ "[" ++ emitExprJoin indices ++ "]"

/-- Models `"    ".repeat(indentLevel)`. -/
def indentOf (indentLevel : Nat) : String :=
  String.join (List.replicate indentLevel "    ")

/-- Rendering of one array dimension: `(${lower}, ${upper})`. -/
def dimensionText (d : Int × Int) : String :=
  "(" ++ toString d.1 ++ ", " ++ toString d.2 ++ ")"

/-- The fixed runtime prelude emitted by `PythonGenerator.emitPrelude`,
line by line (Python source text carried as string data). -/
def preludeLines : List String :=
  ["import random",
   "",
   "class __PseudoArray:",
   "    def __init__(self, bounds, default_value):",
   "        self._bounds = bounds",
   "        self._default = default_value",
   "        self._store = \x7b\x7d",
   "",
   "    def _norm(self, index):",
   "        if not isinstance(index, tuple):",
   "            index = (index,)",
   "        if len(index) != len(self._bounds):",
   "            raise IndexError('Incorrect index dimensions')",
   "        normalized = []",
   "        for value, bound in zip(index, self._bounds):",
   "            lo, hi = bound",
   "            ivalue = int(value)",
   "            if ivalue < lo or ivalue > hi:",
   "                raise IndexError('Index out of declared range')",
   "            normalized.append(ivalue)",
   "        return tuple(normalized)",
   "",
   "    def __getitem__(self, index):",
   "        key = self._norm(index)",
   "        return self._store.get(key, self._default)",
   "",
   "    def __setitem__(self, index, value):",
   "        key = self._norm(index)",
   "        self._store[key] = value",
   "",
   "_stdin_lines = list(globals().get('__stdin_lines', []))",
   "_stdin_cursor = 0",
   "__stdout = []",
   "__vfs = \x7bk: list(v) for k, v in globals().get('__virtual_files', \x7b\x7d).items()\x7d",
   "__open_files = \x7b\x7d",
   "",
   "def __coerce_input(value, expected_type):",
   "    if expected_type == 'INTEGER':",
   "        return int(value)",
   "    if expected_type == 'REAL':",
   "        return float(value)",
   "    if expected_type == 'BOOLEAN':",
   "        return str(value).strip().upper() == 'TRUE'",
   "    if expected_type == 'CHAR':",
   "        text = str(value)",
   "        return text[0] if text else ''",
   "    return str(value)",
   "",
   "def __input():",
   "    global _stdin_cursor",
   "    if _stdin_cursor >= len(_stdin_lines):",
   "        raise RuntimeError('INPUT requested but no stdin lines remain')",
   "    value = _stdin_lines[_stdin_cursor]",
   "    _stdin_cursor += 1",
   "    return value",
   "",
   "def __output(*values):",
   "    text = ''.join(str(v) for v in values)",
   "    __stdout.append(text)",
   "",
   "def DIV(a, b):",
   "    return int(a // b)",
   "",
   "def MOD(a, b):",
   "    return int(a % b)",
   "",
   "def LENGTH(value):",
   "    return len(str(value))",
   "",
   "def LCASE(value):",
   "    return str(value).lower()",
   "",
   "def UCASE(value):",
   "    return str(value).upper()",
   "",
   "def SUBSTRING(value, start, length):",
   "    start = int(start)",
   "    length = int(length)",
   "    if start < 1:",
   "        start = 1",
   "    text = str(value)",
   "    begin = start - 1",
   "    return text[begin:begin + length]",
   "",
   "def ROUND(value, places):",
   "    return round(float(value), int(places))",
   "",
   "def RANDOM():",
   "    return random.random()",
   "",
   "def OPENFILE(file_identifier, mode):",
   "    name = str(file_identifier)",
   "    if mode == 'WRITE':",
   "        __vfs[name] = []",
   "    elif name not in __vfs:",
   "        __vfs[name] = []",
   "    __open_files[name] = \x7b'mode': mode, 'pointer': 0\x7d",
   "",
   "def READFILE(file_identifier):",
   "    name = str(file_identifier)",
   "    handle = __open_files.get(name)",
   "    if not handle:",
   "        raise RuntimeError(f'File \x7bname\x7d is not open')",
   "    if handle['mode'] != 'READ':",
   "        raise RuntimeError(f'File \x7bname\x7d not opened in READ mode')",
   "    pointer = handle['pointer']",
   "    data = __vfs.get(name, [])",
   "    if pointer >= len(data):",
   "        return ''",
   "    handle['pointer'] += 1",
   "    return data[pointer]",
   "",
   "def WRITEFILE(file_identifier, value):",
   "    name = str(file_identifier)",
   "    handle = __open_files.get(name)",
   "    if not handle:",
   "        raise RuntimeError(f'File \x7bname\x7d is not open')",
   "    if handle['mode'] != 'WRITE':",
   "        raise RuntimeError(f'File \x7bname\x7d not opened in WRITE mode')",
   "    __vfs.setdefault(name, []).append(str(value))",
   "",
   "def CLOSEFILE(file_identifier):",
   "    name = str(file_identifier)",
   "    if name in __open_files:",
   "        del __open_files[name]",
   "",
   "def __inclusive_range(start, end, step=1):",
   "    start = int(start)",
   "    end = int(end)",
   "    step = int(step)",
   "    if step == 0:",
   "        raise RuntimeError('FOR STEP cannot be zero')",
   "    value = start",
   "    if step > 0:",
   "        while value <= end:",
   "            yield value",
   "            value += step",
   "    else:",
   "        while value >= end:",
   "            yield value",
   "            value += step",
   ""]

/-- Models `PythonGenerator.emitPrelude`. -/
def emitPrelude (g : GState) : GState := { g with lines := g.lines ++ preludeLines }

mutual
/-- Models `PythonGenerator.emitStatement` (`types.ts`). -/
def emitStatement (sem : AState) (g : GState) (s : StatementNode) (indentLevel : Nat) : GState :=
  let indent := indentOf indentLevel
  match s with
  | .declare identifier typeNode _ =>
    let name := normalizeName identifier.name
    let staticType := typeNodeToStatic typeNode
    let g1 := declareTypeGen g identifier.name staticType
    match typeNode with
    | .array elementType dimensions _ =>
      let bounds := String.intercalate ", " (dimensions.map dimensionText)
      let defaultValue := defaultValueLiteral elementType
      pushLine g1 (indent ++ name ++ " = __PseudoArray([" ++ bounds ++ "], " ++ defaultValue ++ ")")
    | .basic basicTypeName _ =>
      pushLine g1 (indent ++ name ++ " = " ++ defaultValueLiteral basicTypeName)
  | .constant identifier value _ =>
    let name := normalizeName identifier.name
    let valueS := emitExpression value
    let g1 := declareTypeGen g identifier.name (inferStaticTypeGen sem g value)
    pushLine g1 (indent ++ name ++ " = " ++ valueS)
  | .assignment target value _ =>
    let targetS := emitAssignable target
    let valueS := emitExpression value
    pushLine g (indent ++ targetS ++ " = " ++ valueS)
  | .input target _ =>
    let targetS := emitAssignable target
    match resolveTargetTypeGen sem g target with
    | .basic basicTypeName =>
      pushLine g (indent ++ targetS ++ " = __coerce_input(__input(), \"" ++ basicName basicTypeName ++ "\")")
    | _ => pushLine g (indent ++ targetS ++ " = __input()")
  | .output values _ =>
    pushLine g (indent ++ "__output(" ++ emitExprJoin values ++ ")")
  | .ifStmt condition thenBody elseBody _ =>
    let conditionS := emitExpression condition
    let g1 := pushLine g (indent ++ "if " ++ conditionS ++ ":")
    let g2 := pushScopeGen g1
    let g3 :=
      match thenBody with
      | .nil => pushLine g2 (indent ++ "    pass")
      | _ => emitStatementBlock sem g2 thenBody (indentLevel + 1)
    let g4 := popScopeGen g3
    match elseBody with
    | .nil => g4
    | _ =>
      let g5 := pushLine g4 (indent ++ "else:")
      let g6 := pushScopeGen g5
      let g7 := emitStatementBlock sem g6 elseBody (indentLevel + 1)
      popScopeGen g7
  | .caseStmt expression clauses _ =>
    let caseName := "__case_" ++ toString g.caseCounter
    let g0 := { g with caseCounter := g.caseCounter + 1 }
    let expressionS := emitExpression expression
    let g1 := pushLine g0 (indent ++ caseName ++ " = " ++ expressionS)
    let g2 := emitClauseList sem g1 caseName clauses 0 indent indentLevel
    match clauses with
    | .nil => pushLine g2 (indent ++ "pass")
    | _ => g2
  | .forStmt iterator startValue endValue stepValue body _ =>
    let iteratorS := normalizeName iterator.name
    let startS := emitExpression startValue
    let endS := emitExpression endValue
    let stepS :=
      match stepValue with
      | some stepExpr => emitExpression stepExpr
      | none => "1"
    let g1 := pushLine g
      (indent ++ "for " ++ iteratorS ++ " in __inclusive_range(" ++ startS ++ ", " ++ endS ++ ", " ++ stepS ++ "):")
    let g2 := pushScopeGen g1
    let g3 := declareTypeGen g2 iterator.name (.basic .INTEGER)
    let g4 :=
      match body with
      | .nil => pushLine g3 (indent ++ "    pass")
      | _ => emitStatementBlock sem g3 body (indentLevel + 1)
    popScopeGen g4
  | .repeatStmt body condition _ =>
    let g1 := pushLine g (indent ++ "while True:")
    let g2 := pushScopeGen g1
    let g3 :=
      match body with
      | .nil => pushLine g2 (indent ++ "    pass")
      | _ => emitStatementBlock sem g2 body (indentLevel + 1)
    let conditionS := emitExpression condition
    let g4 := pushLine g3 (indent ++ "    if " ++ conditionS ++ ":")
    let g5 := pushLine g4 (indent ++ "        break")
    popScopeGen g5
  | .whileStmt condition body _ =>
    let conditionS := emitExpression condition
    let g1 := pushLine g (indent ++ "while " ++ conditionS ++ ":")
    let g2 := pushScopeGen g1
    let g3 :=
      match body with
      | .nil => pushLine g2 (indent ++ "    pass")
      | _ => emitStatementBlock sem g2 body (indentLevel + 1)
    popScopeGen g3
  | .procedureDefinition _ _ _ _ => g
  | .functionDefinition _ _ _ _ _ => g
  | .callStatement name args _ =>
    pushLine g (indent ++ normalizeName name ++ "(" ++ emitExprJoin args ++ ")")
  | .returnStmt value _ =>
    pushLine g (indent ++ "return " ++ emitExpression value)
  | .openfile fileIdentifier mode _ =>
    let file := emitExpression fileIdentifier
    pushLine g (indent ++ "OPENFILE(" ++ file ++ ", \"" ++ fileModeName mode ++ "\")")
  | .readfile fileIdentifier target _ =>
    let file := emitExpression fileIdentifier
    let targetS := emitAssignable target
    pushLine g (indent ++ targetS ++ " = READFILE(" ++ file ++ ")")
  | .writefile fileIdentifier value _ =>
    let file := emitExpression fileIdentifier
    let valueS := emitExpression value
    pushLine g (indent ++ "WRITEFILE(" ++ file ++ ", " ++ valueS ++ ")")
  | .closefile fileIdentifier _ =>
    let file := emitExpression fileIdentifier
    pushLine g (indent ++ "CLOSEFILE(" ++ file ++ ")")

/-- Models `PythonGenerator.emitStatementBlock`. -/
def emitStatementBlock (sem : AState) (g : GState) (l : StmtList) (indentLevel : Nat) : GState :=
  match l with
  | .nil => g
  | .cons s rest => emitStatementBlock sem (emitStatement sem g s indentLevel) rest indentLevel

/-- Models the clause loop of the `case` branch of `emitStatement`:
`OTHERWISE` clauses emit `else:` without advancing `branchCount`; value
clauses emit `if`/`elif` comparisons against the synthetic case variable. -/
def emitClauseList (sem : AState) (g : GState) (caseName : String) (clauses : ClauseList)
    (branchCount : Nat) (indent : String) (indentLevel : Nat) : GState :=
  match clauses with
  | .nil => g
  | .cons value statement _ rest =>
    match value with
    | none =>
      let g1 := pushLine g (indent ++ "else:")
      let g2 := emitStatement sem g1 statement (indentLevel + 1)
      emitClauseList sem g2 caseName rest branchCount indent indentLevel
    | some v =>
      let branchPrefix := if branchCount = 0 then "if" else "elif"
      let clauseValue := emitExpression v
      let g1 := pushLine g (indent ++ branchPrefix ++ " " ++ caseName ++ " == " ++ clauseValue ++ ":")
      let g2 := emitStatement sem g1 statement (indentLevel + 1)
      emitClauseList sem g2 caseName rest (branchCount + 1) indent indentLevel
end

/-- Models `PythonGenerator.emitProcedureDefinition`. -/
def emitProcedureDefinition (sem : AState) (g : GState) (name : String)
    (params : List ParameterNode) (body : StmtList) : GState :=
  let paramsS := String.intercalate ", " (params.map (fun p => normalizeName p.name))
  let g1 := pushLine g ("def " ++ normalizeName name ++ "(" ++ paramsS ++ "):")
  let g2 := pushScopeGen g1
  let g3 := params.foldl (fun acc p => declareTypeGen acc p.name (typeNodeToStatic p.typeNode)) g2
  let g4 :=
    match body with
    | .nil => pushLine g3 "    pass"
    | _ => emitStatementBlock sem g3 body 1
  popScopeGen g4

/-- Models `PythonGenerator.emitFunctionDefinition`. -/
def emitFunctionDefinition (sem : AState) (g : GState) (name : String)
    (params : List ParameterNode) (body : StmtList) : GState :=
  let paramsS := String.intercalate ", " (params.map (fun p => normalizeName p.name))
  let g1 := pushLine g ("def " ++ normalizeName name ++ "(" ++ paramsS ++ "):")
  let g2 := pushScopeGen g1
  let g3 := params.foldl (fun acc p => declareTypeGen acc p.name (typeNodeToStatic p.typeNode)) g2
  let g4 :=
    match body with
    | .nil => pushLine g3 "    return None"
    | _ => emitStatementBlock sem g3 body 1
  popScopeGen g4

/-- Walk of the program body that emits exactly the routine definitions, in
source order, each followed by a blank line (equivalent to the source's
`filter` + loop). -/
def emitDefinitionList (sem : AState) (g : GState) : StmtList → GState
  | .nil => g
  | .cons s rest =>
    match s with
    | .procedureDefinition name params body _ =>
      emitDefinitionList sem (pushLine (emitProcedureDefinition sem g name params body) "") rest
    | .functionDefinition name params _ body _ =>
      emitDefinitionList sem (pushLine (emitFunctionDefinition sem g name params body) "") rest
    | _ => emitDefinitionList sem g rest

/-- Models the source's `mainStatements` filter: every statement that is
not a routine definition, in order. -/
def filterMain : StmtList → StmtList
  | .nil => .nil
  | .cons s rest =>
    match s with
    | .procedureDefinition _ _ _ _ => filterMain rest
    | .functionDefinition _ _ _ _ _ => filterMain rest
    | _ => .cons s (filterMain rest)

/-- The `lines` array built by `PythonGenerator.generate` (`types.ts`):
prelude, routine definitions, `__main__` wrapper, final call. -/
def generateLines (program : ProgramNode) (sem : AState) : List String :=
  let g0 : GState := { lines := [], caseCounter := 0, scopeStack := [[]] }
  let g1 := emitPrelude g0
  let g2 := emitDefinitionList sem g1 program.body
  let g3 := pushLine g2 "def __main__():"
  let g4 := pushScopeGen g3
  let mainStatements := filterMain program.body
  let g5 :=
    match mainStatements with
    | .nil => pushLine g4 "    pass"
    | _ => emitStatementBlock sem g4 mainStatements 1
  let g6 := popScopeGen g5
  (pushLine (pushLine g6 "") "__main__()").lines

/-- Models `generatePythonCode` / `PythonGenerator.generate` (`types.ts`):
the built lines joined by `"\n"`. -/
def generatePythonCode (program : ProgramNode) (sem : AState) : String :=
  String.intercalate "\n" (generateLines program sem)

/-- Compile request (`types.ts`, `CompileRequest`; the `strict` field is
the literal `true` and is never read). -/
structure CompileRequest where
  source : String
  filename : String
deriving Repr

/-- Compile result (`types.ts`, `CompileResult`): `astJson` and
`pythonCode` are optional fields on the wire. -/
structure CompileResult where
  success : Bool
  diagnostics : List Diagnostic
  astJson : Option String
  pythonCode : Option String
deriving Repr

/-- Stand-in for the host `JSON.stringify(ast, null, 2)` call in the
facade: serialisation is a JavaScript builtin, not repository code, and no
claim refers to the content of `astJson` — only to which fields are present
on the result — so the text itself is not modelled. -/
def astJsonOf (_ : ProgramNode) : String := "ast"

/-- Models the compiler facade `compilePseudocode` (`part_008`) from the
parser's outputs onwards: run the semantic analyzer, merge and sort the
diagnostics, and gate `pythonCode` emission on the absence of any
error-severity diagnostic.  Quantifying over `ast` and `parseDiagnostics`
covers the facade's behaviour on every source input, whatever the parser
produced for it. -/
def compileFromStages (ast : ProgramNode) (parseDiagnostics : List Diagnostic) : CompileResult :=
  let semanticResult := analyzeProgram ast
  let diagnostics := sortDiags (parseDiagnostics ++ semanticResult.diagnostics)
  if diagnostics.any (fun d => decide (d.severity = Severity.error)) then
    { success := false, diagnostics := diagnostics,
      astJson := some (astJsonOf ast), pythonCode := none }
  else
    { success := true, diagnostics := diagnostics,
      astJson := some (astJsonOf ast),
      pythonCode := some (generatePythonCode ast semanticResult) }

/-- Models the loop `while value <= end: yield value; value += step` of the
emitted `__inclusive_range` helper (positive step). -/
def rangeUp (value endV step : Int) (hs : 0 < step) : List Int :=
  if value ≤ endV then value :: rangeUp (value + step) endV step hs else []
termination_by (endV + 1 - value).toNat
decreasing_by omega

/-- Models the loop `while value >= end: yield value; value += step` of the
emitted `__inclusive_range` helper (negative step). -/
def rangeDown (value endV step : Int) (hs : step < 0) : List Int :=
  if value ≥ endV then value :: rangeDown (value + step) endV step hs else []
termination_by (value + 1 - endV).toNat
decreasing_by omega

/-- Models the emitted `__inclusive_range(start, end, step)` generator: the
arguments are already integers for integer-typed FOR loops (the helper's
`int(...)` conversions are identities there); a zero step raises
`RuntimeError('FOR STEP cannot be zero')`, modelled as `Except.error`. -/
def inclusiveRange (start endV step : Int) : Except String (List Int) :=
  if h0 : step = 0 then .error "FOR STEP cannot be zero"
  else if hpos : 0 < step then .ok (rangeUp start endV step hpos)
  else .ok (rangeDown start endV step (by omega))

/-- Open-file handle of the emitted runtime (`\x7b'mode': mode, 'pointer': 0\x7d`). -/
structure PyFileHandle where
  mode : String
  pointer : Nat
deriving DecidableEq, Repr

/-- Virtual-file state of the emitted runtime: the `__vfs` dictionary of
line lists and the `__open_files` dictionary of handles. -/
structure PyRuntimeFiles where
  vfs : List (String × List String)
  openFiles : List (String × PyFileHandle)
deriving Repr

/-- Models the emitted `OPENFILE` helper: `WRITE` truncates (or creates)
the virtual file, `READ` creates it when missing, and the handle is
(re)created with pointer 0. -/
def pyOPENFILE (st : PyRuntimeFiles) (name : String) (mode : String) : PyRuntimeFiles :=
  let vfs1 :=
    if mode = "WRITE" then recSet st.vfs name []
    else
      match recGet st.vfs name with
      | some _ => st.vfs
      | none => recSet st.vfs name []
  { vfs := vfs1, openFiles := recSet st.openFiles name { mode := mode, pointer := 0 } }

/-- Models the emitted `READFILE` helper: raises when the handle is missing
or not in READ mode; at or past the end of the data it returns the empty
string with the state unchanged; otherwise it returns the current line and
advances the pointer. -/
def pyREADFILE (st : PyRuntimeFiles) (name : String) : Except String (String × PyRuntimeFiles) :=
  match recGet st.openFiles name with
  | none => .error ("File " ++ name ++ " is not open")
  | some handle =>
    if handle.mode ≠ "READ" then .error ("File " ++ name ++ " not opened in READ mode")
    else
      let data := (recGet st.vfs name).getD []
      if data.length ≤ handle.pointer then .ok ("", st)
      else
        .ok (data.getD handle.pointer "",
          { st with openFiles :=
              recSet st.openFiles name { handle with pointer := handle.pointer + 1 } })

/-- Models the emitted `WRITEFILE` helper. -/
def pyWRITEFILE (st : PyRuntimeFiles) (name : String) (value : String) :
    Except String PyRuntimeFiles :=
  match recGet st.openFiles name with
  | none => .error ("File " ++ name ++ " is not open")
  | some handle =>
    if handle.mode ≠ "WRITE" then .error ("File " ++ name ++ " not opened in WRITE mode")
    else
      let data := (recGet st.vfs name).getD []
      .ok { st with vfs := recSet st.vfs name (data ++ [value]) }

/-- Models the emitted `CLOSEFILE` helper. -/
def pyCLOSEFILE (st : PyRuntimeFiles) (name : String) : PyRuntimeFiles :=
  { st with openFiles := recDelete st.openFiles name }

/-- Iterated `READFILE` on one handle, collecting the returned lines. -/
def pyReadN (st : PyRuntimeFiles) (name : String) : Nat → Except String (List String × PyRuntimeFiles)
  | 0 => .ok ([], st)
  | n + 1 =>
    match pyREADFILE st name with
    | .error e => .error e
    | .ok (line, st1) =>
      match pyReadN st1 name n with
      | .error e => .error e
      | .ok (rest, st2) => .ok (line :: rest, st2)

mutual
/-- Follows the spec's words for the RETURN-presence contract (claim C2):
a RETURN statement is textually present anywhere in a statement list,
descending into IF branches, CASE clauses and loop bodies (a RETURN inside
a nested routine definition belongs to that routine). -/
def stmtListHasReturnSpec : StmtList → Bool
  | .nil => false
  | .cons s rest => stmtHasReturnSpec s || stmtListHasReturnSpec rest

/-- Textual RETURN presence in one statement (spec-side predicate). -/
def stmtHasReturnSpec : StatementNode → Bool
  | .returnStmt _ _ => true
  | .ifStmt _ thenBody elseBody _ => stmtListHasReturnSpec thenBody || stmtListHasReturnSpec elseBody
  | .caseStmt _ clauses _ => clausesHaveReturnSpec clauses
  | .forStmt _ _ _ _ body _ => stmtListHasReturnSpec body
  | .repeatStmt body _ _ => stmtListHasReturnSpec body
  | .whileStmt _ body _ => stmtListHasReturnSpec body
  | _ => false

/-- Textual RETURN presence in CASE clauses (spec-side predicate). -/
def clausesHaveReturnSpec : ClauseList → Bool
  | .nil => false
  | .cons _ s _ rest => stmtHasReturnSpec s || clausesHaveReturnSpec rest
end

/-- Predicate: the expression is a string literal, i.e. exactly the shape
`literalFileName` extracts a file name from. -/
def isStringLiteralExpr : ExpressionNode → Bool
  | .literal (.str _) .STRING _ => true
  | _ => false

/-- Shared placeholder span for the concrete example programs (spans do not
affect the analyzed diagnostic codes or the emitted code text). -/
def exSpan : SourceSpan := { startLine := 1, startColumn := 1, endLine := 1, endColumn := 1 }

/-- Body of the C2 example function: `IF TRUE THEN RETURN 1 ELSE RETURN 2
ENDIF` — a RETURN is textually present in both branches, none at the top
level of the body. -/
def c2FunctionBody : StmtList :=
  .cons
    (.ifStmt (.literal (.bool true) .BOOLEAN exSpan)
      (.cons (.returnStmt (.literal (.int 1) .INTEGER exSpan) exSpan) .nil)
      (.cons (.returnStmt (.literal (.int 2) .INTEGER exSpan) exSpan) .nil)
      exSpan)
    .nil

/-- C2 example: `FUNCTION F() RETURNS INTEGER` with `c2FunctionBody`. -/
def c2Program : ProgramNode :=
  { body := .cons (.functionDefinition "F" [] .INTEGER c2FunctionBody exSpan) .nil,
    span := exSpan }

/-- C3 example: `DECLARE Total : INTEGER` followed by `total <- 1` (the use
is spelled in lower case). -/
def c3Program : ProgramNode :=
  { body :=
      .cons (.declare { name := "Total", span := exSpan } (.basic .INTEGER exSpan) exSpan)
        (.cons (.assignment (.ident "total" exSpan) (.literal (.int 1) .INTEGER exSpan) exSpan) .nil),
    span := exSpan }

/-- C4 example: `OUTPUT x + 1` with `x` undeclared. -/
def c4Program : ProgramNode :=
  { body :=
      .cons (.output
        (.cons (.binary "+" (.identifier "x" exSpan) (.literal (.int 1) .INTEGER exSpan) exSpan) .nil)
        exSpan) .nil,
    span := exSpan }

/-- C4 array example: `DECLARE A : ARRAY[1:3] OF INTEGER` then
`OUTPUT A[y]` with `y` undeclared, so the index type is unknown. -/
def c4ArrayProgram : ProgramNode :=
  { body :=
      .cons (.declare { name := "A", span := exSpan } (.array .INTEGER [(1, 3)] exSpan) exSpan)
        (.cons (.output
          (.cons (.arrayAccess "A" (.cons (.identifier "y" exSpan) .nil) exSpan) .nil)
          exSpan) .nil),
    span := exSpan }

/-- A one-frame scope binding the lowercase key "total", used by the C3
witness. -/
def c3WitnessScope : Scope :=
  [[("total", { name := "Total", kind := .var, type := INTEGER })]]

/-- The AST the parser produces for the one-line source
`CALL Constructor`: a single CALL statement (spans irrelevant). -/
def c9Program : ProgramNode :=
  { body := .cons (.callStatement "Constructor" .nil exSpan) .nil, span := exSpan }

/-- Scope with `x : STRING`, used by the C7 prototype-quirk
counterexample so that the READFILE targets resolve cleanly. -/
def c7QuirkScope : Scope :=
  [[("x", { name := "x", kind := .var, type := STRING })]]

/-- Runtime file state for the C10 witness: `F` is open for reading with
the pointer at the end of a one-line file. -/
def c10WitnessState : PyRuntimeFiles :=
  { vfs := [("F", ["line1"])],
    openFiles := [("F", { mode := "READ", pointer := 1 })] }

/-- Token kinds (`tokenizer.ts`, `TokenType`). -/
inductive TokenType
  | EOF
  | NEWLINE
  | IDENTIFIER
  | INTEGER_LITERAL
  | REAL_LITERAL
  | STRING_LITERAL
  | CHAR_LITERAL
  | KEYWORD
  | ASSIGN
  | COLON
  | COMMA
  | LPAREN
  | RPAREN
  | LBRACKET
  | RBRACKET
  | PLUS
  | MINUS
  | STAR
  | SLASH
  | CARET
  | EQ
  | LT
  | LTE
  | GT
  | GTE
  | NEQ
deriving DecidableEq, Repr

/-- Token record (`tokenizer.ts`, `Token`). -/
structure Token where
  type : TokenType
  lexeme : String
  keyword : Option String := none
  span : SourceSpan
deriving DecidableEq, Repr

/-- The closed keyword set (`tokenizer.ts`, `KEYWORDS`). -/
def KEYWORDS : List String :=
  ["DECLARE", "CONSTANT", "ARRAY", "OF", "INTEGER", "REAL", "CHAR", "STRING", "BOOLEAN",
   "INPUT", "OUTPUT", "IF", "THEN", "ELSE", "ENDIF", "CASE", "OTHERWISE", "ENDCASE",
   "FOR", "TO", "STEP", "NEXT", "REPEAT", "UNTIL", "WHILE", "DO", "ENDWHILE",
   "PROCEDURE", "ENDPROCEDURE", "FUNCTION", "RETURNS", "ENDFUNCTION", "CALL", "RETURN",
   "OPENFILE", "READFILE", "WRITEFILE", "CLOSEFILE", "READ", "WRITE",
   "TRUE", "FALSE", "AND", "OR", "NOT",
   "DIV", "MOD", "LENGTH", "LCASE", "UCASE", "SUBSTRING", "ROUND", "RANDOM"]

/-- Models the regex `/[0-9]/`. -/
def isDigitChar (c : Char) : Bool := decide (48 ≤ c.toNat ∧ c.toNat ≤ 57)

/-- Models the regex `/[A-Za-z]/`. -/
def isAlphaChar (c : Char) : Bool :=
  decide ((65 ≤ c.toNat ∧ c.toNat ≤ 90) ∨ (97 ≤ c.toNat ∧ c.toNat ≤ 122))

/-- Models the regex `/[A-Za-z0-9]/`. -/
def isAlphaNumChar (c : Char) : Bool := isAlphaChar c || isDigitChar c

/-- Longest prefix satisfying a predicate together with the remaining
characters (models the tokenizer's `while (pred(current())) advance()`
inner loops). -/
def takeWhileChars (p : Char → Bool) : List Char → List Char × List Char
  | [] => ([], [])
  | c :: cs =>
    if p c then ((c :: (takeWhileChars p cs).1), (takeWhileChars p cs).2)
    else ([], c :: cs)

/-- The single-character token table (`tokenizer.ts`, `singleCharTokens`). -/
def singleCharToken (c : Char) : Option TokenType :=
  if c = ':' then some .COLON
  else if c = ',' then some .COMMA
  else if c = '(' then some .LPAREN
  else if c = ')' then some .RPAREN
  else if c = '[' then some .LBRACKET
  else if c = ']' then some .RBRACKET
  else if c = '+' then some .PLUS
  else if c = '-' then some .MINUS
  else if c = '*' then some .STAR
  else if c = '/' then some .SLASH
  else if c = '^' then some .CARET
  else if c = '=' then some .EQ
  else if c = '<' then some .LT
  else if c = '>' then some .GT
  else none

/-- Build a span on one line (the tokenizer's `buildSpan` applied to the
common same-line case). -/
def lineSpan (line startColumn endColumn : Nat) : SourceSpan :=
  { startLine := line, startColumn := startColumn, endLine := line, endColumn := endColumn }

theorem takeWhileChars_rest_length (p : Char → Bool) (cs : List Char) :
    (takeWhileChars p cs).2.length ≤ cs.length := by
  induction cs with
  | nil => simp [takeWhileChars]
  | cons c cs ih =>
    by_cases h : p c = true
    · simp only [takeWhileChars, h, if_true]
      exact le_trans ih (Nat.le_succ _)
    · simp [takeWhileChars, h]

theorem takeWhileChars_rest_length_lt (p : Char → Bool) (c : Char) (cs : List Char)
    (h : p c = true) :
    (takeWhileChars p (c :: cs)).2.length < (c :: cs).length := by
  simp only [takeWhileChars, h, if_true]
  have := takeWhileChars_rest_length p cs
  simp only [List.length_cons]
  omega

/-- The ASCII single-quote character (written via its code point to keep
character-literal quoting simple). -/
def QUOTECHAR : Char := Char.ofNat 39

/-- Models the tokenizer's main scan loop (`tokenizer.ts`, the body of
`tokenize`): one iteration per branch, threading the position counters,
token vector and diagnostics.  Characters are consumed from a list, which
models the source string indexed left to right. -/
def tokenizeLoop (cs : List Char) (line column : Nat)
    (tokens : List Token) (diagnostics : List Diagnostic) :
    List Token × List Diagnostic × Nat × Nat :=
  match cs with
  | [] => (tokens, diagnostics, line, column)
  | c :: rest =>
    if c = ' ' ∨ c = '\t' ∨ c = '\r' then
      tokenizeLoop rest line (column + 1) tokens diagnostics
    else if c = '\n' then
      tokenizeLoop rest (line + 1) 1
        (tokens ++ [{ type := .NEWLINE, lexeme := "\\n", span := lineSpan line column column }])
        diagnostics
    else if hcm : c = '/' ∧ rest.head? = some '/' then
      let sk := takeWhileChars (fun ch => decide (ch ≠ '\n')) (c :: rest)
      tokenizeLoop sk.2 line (column + sk.1.length) tokens diagnostics
    else if c = '←' then
      tokenizeLoop rest line (column + 1)
        (tokens ++ [{ type := .ASSIGN, lexeme := String.singleton c,
                      span := lineSpan line column column }])
        diagnostics
    else if c = '<' ∧ rest.head? = some '-' then
      tokenizeLoop rest.tail line (column + 2)
        (tokens ++ [{ type := .ASSIGN, lexeme := "<-",
                      span := lineSpan line column (column + 1) }])
        diagnostics
    else if c = '<' ∧ rest.head? = some '=' then
      tokenizeLoop rest.tail line (column + 2)
        (tokens ++ [{ type := .LTE, lexeme := "<=",
                      span := lineSpan line column (column + 1) }])
        diagnostics
    else if c = '>' ∧ rest.head? = some '=' then
      tokenizeLoop rest.tail line (column + 2)
        (tokens ++ [{ type := .GTE, lexeme := ">=",
                      span := lineSpan line column (column + 1) }])
        diagnostics
    else if c = '<' ∧ rest.head? = some '>' then
      tokenizeLoop rest.tail line (column + 2)
        (tokens ++ [{ type := .NEQ, lexeme := "<>",
                      span := lineSpan line column (column + 1) }])
        diagnostics
    else
      match hsc : singleCharToken c with
      | some tokenType =>
        tokenizeLoop rest line (column + 1)
          (tokens ++ [{ type := tokenType, lexeme := String.singleton c,
                        span := lineSpan line column column }])
          diagnostics
      | none =>
        if c = '"' then
          let content := takeWhileChars (fun ch => decide (ch ≠ '"' ∧ ch ≠ '\n')) rest
          let col1 := column + 1 + content.1.length
          if content.2.head? = some '"' then
            tokenizeLoop content.2.tail line (col1 + 1)
              (tokens ++ [{ type := .STRING_LITERAL,
                            lexeme := String.mk ('"' :: (content.1 ++ ['"'])),
                            span := lineSpan line column col1 }])
              diagnostics
          else
            tokenizeLoop content.2 line col1
              (tokens ++ [{ type := .STRING_LITERAL,
                            lexeme := String.mk ('"' :: content.1),
                            span := lineSpan line column (col1 - 1) }])
              (diagnostics ++
                [{ code := "SYN008",
                   message := "Unterminated string literal.",
                   severity := .error, line := line, column := column,
                   endLine := line, endColumn := col1,
                   hint := some "String literals must end with a closing double quote." }])
        else if hq : c = QUOTECHAR ∨ c = 'ꞌ' then
          let content := takeWhileChars (fun ch => decide (ch ≠ c ∧ ch ≠ '\n')) rest
          let col1 := column + 1 + content.1.length
          if content.2.head? = some c then
            tokenizeLoop content.2.tail line (col1 + 1)
              (tokens ++ [{ type := .CHAR_LITERAL,
                            lexeme := String.mk (c :: (content.1 ++ [c])),
                            span := lineSpan line column col1 }])
              diagnostics
          else
            tokenizeLoop content.2 line col1
              (tokens ++ [{ type := .CHAR_LITERAL,
                            lexeme := String.mk (c :: content.1),
                            span := lineSpan line column (col1 - 1) }])
              (diagnostics ++
                [{ code := "SYN009",
                   message := "Unterminated character literal.",
                   severity := .error, line := line, column := column,
                   endLine := line, endColumn := col1,
                   hint := some "Character literals must end with a closing single quote." }])
        else if hd : isDigitChar c = true then
          let ints := takeWhileChars isDigitChar (c :: rest)
          let col1 := column + ints.1.length
          if ints.2.head? = some '.' ∧ ((ints.2.tail.head?).map isDigitChar).getD false = true then
            let frac := takeWhileChars isDigitChar ints.2.tail
            tokenizeLoop frac.2 line (col1 + 1 + frac.1.length)
              (tokens ++ [{ type := .REAL_LITERAL,
                            lexeme := String.mk (ints.1 ++ '.' :: frac.1),
                            span := lineSpan line column (col1 + frac.1.length) }])
              diagnostics
          else
            tokenizeLoop ints.2 line col1
              (tokens ++ [{ type := .INTEGER_LITERAL, lexeme := String.mk ints.1,
                            span := lineSpan line column (col1 - 1) }])
              diagnostics
        else if ha : isAlphaChar c = true then
          let word := takeWhileChars isAlphaNumChar (c :: rest)
          let lexeme := String.mk word.1
          let upper := jsToUpper lexeme
          let col1 := column + word.1.length
          if KEYWORDS.contains upper then
            tokenizeLoop word.2 line col1
              (tokens ++ [{ type := .KEYWORD, lexeme := lexeme, keyword := some upper,
                            span := lineSpan line column (col1 - 1) }])
              (if lexeme ≠ upper then
                diagnostics ++
                  [{ code := "SYN001",
                     message := "Keyword \"" ++ upper ++ "\" must be uppercase in strict mode.",
                     severity := .error, line := line, column := column,
                     endLine := line, endColumn := col1 - 1,
                     hint := some ("Use \"" ++ upper ++ "\" exactly.") }]
              else diagnostics)
          else
            tokenizeLoop word.2 line col1
              (tokens ++ [{ type := .IDENTIFIER, lexeme := lexeme,
                            span := lineSpan line column (col1 - 1) }])
              diagnostics
        else
          tokenizeLoop rest line (column + 1) tokens
            (diagnostics ++
              [{ code := "SYN002",
                 message := "Unexpected character \"" ++ String.singleton c ++ "\".",
                 severity := .error, line := line, column := column,
                 endLine := line, endColumn := column,
                 hint := some "Remove the character or replace it with valid IGCSE pseudocode syntax." }])
termination_by cs.length
decreasing_by
  all_goals simp only [List.length_cons]
  all_goals
    first
    | omega
    | (have h2 := List.length_tail cs
       omega)
    | (have h1 := takeWhileChars_rest_length_lt (fun ch => decide (ch ≠ '\n')) c cs
         (by rw [hcm.1]; rfl)
       simp only [List.length_cons] at h1
       omega)
    | (have h1 := takeWhileChars_rest_length (fun ch => decide (ch ≠ '"' ∧ ch ≠ '\n')) cs
       have h2 := List.length_tail ((takeWhileChars (fun ch => decide (ch ≠ '"' ∧ ch ≠ '\n')) cs).2)
       omega)
    | (have h1 := takeWhileChars_rest_length (fun ch => decide (ch ≠ c ∧ ch ≠ '\n')) cs
       have h2 := List.length_tail ((takeWhileChars (fun ch => decide (ch ≠ c ∧ ch ≠ '\n')) cs).2)
       omega)
    | (have h1 := takeWhileChars_rest_length isDigitChar ((takeWhileChars isDigitChar (c :: cs)).2.tail)
       have h2 := List.length_tail ((takeWhileChars isDigitChar (c :: cs)).2)
       have h3 := takeWhileChars_rest_length isDigitChar (c :: cs)
       simp only [List.length_cons] at h3
       omega)
    | (have h1 := takeWhileChars_rest_length_lt isDigitChar c cs hd
       simp only [List.length_cons] at h1
       omega)
    | (have h1 := takeWhileChars_rest_length_lt isAlphaNumChar c cs
         (by simp [isAlphaNumChar, ha])
       simp only [List.length_cons] at h1
       omega)

/-- Models `tokenize` (`tokenizer.ts`): scan the source and append the
terminal EOF token. -/
def tokenize (source : String) : List Token × List Diagnostic :=
  let r := tokenizeLoop source.data 1 1 [] []
  (r.1 ++ [{ type := .EOF, lexeme := "", span := lineSpan r.2.2.1 r.2.2.2 r.2.2.2 }],
   r.2.1)

/-- Models `createFallbackSpan` (`types.ts`). -/
def createFallbackSpan : SourceSpan :=
  { startLine := 1, startColumn := 1, endLine := 1, endColumn := 1 }

/-- The fallback EOF token the parser substitutes for out-of-range
accesses (`Parser.previous` / `Parser.current`). -/
def eofToken : Token := { type := .EOF, lexeme := "", span := createFallbackSpan }

/-- Models `spanFrom` (`types.ts`). -/
def spanFrom (start endSpan : SourceSpan) : SourceSpan :=
  { startLine := start.startLine, startColumn := start.startColumn,
    endLine := endSpan.endLine, endColumn := endSpan.endColumn }

/-- Models the object-spread `{ ...expression, span }` used by the
parenthesised-expression case of `parsePrimary`. -/
def ExpressionNode.withSpan : ExpressionNode → SourceSpan → ExpressionNode
  | .literal value literalType _, sp => .literal value literalType sp
  | .identifier name _, sp => .identifier name sp
  | .unary operator operand _, sp => .unary operator operand sp
  | .binary operator left right _, sp => .binary operator left right sp
  | .call name args _, sp => .call name args sp
  | .arrayAccess name indices _, sp => .arrayAccess name indices sp

/-- Append at the end of an expression vector (models `args.push(...)`). -/
def ExprList.push : ExprList → ExpressionNode → ExprList
  | .nil, e => .cons e .nil
  | .cons h t, e => .cons h (ExprList.push t e)

/-- Append at the end of a statement vector (models `statements.push`). -/
def StmtList.push : StmtList → StatementNode → StmtList
  | .nil, s => .cons s .nil
  | .cons h t, s => .cons h (StmtList.push t s)

/-- Append at the end of a clause vector (models `clauses.push`). -/
def ClauseList.push : ClauseList → Option ExpressionNode → StatementNode → SourceSpan → ClauseList
  | .nil, v, s, sp => .cons v s sp .nil
  | .cons v0 s0 sp0 t, v, s, sp => .cons v0 s0 sp0 (ClauseList.push t v s sp)

/-- Span of the last element of an expression vector, with a default
(models `values.length > 0 ? values[values.length - 1].span : fallback`). -/
def ExprList.lastSpanD : ExprList → SourceSpan → SourceSpan
  | .nil, sp => sp
  | .cons e .nil, _ => e.span
  | .cons _ (.cons e t), sp => ExprList.lastSpanD (.cons e t) sp

/-- Models `Number.parseInt(lexeme, 10)`: the value of the leading digit
run, or `none` for NaN. -/
def jsParseIntOpt (s : String) : Option Int :=
  let digits := (takeWhileChars isDigitChar s.data).1
  if digits = [] then none
  else some (Int.ofNat (digits.foldl (fun acc c => acc * 10 + (c.toNat - 48)) 0))

/-- Models `lexeme.slice(1, -1)`: drop the first and last characters. -/
def jsSliceOneNegOne (s : String) : String :=
  String.mk (s.data.drop 1).dropLast

/-- The parser's builtin-callable keyword set (`types.ts`,
`BUILTIN_FUNCTIONS` in the parser module). -/
def PARSER_BUILTIN_FUNCTIONS : List String :=
  ["DIV", "MOD", "LENGTH", "LCASE", "UCASE", "SUBSTRING", "ROUND", "RANDOM"]

/-- The parser's basic-type keyword set (`types.ts`, `BASIC_TYPES`). -/
def basicTypeOfKeyword : Option String → Option BasicTypeName
  | some "INTEGER" => some .INTEGER
  | some "REAL" => some .REAL
  | some "CHAR" => some .CHAR
  | some "STRING" => some .STRING
  | some "BOOLEAN" => some .BOOLEAN
  | _ => none

/-- Binary operator table entry (`types.ts`, `BinaryOp`). -/
structure BinaryOp where
  precedence : Nat
  rightAssociative : Bool := false
deriving Repr

/-- Models `BINARY_OPERATORS` (`types.ts`). -/
def BINARY_OPERATORS : List (String × BinaryOp) :=
  [("OR", { precedence := 1 }), ("AND", { precedence := 2 }),
   ("=", { precedence := 3 }), ("<", { precedence := 3 }), ("<=", { precedence := 3 }),
   (">", { precedence := 3 }), (">=", { precedence := 3 }), ("<>", { precedence := 3 }),
   ("+", { precedence := 4 }), ("-", { precedence := 4 }),
   ("*", { precedence := 5 }), ("/", { precedence := 5 }),
   ("^", { precedence := 6, rightAssociative := true })]

/-- Parser state (`class Parser`): the token vector, the cursor `index`,
and the shared diagnostics list. -/
structure PState where
  tokens : List Token
  index : Nat
  diags : List Diagnostic

/-- Models `Parser.current`. -/
def PState.current (s : PState) : Token := s.tokens.getD s.index eofToken

/-- Models `Parser.previous`. -/
def PState.previous (s : PState) : Token := s.tokens.getD (s.index - 1) eofToken

/-- Models `Parser.isAtEnd`. -/
def PState.isAtEnd (s : PState) : Bool := decide (s.current.type = .EOF)

/-- Models `Parser.advance`: returns `previous()` of the new state. -/
def PState.advance (s : PState) : Token × PState :=
  if s.isAtEnd then (s.previous, s)
  else
    let s1 : PState := { s with index := s.index + 1 }
    (s1.previous, s1)

/-- Models `Parser.error`: push an error diagnostic at a token's span. -/
def PState.error (s : PState) (token : Token) (code message : String) : PState :=
  { s with diags := s.diags ++
      [{ code := code, message := message, severity := .error,
         line := token.span.startLine, column := token.span.startColumn,
         endLine := token.span.endLine, endColumn := token.span.endColumn }] }

/-- Models `Parser.checkKeyword`. -/
def PState.checkKeyword (s : PState) (keyword : String) : Bool :=
  decide (s.current.type = .KEYWORD) && decide (s.current.keyword = some keyword)

/-- Models `Parser.checkType`. -/
def PState.checkType (s : PState) (t : TokenType) : Bool :=
  decide (s.current.type = t)

theorem PState.advance_tokens (s : PState) : (s.advance).2.tokens = s.tokens := by
  unfold advance
  split <;> rfl

theorem PState.advance_diags (s : PState) : (s.advance).2.diags = s.diags := by
  unfold advance
  split <;> rfl

theorem PState.advance_le (s : PState) : s.index ≤ (s.advance).2.index := by
  unfold advance
  split <;> simp

theorem PState.advance_le_one (s : PState) : (s.advance).2.index ≤ s.index + 1 := by
  unfold advance
  split <;> simp

theorem PState.advance_strict (s : PState) (h : s.isAtEnd = false) :
    (s.advance).2.index = s.index + 1 := by
  unfold advance
  rw [h]
  simp

theorem PState.advance_fst (s : PState) (h : s.isAtEnd = false) :
    (s.advance).1 = s.current := by
  unfold advance
  rw [h]
  simp only [Bool.false_eq_true, if_false]
  unfold previous current
  simp

theorem PState.lt_len_of_not_end (s : PState) (h : s.isAtEnd = false) :
    s.index < s.tokens.length := by
  by_contra hge
  have hc : s.current = eofToken := by
    unfold current
    rw [List.getD_eq_default]
    omega
  unfold isAtEnd at h
  rw [hc] at h
  simp [eofToken] at h

theorem PState.not_end_of_checkType (s : PState) (t : TokenType)
    (h : s.checkType t = true) (hne : t ≠ .EOF) : s.isAtEnd = false := by
  unfold checkType at h
  unfold isAtEnd
  simp only [decide_eq_true_eq] at h ⊢
  rw [h]
  simpa using hne

theorem PState.not_end_of_checkKeyword (s : PState) (k : String)
    (h : s.checkKeyword k = true) : s.isAtEnd = false := by
  unfold checkKeyword at h
  unfold isAtEnd
  simp only [Bool.and_eq_true, decide_eq_true_eq] at h
  simp [h.1]

theorem PState.isAtEnd_congr (s1 s2 : PState) (ht : s1.tokens = s2.tokens)
    (hi : s1.index = s2.index) : s1.isAtEnd = s2.isAtEnd := by
  unfold isAtEnd current
  rw [ht, hi]

/-- Models `Parser.expectKeyword`: on a match, consume and return the
keyword token; otherwise report the diagnostic at the current token and do
not consume. -/
def expectKeywordP (s : PState) (keyword code : String) (message : Option String) :
    {r : Token × PState // r.2.tokens = s.tokens ∧ s.index ≤ r.2.index ∧
      r.2.index ≤ s.index + 1 ∧
      (s.checkKeyword keyword = true → r.2.index = s.index + 1 ∧ r.2.diags = s.diags)} :=
  if h : s.checkKeyword keyword = true then
    have hne := PState.not_end_of_checkKeyword s keyword h
    ⟨s.advance, PState.advance_tokens s, PState.advance_le s, PState.advance_le_one s,
      fun _ => ⟨PState.advance_strict s hne, PState.advance_diags s⟩⟩
  else
    ⟨(s.current, s.error s.current code (message.getD ("Expected keyword " ++ keyword ++ "."))),
      rfl, le_refl _, Nat.le_succ _, fun hk => absurd hk h⟩

/-- Models `Parser.expectType`. -/
def expectTypeP (s : PState) (t : TokenType) (code message : String) :
    {r : Token × PState // r.2.tokens = s.tokens ∧ s.index ≤ r.2.index ∧
      r.2.index ≤ s.index + 1 ∧
      (s.checkType t = true → t ≠ .EOF → r.2.index = s.index + 1 ∧ r.2.diags = s.diags)} :=
  if h : s.checkType t = true then
    ⟨s.advance, PState.advance_tokens s, PState.advance_le s, PState.advance_le_one s,
      fun _ hne =>
        ⟨PState.advance_strict s (PState.not_end_of_checkType s t h hne),
         PState.advance_diags s⟩⟩
  else
    ⟨(s.current, s.error s.current code message),
      rfl, le_refl _, Nat.le_succ _, fun hk _ => absurd hk h⟩

/-- Models `Parser.consumeNewlines`. -/
def consumeNewlinesP (s : PState) :
    {r : PState // r.tokens = s.tokens ∧ s.index ≤ r.index ∧
      (s.current.type = .NEWLINE → s.index < r.index)} :=
  if h : s.checkType .NEWLINE = true then
    have hne := PState.not_end_of_checkType s .NEWLINE h (by simp)
    have ha1 : (s.advance).2.tokens = s.tokens := PState.advance_tokens s
    have ha1len : (s.advance).2.tokens.length = s.tokens.length := congrArg List.length ha1
    have ha2 : (s.advance).2.index = s.index + 1 := PState.advance_strict s hne
    have hlen : s.index < s.tokens.length := PState.lt_len_of_not_end s hne
    let ⟨r, hr⟩ := consumeNewlinesP (s.advance).2
    have hri : (s.advance).2.index ≤ r.index := hr.2.1
    ⟨r, hr.1.trans ha1, by omega, fun _ => by omega⟩
  else
    ⟨s, rfl, le_refl _, fun hn => by
      unfold PState.checkType at h
      simp [hn] at h⟩
termination_by s.tokens.length - s.index
decreasing_by
  omega

/-- Models `Parser.synchronizeLine`: discard to the next newline, then the
newline run. -/
def synchronizeLineP (s : PState) :
    {r : PState // r.tokens = s.tokens ∧ s.index ≤ r.index ∧
      (s.isAtEnd = false → s.index < r.index)} :=
  if h : s.isAtEnd = false ∧ s.current.type ≠ .NEWLINE then
    have ha1 : (s.advance).2.tokens = s.tokens := PState.advance_tokens s
    have ha1len : (s.advance).2.tokens.length = s.tokens.length := congrArg List.length ha1
    have ha2 : (s.advance).2.index = s.index + 1 := PState.advance_strict s h.1
    have hlen : s.index < s.tokens.length := PState.lt_len_of_not_end s h.1
    let ⟨r, hr⟩ := synchronizeLineP (s.advance).2
    have hri : (s.advance).2.index ≤ r.index := hr.2.1
    ⟨r, hr.1.trans ha1, by omega, fun _ => by omega⟩
  else
    let ⟨r, hr⟩ := consumeNewlinesP s
    ⟨r, hr.1, hr.2.1, fun hne => by
      have hnl : s.current.type = .NEWLINE := by
        by_contra hx
        exact h ⟨hne, hx⟩
      exact hr.2.2 hnl⟩
termination_by s.tokens.length - s.index
decreasing_by
  omega

/-- Models `Parser.peekBinaryOperator`. -/
def peekBinaryOperator (s : PState) : Option String :=
  let token := s.current
  if token.type = .KEYWORD ∧ (token.keyword = some "AND" ∨ token.keyword = some "OR") then
    token.keyword
  else
    match token.type with
    | .EQ => some "="
    | .LT => some "<"
    | .LTE => some "<="
    | .GT => some ">"
    | .GTE => some ">="
    | .NEQ => some "<>"
    | .PLUS => some "+"
    | .MINUS => some "-"
    | .STAR => some "*"
    | .SLASH => some "/"
    | .CARET => some "^"
    | _ => none

theorem peekBinaryOperator_not_end (s : PState) (v : String)
    (h : peekBinaryOperator s = some v) : s.isAtEnd = false := by
  unfold peekBinaryOperator at h
  unfold PState.isAtEnd
  by_cases hk : s.current.type = .KEYWORD ∧
      (s.current.keyword = some "AND" ∨ s.current.keyword = some "OR")
  · simp [hk.1]
  · rw [if_neg hk] at h
    cases htype : s.current.type <;> simp [htype] at h ⊢

mutual
/-- Models `Parser.parseExpression` (`types.ts`): Pratt-style parsing, a
unary prefix followed by the binary-operator loop. -/
def parseExpression (s : PState) (minPrecedence : Nat) :
    {r : ExpressionNode × PState // r.2.tokens = s.tokens ∧ s.index ≤ r.2.index ∧
      (s.isAtEnd = false → s.index < r.2.index)} :=
  let ⟨r1, h1⟩ := parseUnary s
  have h1len : r1.2.tokens.length = s.tokens.length := congrArg List.length h1.1
  have h1i : s.index ≤ r1.2.index := h1.2.1
  let ⟨r2, h2⟩ := parseBinaryLoop r1.2 r1.1 minPrecedence
  have h2i : r1.2.index ≤ r2.2.index := h2.2
  ⟨r2, h2.1.trans h1.1, by omega, fun hne => by
    have := h1.2.2 hne
    omega⟩
termination_by (s.tokens.length - s.index, 3)
decreasing_by
  all_goals refine Prod.lex_iff.mpr ?_
  all_goals omega

/-- Models the `while (true)` operator loop inside `parseExpression`. -/
def parseBinaryLoop (s : PState) (left : ExpressionNode) (minPrecedence : Nat) :
    {r : ExpressionNode × PState // r.2.tokens = s.tokens ∧ s.index ≤ r.2.index} :=
  match hpeek : peekBinaryOperator s with
  | none => ⟨(left, s), rfl, le_refl _⟩
  | some opv =>
    match recGet BINARY_OPERATORS opv with
    | none => ⟨(left, s), rfl, le_refl _⟩
    | some opInfo =>
      if hprec : opInfo.precedence < minPrecedence then ⟨(left, s), rfl, le_refl _⟩
      else
        have hne := peekBinaryOperator_not_end s opv hpeek
        have ha1 : (s.advance).2.tokens = s.tokens := PState.advance_tokens s
        have ha1len : (s.advance).2.tokens.length = s.tokens.length := congrArg List.length ha1
        have ha2 : (s.advance).2.index = s.index + 1 := PState.advance_strict s hne
        have hlen : s.index < s.tokens.length := PState.lt_len_of_not_end s hne
        let opToken := (s.advance).1
        let ⟨r1, h1⟩ := parseExpression (s.advance).2
          (if opInfo.rightAssociative then opInfo.precedence else opInfo.precedence + 1)
        have h1len : r1.2.tokens.length = (s.advance).2.tokens.length := congrArg List.length h1.1
        have h1i : (s.advance).2.index ≤ r1.2.index := h1.2.1
        let newLeft := ExpressionNode.binary opv left r1.1 (spanFrom left.span r1.1.span)
        if opToken.type = .EOF then
          ⟨(newLeft, r1.2), by
            constructor
            · show r1.2.tokens = s.tokens
              rw [h1.1, ha1]
            · show s.index ≤ r1.2.index
              omega⟩
        else
          let ⟨r2, h2⟩ := parseBinaryLoop r1.2 newLeft minPrecedence
          have h2i : r1.2.index ≤ r2.2.index := h2.2
          ⟨r2, by
            constructor
            · rw [h2.1, h1.1, ha1]
            · omega⟩
termination_by (s.tokens.length - s.index, 0)
decreasing_by
  all_goals refine Prod.lex_iff.mpr ?_
  all_goals omega

/-- Models `Parser.parseUnary`. -/
def parseUnary (s : PState) :
    {r : ExpressionNode × PState // r.2.tokens = s.tokens ∧ s.index ≤ r.2.index ∧
      (s.isAtEnd = false → s.index < r.2.index)} :=
  if hm : s.checkType .MINUS = true then
    have hne := PState.not_end_of_checkType s .MINUS hm (by simp)
    have ha1 : (s.advance).2.tokens = s.tokens := PState.advance_tokens s
    have ha1len : (s.advance).2.tokens.length = s.tokens.length := congrArg List.length ha1
    have ha2 : (s.advance).2.index = s.index + 1 := PState.advance_strict s hne
    have hlen : s.index < s.tokens.length := PState.lt_len_of_not_end s hne
    let ⟨r1, h1⟩ := parseUnary (s.advance).2
    have h1i : (s.advance).2.index ≤ r1.2.index := h1.2.1
    ⟨(.unary "-" r1.1 (spanFrom s.current.span r1.1.span), r1.2), by
      refine ⟨h1.1.trans ha1, ?_, fun _ => ?_⟩
      · show s.index ≤ r1.2.index
        omega
      · show s.index < r1.2.index
        omega⟩
  else if hn : s.checkKeyword "NOT" = true then
    have hne := PState.not_end_of_checkKeyword s "NOT" hn
    have ha1 : (s.advance).2.tokens = s.tokens := PState.advance_tokens s
    have ha1len : (s.advance).2.tokens.length = s.tokens.length := congrArg List.length ha1
    have ha2 : (s.advance).2.index = s.index + 1 := PState.advance_strict s hne
    have hlen : s.index < s.tokens.length := PState.lt_len_of_not_end s hne
    let ⟨r1, h1⟩ := parseUnary (s.advance).2
    have h1i : (s.advance).2.index ≤ r1.2.index := h1.2.1
    ⟨(.unary "NOT" r1.1 (spanFrom s.current.span r1.1.span), r1.2), by
      refine ⟨h1.1.trans ha1, ?_, fun _ => ?_⟩
      · show s.index ≤ r1.2.index
        omega
      · show s.index < r1.2.index
        omega⟩
  else
    parsePrimary s
termination_by (s.tokens.length - s.index, 2)
decreasing_by
  all_goals refine Prod.lex_iff.mpr ?_
  all_goals omega

/-- Models `Parser.parsePrimary`. -/
def parsePrimary (s : PState) :
    {r : ExpressionNode × PState // r.2.tokens = s.tokens ∧ s.index ≤ r.2.index ∧
      (s.isAtEnd = false → s.index < r.2.index)} :=
  if h1 : s.checkType .INTEGER_LITERAL = true then
    have hne := PState.not_end_of_checkType s .INTEGER_LITERAL h1 (by simp)
    have ha1 : (s.advance).2.tokens = s.tokens := PState.advance_tokens s
    have ha2 : (s.advance).2.index = s.index + 1 := PState.advance_strict s hne
    ⟨(.literal (.int ((jsParseIntOpt s.current.lexeme).getD 0)) .INTEGER s.current.span,
       (s.advance).2), by
      refine ⟨ha1, ?_, fun _ => ?_⟩
      · show s.index ≤ (s.advance).2.index
        omega
      · show s.index < (s.advance).2.index
        omega⟩
  else if h2 : s.checkType .REAL_LITERAL = true then
    have hne := PState.not_end_of_checkType s .REAL_LITERAL h2 (by simp)
    have ha1 : (s.advance).2.tokens = s.tokens := PState.advance_tokens s
    have ha2 : (s.advance).2.index = s.index + 1 := PState.advance_strict s hne
    ⟨(.literal (.realRaw s.current.lexeme) .REAL s.current.span, (s.advance).2), by
      refine ⟨ha1, ?_, fun _ => ?_⟩
      · show s.index ≤ (s.advance).2.index
        omega
      · show s.index < (s.advance).2.index
        omega⟩
  else if h3 : s.checkType .STRING_LITERAL = true then
    have hne := PState.not_end_of_checkType s .STRING_LITERAL h3 (by simp)
    have ha1 : (s.advance).2.tokens = s.tokens := PState.advance_tokens s
    have ha2 : (s.advance).2.index = s.index + 1 := PState.advance_strict s hne
    ⟨(.literal (.str (jsSliceOneNegOne s.current.lexeme)) .STRING s.current.span, (s.advance).2), by
      refine ⟨ha1, ?_, fun _ => ?_⟩
      · show s.index ≤ (s.advance).2.index
        omega
      · show s.index < (s.advance).2.index
        omega⟩
  else if h4 : s.checkType .CHAR_LITERAL = true then
    have hne := PState.not_end_of_checkType s .CHAR_LITERAL h4 (by simp)
    have ha1 : (s.advance).2.tokens = s.tokens := PState.advance_tokens s
    have ha2 : (s.advance).2.index = s.index + 1 := PState.advance_strict s hne
    ⟨(.literal (.str (jsSliceOneNegOne s.current.lexeme)) .CHAR s.current.span, (s.advance).2), by
      refine ⟨ha1, ?_, fun _ => ?_⟩
      · show s.index ≤ (s.advance).2.index
        omega
      · show s.index < (s.advance).2.index
        omega⟩
  else if h5 : s.current.type = .KEYWORD ∧
      (s.current.keyword = some "TRUE" ∨ s.current.keyword = some "FALSE") then
    have hne : s.isAtEnd = false := by
      unfold PState.isAtEnd
      simp [h5.1]
    have ha1 : (s.advance).2.tokens = s.tokens := PState.advance_tokens s
    have ha2 : (s.advance).2.index = s.index + 1 := PState.advance_strict s hne
    ⟨(.literal (.bool (decide (s.current.keyword = some "TRUE"))) .BOOLEAN s.current.span,
       (s.advance).2), by
      refine ⟨ha1, ?_, fun _ => ?_⟩
      · show s.index ≤ (s.advance).2.index
        omega
      · show s.index < (s.advance).2.index
        omega⟩
  else if h6 : s.checkType .LPAREN = true then
    have hne := PState.not_end_of_checkType s .LPAREN h6 (by simp)
    have ha1 : (s.advance).2.tokens = s.tokens := PState.advance_tokens s
    have ha1len : (s.advance).2.tokens.length = s.tokens.length := congrArg List.length ha1
    have ha2 : (s.advance).2.index = s.index + 1 := PState.advance_strict s hne
    have hlen : s.index < s.tokens.length := PState.lt_len_of_not_end s hne
    let ⟨r1, h1e⟩ := parseExpression (s.advance).2 1
    have h1len : r1.2.tokens.length = (s.advance).2.tokens.length := congrArg List.length h1e.1
    have h1i : (s.advance).2.index ≤ r1.2.index := h1e.2.1
    let ⟨r2, h2e⟩ := expectTypeP r1.2 .RPAREN "SYN059" "Expected ')' to close expression."
    have h2i : r1.2.index ≤ r2.2.index := h2e.2.1
    ⟨(r1.1.withSpan (spanFrom s.current.span r2.1.span), r2.2), by
      refine ⟨?_, ?_, fun _ => ?_⟩
      · rw [h2e.1, h1e.1, ha1]
      · show s.index ≤ r2.2.index
        omega
      · show s.index < r2.2.index
        omega⟩
  else if h7 : s.current.type = .IDENTIFIER ∨
      (s.current.type = .KEYWORD ∧
        ((s.current.keyword.map (fun k => PARSER_BUILTIN_FUNCTIONS.contains k)).getD false) = true) then
    have hne : s.isAtEnd = false := by
      unfold PState.isAtEnd
      rcases h7 with h | h
      · simp [h]
      · simp [h.1]
    have ha1 : (s.advance).2.tokens = s.tokens := PState.advance_tokens s
    have ha1len : (s.advance).2.tokens.length = s.tokens.length := congrArg List.length ha1
    have ha2 : (s.advance).2.index = s.index + 1 := PState.advance_strict s hne
    have hlen : s.index < s.tokens.length := PState.lt_len_of_not_end s hne
    let ⟨r1, h1e⟩ := parseIdentifierOrCall (s.advance).2 s.current
    have h1i : (s.advance).2.index ≤ r1.2.index := h1e.2
    ⟨r1, by
      refine ⟨h1e.1.trans ha1, ?_, fun _ => ?_⟩
      · show s.index ≤ r1.2.index
        omega
      · show s.index < r1.2.index
        omega⟩
  else
    let serr := s.error s.current "SYN060" "Expected expression."
    have herri : serr.index = s.index := rfl
    have herrt : serr.tokens = s.tokens := rfl
    have herre : serr.isAtEnd = s.isAtEnd := rfl
    have ha1 : (serr.advance).2.tokens = serr.tokens := PState.advance_tokens serr
    have ha2 : serr.index ≤ (serr.advance).2.index := PState.advance_le serr
    ⟨(.literal (.int 0) .INTEGER s.current.span, (serr.advance).2), by
      refine ⟨ha1.trans herrt, ?_, fun hnend => ?_⟩
      · show s.index ≤ (serr.advance).2.index
        omega
      · have hstrict := PState.advance_strict serr (herre.trans hnend)
        show s.index < (serr.advance).2.index
        omega⟩
termination_by (s.tokens.length - s.index, 1)
decreasing_by
  all_goals refine Prod.lex_iff.mpr ?_
  all_goals omega

/-- Models `Parser.parseIdentifierOrCall`. -/
def parseIdentifierOrCall (s : PState) (token : Token) :
    {r : ExpressionNode × PState // r.2.tokens = s.tokens ∧ s.index ≤ r.2.index} :=
  if hLP : s.checkType .LPAREN = true then
    have hne := PState.not_end_of_checkType s .LPAREN hLP (by simp)
    have ha1 : (s.advance).2.tokens = s.tokens := PState.advance_tokens s
    have ha1len : (s.advance).2.tokens.length = s.tokens.length := congrArg List.length ha1
    have ha2 : (s.advance).2.index = s.index + 1 := PState.advance_strict s hne
    have hlen : s.index < s.tokens.length := PState.lt_len_of_not_end s hne
    if hRP : ((s.advance).2).checkType .RPAREN = true then
      let ⟨re, he⟩ := expectTypeP (s.advance).2 .RPAREN "SYN061"
        "Expected ')' after function call arguments."
      have hei : (s.advance).2.index ≤ re.2.index := he.2.1
      ⟨(.call (token.keyword.getD token.lexeme) .nil (spanFrom token.span re.1.span), re.2), by
        refine ⟨he.1.trans ha1, ?_⟩
        show s.index ≤ re.2.index
        omega⟩
    else
      let ⟨r1, h1⟩ := parseExpression (s.advance).2 1
      have h1len : r1.2.tokens.length = (s.advance).2.tokens.length := congrArg List.length h1.1
      have h1i : (s.advance).2.index ≤ r1.2.index := h1.2.1
      let ⟨r2, h2⟩ := parseArgsLoop r1.2 (ExprList.cons r1.1 .nil)
      have h2i : r1.2.index ≤ r2.2.index := h2.2
      let ⟨re, he⟩ := expectTypeP r2.2 .RPAREN "SYN061"
        "Expected ')' after function call arguments."
      have hei : r2.2.index ≤ re.2.index := he.2.1
      ⟨(.call (token.keyword.getD token.lexeme) r2.1 (spanFrom token.span re.1.span), re.2), by
        refine ⟨?_, ?_⟩
        · rw [he.1, h2.1, h1.1, ha1]
        · show s.index ≤ re.2.index
          omega⟩
  else if hLB : s.checkType .LBRACKET = true then
    have hne := PState.not_end_of_checkType s .LBRACKET hLB (by simp)
    have ha1 : (s.advance).2.tokens = s.tokens := PState.advance_tokens s
    have ha1len : (s.advance).2.tokens.length = s.tokens.length := congrArg List.length ha1
    have ha2 : (s.advance).2.index = s.index + 1 := PState.advance_strict s hne
    have hlen : s.index < s.tokens.length := PState.lt_len_of_not_end s hne
    let ⟨r1, h1⟩ := parseExpression (s.advance).2 1
    have h1len : r1.2.tokens.length = (s.advance).2.tokens.length := congrArg List.length h1.1
    have h1i : (s.advance).2.index ≤ r1.2.index := h1.2.1
    let ⟨r2, h2⟩ := parseArgsLoop r1.2 (ExprList.cons r1.1 .nil)
    have h2i : r1.2.index ≤ r2.2.index := h2.2
    let ⟨re, he⟩ := expectTypeP r2.2 .RBRACKET "SYN062" "Expected closing ']' in array access."
    have hei : r2.2.index ≤ re.2.index := he.2.1
    ⟨(.arrayAccess token.lexeme r2.1 (spanFrom token.span re.1.span), re.2), by
      refine ⟨?_, ?_⟩
      · rw [he.1, h2.1, h1.1, ha1]
      · show s.index ≤ re.2.index
        omega⟩
  else
    ⟨(.identifier token.lexeme token.span, s), rfl, le_refl _⟩
termination_by (s.tokens.length - s.index, 0)
decreasing_by
  all_goals refine Prod.lex_iff.mpr ?_
  all_goals omega

/-- Models the `while (this.matchType("COMMA")) args.push(...)` loops of
the parser (call arguments, array indices, OUTPUT value lists). -/
def parseArgsLoop (s : PState) (acc : ExprList) :
    {r : ExprList × PState // r.2.tokens = s.tokens ∧ s.index ≤ r.2.index} :=
  if h : s.checkType .COMMA = true then
    have hne := PState.not_end_of_checkType s .COMMA h (by simp)
    have ha1 : (s.advance).2.tokens = s.tokens := PState.advance_tokens s
    have ha1len : (s.advance).2.tokens.length = s.tokens.length := congrArg List.length ha1
    have ha2 : (s.advance).2.index = s.index + 1 := PState.advance_strict s hne
    have hlen : s.index < s.tokens.length := PState.lt_len_of_not_end s hne
    let ⟨r1, h1⟩ := parseExpression (s.advance).2 1
    have h1len : r1.2.tokens.length = (s.advance).2.tokens.length := congrArg List.length h1.1
    have h1i : (s.advance).2.index ≤ r1.2.index := h1.2.1
    let ⟨r2, h2⟩ := parseArgsLoop r1.2 (acc.push r1.1)
    have h2i : r1.2.index ≤ r2.2.index := h2.2
    ⟨r2, by
      refine ⟨?_, ?_⟩
      · rw [h2.1, h1.1, ha1]
      · omega⟩
  else
    ⟨(acc, s), rfl, le_refl _⟩
termination_by (s.tokens.length - s.index, 0)
decreasing_by
  all_goals refine Prod.lex_iff.mpr ?_
  all_goals omega
end

/-- Models `Parser.parseIdentifier`. -/
def parseIdentifierP (s : PState) :
    {r : Option IdentNode × PState // r.2.tokens = s.tokens ∧ s.index ≤ r.2.index} :=
  if _h : s.checkType .IDENTIFIER = true then
    ⟨(some { name := s.current.lexeme, span := s.current.span }, (s.advance).2),
      PState.advance_tokens s, PState.advance_le s⟩
  else
    ⟨(none, s.error s.current "SYN076" "Expected identifier."), rfl, le_refl _⟩

/-- Models `Parser.parseSignedIntegerLiteral`. -/
def parseSignedIntegerLiteralP (s : PState) (code message : String) :
    {r : Int × PState // r.2.tokens = s.tokens ∧ s.index ≤ r.2.index} :=
  if h : s.checkType .MINUS = true then
    have ha1 : (s.advance).2.tokens = s.tokens := PState.advance_tokens s
    have ha2 : s.index ≤ (s.advance).2.index := PState.advance_le s
    let ⟨rt, ht⟩ := expectTypeP (s.advance).2 .INTEGER_LITERAL code message
    have hti : (s.advance).2.index ≤ rt.2.index := ht.2.1
    ⟨(-1 * ((jsParseIntOpt rt.1.lexeme).getD 0), rt.2), by
      refine ⟨ht.1.trans ha1, ?_⟩
      show s.index ≤ rt.2.index
      omega⟩
  else
    let ⟨rt, ht⟩ := expectTypeP s .INTEGER_LITERAL code message
    ⟨(1 * ((jsParseIntOpt rt.1.lexeme).getD 0), rt.2), ht.1, ht.2.1⟩

/-- Models `Parser.parseArrayDimension`. -/
def parseArrayDimensionP (s : PState) :
    {r : (Int × Int) × PState // r.2.tokens = s.tokens ∧ s.index ≤ r.2.index} :=
  let ⟨rl, hl⟩ := parseSignedIntegerLiteralP s "SYN070"
    "Expected lower array bound as an integer literal."
  have hli : s.index ≤ rl.2.index := hl.2
  let ⟨rc, hc⟩ := expectTypeP rl.2 .COLON "SYN071" "Expected ':' between array bounds."
  have hci : rl.2.index ≤ rc.2.index := hc.2.1
  let ⟨ru, hu⟩ := parseSignedIntegerLiteralP rc.2 "SYN072"
    "Expected upper array bound as an integer literal."
  have hui : rc.2.index ≤ ru.2.index := hu.2
  ⟨((rl.1, ru.1), ru.2), by
    refine ⟨?_, ?_⟩
    · rw [hu.1, hc.1, hl.1]
    · show s.index ≤ ru.2.index
      omega⟩

/-- The closing part of the ARRAY branch of `Parser.parseTypeNode`: the
`']'`, `OF`, and element-type token after the dimension list. -/
def parseArrayTypeTail (s : PState) (arraySpan : SourceSpan) (dims : List (Int × Int)) :
    {r : TypeNode × PState // r.2.tokens = s.tokens ∧ s.index ≤ r.2.index} :=
  let ⟨rb, hb⟩ := expectTypeP s .RBRACKET "SYN064" "Expected closing ']' in ARRAY declaration."
  have hbi : s.index ≤ rb.2.index := hb.2.1
  let ⟨ro, ho⟩ := expectKeywordP rb.2 "OF" "SYN065" (some "Expected OF in ARRAY declaration.")
  have hoi : rb.2.index ≤ ro.2.index := ho.2.1
  let ⟨re, he⟩ := expectTypeP ro.2 .KEYWORD "SYN066" "Expected array element data type."
  have hei : ro.2.index ≤ re.2.index := he.2.1
  match basicTypeOfKeyword re.1.keyword with
  | some bt =>
    ⟨(.array bt dims (spanFrom arraySpan re.1.span), re.2), by
      refine ⟨?_, ?_⟩
      · rw [he.1, ho.1, hb.1]
      · show s.index ≤ re.2.index
        omega⟩
  | none =>
    ⟨(.array .INTEGER dims (spanFrom arraySpan re.1.span),
       re.2.error re.1 "SYN067" "Array element type must be a basic data type."), by
      have ht0 : (re.2.error re.1 "SYN067" "Array element type must be a basic data type.").tokens =
          re.2.tokens := rfl
      have hi0 : (re.2.error re.1 "SYN067" "Array element type must be a basic data type.").index =
          re.2.index := rfl
      refine ⟨?_, ?_⟩
      · rw [ht0, he.1, ho.1, hb.1]
      · show s.index ≤ (re.2.error re.1 "SYN067"
            "Array element type must be a basic data type.").index
        omega⟩

/-- Models `Parser.parseTypeNode`.  In the source every path returns a
node (the `null`-typed failure paths are unreachable), so the embedding
returns a plain `TypeNode`. -/
def parseTypeNodeP (s : PState) :
    {r : TypeNode × PState // r.2.tokens = s.tokens ∧ s.index ≤ r.2.index} :=
  if h : s.checkKeyword "ARRAY" = true then
    have hne := PState.not_end_of_checkKeyword s "ARRAY" h
    have ha1 : (s.advance).2.tokens = s.tokens := PState.advance_tokens s
    have ha2 : (s.advance).2.index = s.index + 1 := PState.advance_strict s hne
    let ⟨rb, hb⟩ := expectTypeP (s.advance).2 .LBRACKET "SYN063" "Expected '[' after ARRAY keyword."
    have hbi : (s.advance).2.index ≤ rb.2.index := hb.2.1
    let ⟨rd1, hd1⟩ := parseArrayDimensionP rb.2
    have hd1i : rb.2.index ≤ rd1.2.index := hd1.2
    if hcm : rd1.2.checkType .COMMA = true then
      have ha3 : (rd1.2.advance).2.tokens = rd1.2.tokens := PState.advance_tokens rd1.2
      have ha4 : rd1.2.index ≤ (rd1.2.advance).2.index := PState.advance_le rd1.2
      let ⟨rd2, hd2⟩ := parseArrayDimensionP (rd1.2.advance).2
      have hd2i : (rd1.2.advance).2.index ≤ rd2.2.index := hd2.2
      let ⟨rt, ht⟩ := parseArrayTypeTail rd2.2 s.current.span [rd1.1, rd2.1]
      have hti : rd2.2.index ≤ rt.2.index := ht.2
      ⟨rt, by
        refine ⟨?_, ?_⟩
        · rw [ht.1, hd2.1, ha3, hd1.1, hb.1, ha1]
        · show s.index ≤ rt.2.index
          omega⟩
    else
      let ⟨rt, ht⟩ := parseArrayTypeTail rd1.2 s.current.span [rd1.1]
      have hti : rd1.2.index ≤ rt.2.index := ht.2
      ⟨rt, by
        refine ⟨?_, ?_⟩
        · rw [ht.1, hd1.1, hb.1, ha1]
        · show s.index ≤ rt.2.index
          omega⟩
  else
    let ⟨rt, ht⟩ := expectTypeP s .KEYWORD "SYN068" "Expected data type."
    have hti : s.index ≤ rt.2.index := ht.2.1
    match basicTypeOfKeyword rt.1.keyword with
    | some bt => ⟨(.basic bt rt.1.span, rt.2), ht.1, ht.2.1⟩
    | none =>
      ⟨(.basic .INTEGER rt.1.span,
         rt.2.error rt.1 "SYN069" "Expected one of INTEGER, REAL, CHAR, STRING, BOOLEAN."), by
        have ht0 : (rt.2.error rt.1 "SYN069"
            "Expected one of INTEGER, REAL, CHAR, STRING, BOOLEAN.").tokens = rt.2.tokens := rfl
        have hi0 : (rt.2.error rt.1 "SYN069"
            "Expected one of INTEGER, REAL, CHAR, STRING, BOOLEAN.").index = rt.2.index := rfl
        refine ⟨ht0.trans ht.1, ?_⟩
        show s.index ≤ (rt.2.error rt.1 "SYN069"
            "Expected one of INTEGER, REAL, CHAR, STRING, BOOLEAN.").index
        omega⟩

/-- The span stored on a type node. -/
def TypeNode.span : TypeNode → SourceSpan
  | .basic _ sp => sp
  | .array _ _ sp => sp

/-- Models the `do ... while (this.matchType("COMMA"))` body of
`Parser.parseParameterList`. -/
def parseParamLoop (s : PState) (acc : List ParameterNode) :
    {r : List ParameterNode × PState // r.2.tokens = s.tokens ∧ s.index ≤ r.2.index} :=
  let ⟨rn, hn⟩ := expectTypeP s .IDENTIFIER "SYN073" "Expected parameter identifier."
  have hni : s.index ≤ rn.2.index := hn.2.1
  let ⟨rc, hc⟩ := expectTypeP rn.2 .COLON "SYN074" "Expected ':' in parameter declaration."
  have hci : rn.2.index ≤ rc.2.index := hc.2.1
  let ⟨rt, ht⟩ := parseTypeNodeP rc.2
  have hti : rc.2.index ≤ rt.2.index := ht.2
  have htlen : rt.2.tokens.length = s.tokens.length := by
    rw [ht.1, hc.1, hn.1]
  if h : rt.2.checkType .COMMA = true then
    have hne := PState.not_end_of_checkType rt.2 .COMMA h (by simp)
    have ha1 : ((rt.2.advance)).2.tokens = rt.2.tokens := PState.advance_tokens rt.2
    have ha1len : ((rt.2.advance)).2.tokens.length = rt.2.tokens.length :=
      congrArg List.length ha1
    have ha2 : ((rt.2.advance)).2.index = rt.2.index + 1 := PState.advance_strict rt.2 hne
    have hlen : rt.2.index < rt.2.tokens.length := PState.lt_len_of_not_end rt.2 hne
    let ⟨r2, h2⟩ := parseParamLoop ((rt.2.advance)).2
      (acc ++ [{ name := rn.1.lexeme, typeNode := rt.1, span := spanFrom rn.1.span rt.1.span }])
    have h2i : ((rt.2.advance)).2.index ≤ r2.2.index := h2.2
    ⟨r2, by
      refine ⟨?_, ?_⟩
      · rw [h2.1, ha1, ht.1, hc.1, hn.1]
      · omega⟩
  else
    ⟨(acc ++ [{ name := rn.1.lexeme, typeNode := rt.1, span := spanFrom rn.1.span rt.1.span }],
       rt.2), by
      refine ⟨?_, ?_⟩
      · rw [ht.1, hc.1, hn.1]
      · show s.index ≤ rt.2.index
        omega⟩
termination_by s.tokens.length - s.index
decreasing_by
  omega

/-- Models `Parser.parseParameterList`. -/
def parseParameterList (s : PState) :
    {r : List ParameterNode × PState // r.2.tokens = s.tokens ∧ s.index ≤ r.2.index} :=
  if h : s.checkType .LPAREN = true then
    have ha1 : (s.advance).2.tokens = s.tokens := PState.advance_tokens s
    have ha2 : s.index ≤ (s.advance).2.index := PState.advance_le s
    if hrp : ((s.advance).2).checkType .RPAREN = true then
      let ⟨rp, hp⟩ := expectTypeP (s.advance).2 .RPAREN "SYN075" "Expected ')' after parameter list."
      have hpi : (s.advance).2.index ≤ rp.2.index := hp.2.1
      ⟨([], rp.2), by
        refine ⟨hp.1.trans ha1, ?_⟩
        show s.index ≤ rp.2.index
        omega⟩
    else
      let ⟨r1, h1⟩ := parseParamLoop (s.advance).2 []
      have h1i : (s.advance).2.index ≤ r1.2.index := h1.2
      let ⟨rp, hp⟩ := expectTypeP r1.2 .RPAREN "SYN075" "Expected ')' after parameter list."
      have hpi : r1.2.index ≤ rp.2.index := hp.2.1
      ⟨(r1.1, rp.2), by
        refine ⟨?_, ?_⟩
        · rw [hp.1, h1.1, ha1]
        · show s.index ≤ rp.2.index
          omega⟩
  else
    ⟨([], s), rfl, le_refl _⟩

/-- Models `Parser.parseAssignableTarget`.  The source's `null` return is
unreachable (`expectType` always yields a token), so the embedding returns
a plain target. -/
def parseAssignableTargetP (s : PState) :
    {r : AssignTarget × PState // r.2.tokens = s.tokens ∧ s.index ≤ r.2.index ∧
      (s.checkType .IDENTIFIER = true → s.index < r.2.index)} :=
  let ⟨rt, ht⟩ := expectTypeP s .IDENTIFIER "SYN057" "Expected identifier."
  have hti : s.index ≤ rt.2.index := ht.2.1
  have htstrict : s.checkType .IDENTIFIER = true → rt.2.index = s.index + 1 :=
    fun hc => (ht.2.2.2 hc (by simp)).1
  if h : rt.2.checkType .LBRACKET = true then
    have hne := PState.not_end_of_checkType rt.2 .LBRACKET h (by simp)
    have ha1 : ((rt.2.advance)).2.tokens = rt.2.tokens := PState.advance_tokens rt.2
    have ha1len : ((rt.2.advance)).2.tokens.length = rt.2.tokens.length :=
      congrArg List.length ha1
    have ha2 : ((rt.2.advance)).2.index = rt.2.index + 1 := PState.advance_strict rt.2 hne
    have hlen : rt.2.index < rt.2.tokens.length := PState.lt_len_of_not_end rt.2 hne
    let ⟨r1, h1⟩ := parseExpression ((rt.2.advance)).2 1
    have h1i : ((rt.2.advance)).2.index ≤ r1.2.index := h1.2.1
    let ⟨r2, h2⟩ := parseArgsLoop r1.2 (ExprList.cons r1.1 .nil)
    have h2i : r1.2.index ≤ r2.2.index := h2.2
    let ⟨rb, hbr⟩ := expectTypeP r2.2 .RBRACKET "SYN058" "Expected closing ']' in array access."
    have hbi : r2.2.index ≤ rb.2.index := hbr.2.1
    ⟨(.arrayAccess rt.1.lexeme r2.1 (spanFrom rt.1.span rb.1.span), rb.2), by
      refine ⟨?_, ?_, fun _ => ?_⟩
      · rw [hbr.1, h2.1, h1.1, ha1, ht.1]
      · show s.index ≤ rb.2.index
        omega
      · show s.index < rb.2.index
        omega⟩
  else
    ⟨(.ident rt.1.lexeme rt.1.span, rt.2), ht.1, ht.2.1, fun hc => by
      have := htstrict hc
      show s.index < rt.2.index
      omega⟩

/-- Models `Parser.parseDeclareStatement` under the dispatch guarantee
that the cursor sits on `DECLARE`. -/
def parseDeclareStatement (s : PState) (h : s.checkKeyword "DECLARE" = true) :
    {r : Option StatementNode × PState // r.2.tokens = s.tokens ∧ s.index < r.2.index} :=
  let ⟨rk, hk⟩ := expectKeywordP s "DECLARE" "SYN010" none
  have hki : rk.2.index = s.index + 1 := (hk.2.2.2 h).1
  let ⟨ri, hi⟩ := parseIdentifierP rk.2
  have hii : rk.2.index ≤ ri.2.index := hi.2
  match ri.1 with
  | none =>
    ⟨(none, ri.2), by
      refine ⟨hi.1.trans hk.1, ?_⟩
      show s.index < ri.2.index
      omega⟩
  | some ident =>
    let ⟨rc, hc⟩ := expectTypeP ri.2 .COLON "SYN011"
      "Expected ':' after identifier in DECLARE statement."
    have hci : ri.2.index ≤ rc.2.index := hc.2.1
    let ⟨rt, ht⟩ := parseTypeNodeP rc.2
    have hti : rc.2.index ≤ rt.2.index := ht.2
    ⟨(some (.declare ident rt.1 (spanFrom rk.1.span rt.1.span)), rt.2), by
      refine ⟨?_, ?_⟩
      · rw [ht.1, hc.1, hi.1, hk.1]
      · show s.index < rt.2.index
        omega⟩

/-- Models `Parser.parseConstantStatement`. -/
def parseConstantStatement (s : PState) (h : s.checkKeyword "CONSTANT" = true) :
    {r : Option StatementNode × PState // r.2.tokens = s.tokens ∧ s.index < r.2.index} :=
  let ⟨rk, hk⟩ := expectKeywordP s "CONSTANT" "SYN012" none
  have hki : rk.2.index = s.index + 1 := (hk.2.2.2 h).1
  let ⟨ri, hi⟩ := parseIdentifierP rk.2
  have hii : rk.2.index ≤ ri.2.index := hi.2
  match ri.1 with
  | none =>
    ⟨(none, ri.2), by
      refine ⟨hi.1.trans hk.1, ?_⟩
      show s.index < ri.2.index
      omega⟩
  | some ident =>
    let ⟨ra, ha⟩ := expectTypeP ri.2 .ASSIGN "SYN013"
      "Expected assignment operator in CONSTANT declaration."
    have hai : ri.2.index ≤ ra.2.index := ha.2.1
    let ⟨rv, hv⟩ := parseExpression ra.2 1
    have hvi : ra.2.index ≤ rv.2.index := hv.2.1
    ⟨(some (.constant ident rv.1 (spanFrom rk.1.span rv.1.span)), rv.2), by
      refine ⟨?_, ?_⟩
      · rw [hv.1, ha.1, hi.1, hk.1]
      · show s.index < rv.2.index
        omega⟩

/-- Models `Parser.parseInputStatement` (the `null` path is dead: the
assignable target is always produced). -/
def parseInputStatement (s : PState) (h : s.checkKeyword "INPUT" = true) :
    {r : StatementNode × PState // r.2.tokens = s.tokens ∧ s.index < r.2.index} :=
  let ⟨rk, hk⟩ := expectKeywordP s "INPUT" "SYN014" none
  have hki : rk.2.index = s.index + 1 := (hk.2.2.2 h).1
  let ⟨rt, ht⟩ := parseAssignableTargetP rk.2
  have hti : rk.2.index ≤ rt.2.index := ht.2.1
  ⟨(.input rt.1 (spanFrom rk.1.span rt.1.span), rt.2), by
    refine ⟨ht.1.trans hk.1, ?_⟩
    show s.index < rt.2.index
    omega⟩

/-- Models `Parser.parseOutputStatement`. -/
def parseOutputStatement (s : PState) (h : s.checkKeyword "OUTPUT" = true) :
    {r : StatementNode × PState // r.2.tokens = s.tokens ∧ s.index < r.2.index} :=
  let ⟨rk, hk⟩ := expectKeywordP s "OUTPUT" "SYN015" none
  have hki : rk.2.index = s.index + 1 := (hk.2.2.2 h).1
  let ⟨r1, h1⟩ := parseExpression rk.2 1
  have h1i : rk.2.index ≤ r1.2.index := h1.2.1
  let ⟨r2, h2⟩ := parseArgsLoop r1.2 (ExprList.cons r1.1 .nil)
  have h2i : r1.2.index ≤ r2.2.index := h2.2
  ⟨(.output r2.1 (spanFrom rk.1.span (r2.1.lastSpanD rk.1.span)), r2.2), by
    refine ⟨?_, ?_⟩
    · rw [h2.1, h1.1, hk.1]
    · show s.index < r2.2.index
      omega⟩

/-- Models `Parser.parseCallStatement`. -/
def parseCallStatement (s : PState) (h : s.checkKeyword "CALL" = true) :
    {r : StatementNode × PState // r.2.tokens = s.tokens ∧ s.index < r.2.index} :=
  let ⟨rk, hk⟩ := expectKeywordP s "CALL" "SYN043" none
  have hki : rk.2.index = s.index + 1 := (hk.2.2.2 h).1
  let ⟨rn, hn⟩ := expectTypeP rk.2 .IDENTIFIER "SYN044" "Expected procedure identifier after CALL."
  have hni : rk.2.index ≤ rn.2.index := hn.2.1
  if hlp : rn.2.checkType .LPAREN = true then
    have ha1 : ((rn.2.advance)).2.tokens = rn.2.tokens := PState.advance_tokens rn.2
    have ha2 : rn.2.index ≤ ((rn.2.advance)).2.index := PState.advance_le rn.2
    if hrp : ((rn.2.advance)).2.checkType .RPAREN = true then
      let ⟨rp, hp⟩ := expectTypeP ((rn.2.advance)).2 .RPAREN "SYN045"
        "Expected ')' after CALL arguments."
      have hpi : ((rn.2.advance)).2.index ≤ rp.2.index := hp.2.1
      ⟨(.callStatement rn.1.lexeme .nil (spanFrom rk.1.span rn.1.span), rp.2), by
        refine ⟨?_, ?_⟩
        · rw [hp.1, ha1, hn.1, hk.1]
        · show s.index < rp.2.index
          omega⟩
    else
      let ⟨r1, h1⟩ := parseExpression ((rn.2.advance)).2 1
      have h1i : ((rn.2.advance)).2.index ≤ r1.2.index := h1.2.1
      let ⟨r2, h2⟩ := parseArgsLoop r1.2 (ExprList.cons r1.1 .nil)
      have h2i : r1.2.index ≤ r2.2.index := h2.2
      let ⟨rp, hp⟩ := expectTypeP r2.2 .RPAREN "SYN045" "Expected ')' after CALL arguments."
      have hpi : r2.2.index ≤ rp.2.index := hp.2.1
      ⟨(.callStatement rn.1.lexeme r2.1 (spanFrom rk.1.span (r2.1.lastSpanD rn.1.span)), rp.2), by
        refine ⟨?_, ?_⟩
        · rw [hp.1, h2.1, h1.1, ha1, hn.1, hk.1]
        · show s.index < rp.2.index
          omega⟩
  else
    ⟨(.callStatement rn.1.lexeme .nil (spanFrom rk.1.span rn.1.span), rn.2), by
      refine ⟨hn.1.trans hk.1, ?_⟩
      show s.index < rn.2.index
      omega⟩

/-- Models `Parser.parseReturnStatement`. -/
def parseReturnStatement (s : PState) (h : s.checkKeyword "RETURN" = true) :
    {r : StatementNode × PState // r.2.tokens = s.tokens ∧ s.index < r.2.index} :=
  let ⟨rk, hk⟩ := expectKeywordP s "RETURN" "SYN046" none
  have hki : rk.2.index = s.index + 1 := (hk.2.2.2 h).1
  let ⟨rv, hv⟩ := parseExpression rk.2 1
  have hvi : rk.2.index ≤ rv.2.index := hv.2.1
  ⟨(.returnStmt rv.1 (spanFrom rk.1.span rv.1.span), rv.2), by
    refine ⟨hv.1.trans hk.1, ?_⟩
    show s.index < rv.2.index
    omega⟩

/-- Models `Parser.parseOpenFileStatement`. -/
def parseOpenFileStatement (s : PState) (h : s.checkKeyword "OPENFILE" = true) :
    {r : StatementNode × PState // r.2.tokens = s.tokens ∧ s.index < r.2.index} :=
  let ⟨rk, hk⟩ := expectKeywordP s "OPENFILE" "SYN047" none
  have hki : rk.2.index = s.index + 1 := (hk.2.2.2 h).1
  let ⟨rf, hf⟩ := parseExpression rk.2 1
  have hfi : rk.2.index ≤ rf.2.index := hf.2.1
  let ⟨ro, ho⟩ := expectKeywordP rf.2 "FOR" "SYN048" (some "Expected FOR in OPENFILE statement.")
  have hoi : rf.2.index ≤ ro.2.index := ho.2.1
  let ⟨rm, hm⟩ := expectTypeP ro.2 .KEYWORD "SYN049" "Expected READ or WRITE file mode."
  have hmi : ro.2.index ≤ rm.2.index := hm.2.1
  if hmode : rm.1.keyword = some "READ" ∨ rm.1.keyword = some "WRITE" then
    ⟨(.openfile rf.1 (if rm.1.keyword = some "READ" then .READ else .WRITE)
        (spanFrom rk.1.span rm.1.span), rm.2), by
      refine ⟨?_, ?_⟩
      · rw [hm.1, ho.1, hf.1, hk.1]
      · show s.index < rm.2.index
        omega⟩
  else
    ⟨(.openfile rf.1 .READ (spanFrom rk.1.span rm.1.span),
       rm.2.error rm.1 "SYN050" "File mode must be READ or WRITE."), by
      have ht0 : (rm.2.error rm.1 "SYN050" "File mode must be READ or WRITE.").tokens =
          rm.2.tokens := rfl
      have hi0 : (rm.2.error rm.1 "SYN050" "File mode must be READ or WRITE.").index =
          rm.2.index := rfl
      refine ⟨?_, ?_⟩
      · rw [ht0, hm.1, ho.1, hf.1, hk.1]
      · show s.index < (rm.2.error rm.1 "SYN050" "File mode must be READ or WRITE.").index
        omega⟩

/-- Models `Parser.parseReadFileStatement` (the `null` path is dead). -/
def parseReadFileStatement (s : PState) (h : s.checkKeyword "READFILE" = true) :
    {r : StatementNode × PState // r.2.tokens = s.tokens ∧ s.index < r.2.index} :=
  let ⟨rk, hk⟩ := expectKeywordP s "READFILE" "SYN051" none
  have hki : rk.2.index = s.index + 1 := (hk.2.2.2 h).1
  let ⟨rf, hf⟩ := parseExpression rk.2 1
  have hfi : rk.2.index ≤ rf.2.index := hf.2.1
  let ⟨rc, hc⟩ := expectTypeP rf.2 .COMMA "SYN052" "Expected comma in READFILE statement."
  have hci : rf.2.index ≤ rc.2.index := hc.2.1
  let ⟨rt, ht⟩ := parseAssignableTargetP rc.2
  have hti : rc.2.index ≤ rt.2.index := ht.2.1
  ⟨(.readfile rf.1 rt.1 (spanFrom rk.1.span rt.1.span), rt.2), by
    refine ⟨?_, ?_⟩
    · rw [ht.1, hc.1, hf.1, hk.1]
    · show s.index < rt.2.index
      omega⟩

/-- Models `Parser.parseWriteFileStatement`. -/
def parseWriteFileStatement (s : PState) (h : s.checkKeyword "WRITEFILE" = true) :
    {r : StatementNode × PState // r.2.tokens = s.tokens ∧ s.index < r.2.index} :=
  let ⟨rk, hk⟩ := expectKeywordP s "WRITEFILE" "SYN053" none
  have hki : rk.2.index = s.index + 1 := (hk.2.2.2 h).1
  let ⟨rf, hf⟩ := parseExpression rk.2 1
  have hfi : rk.2.index ≤ rf.2.index := hf.2.1
  let ⟨rc, hc⟩ := expectTypeP rf.2 .COMMA "SYN054" "Expected comma in WRITEFILE statement."
  have hci : rf.2.index ≤ rc.2.index := hc.2.1
  let ⟨rv, hv⟩ := parseExpression rc.2 1
  have hvi : rc.2.index ≤ rv.2.index := hv.2.1
  ⟨(.writefile rf.1 rv.1 (spanFrom rk.1.span rv.1.span), rv.2), by
    refine ⟨?_, ?_⟩
    · rw [hv.1, hc.1, hf.1, hk.1]
    · show s.index < rv.2.index
      omega⟩

/-- Models `Parser.parseCloseFileStatement`. -/
def parseCloseFileStatement (s : PState) (h : s.checkKeyword "CLOSEFILE" = true) :
    {r : StatementNode × PState // r.2.tokens = s.tokens ∧ s.index < r.2.index} :=
  let ⟨rk, hk⟩ := expectKeywordP s "CLOSEFILE" "SYN055" none
  have hki : rk.2.index = s.index + 1 := (hk.2.2.2 h).1
  let ⟨rf, hf⟩ := parseExpression rk.2 1
  have hfi : rk.2.index ≤ rf.2.index := hf.2.1
  ⟨(.closefile rf.1 (spanFrom rk.1.span rf.1.span), rf.2), by
    refine ⟨hf.1.trans hk.1, ?_⟩
    show s.index < rf.2.index
    omega⟩

/-- Models `Parser.parseAssignmentStatement` under the dispatch guarantee
that the cursor sits on an identifier (the `null` path is dead). -/
def parseAssignmentStatement (s : PState) (h : s.checkType .IDENTIFIER = true) :
    {r : StatementNode × PState // r.2.tokens = s.tokens ∧ s.index < r.2.index} :=
  let ⟨rt, ht⟩ := parseAssignableTargetP s
  have hti : s.index < rt.2.index := ht.2.2 h
  let ⟨ra, ha⟩ := expectTypeP rt.2 .ASSIGN "SYN056"
    "Expected assignment operator after target identifier."
  have hai : rt.2.index ≤ ra.2.index := ha.2.1
  let ⟨rv, hv⟩ := parseExpression ra.2 1
  have hvi : ra.2.index ≤ rv.2.index := hv.2.1
  ⟨(.assignment rt.1 rv.1 (spanFrom rt.1.span rv.1.span), rv.2), by
    refine ⟨?_, ?_⟩
    · rw [hv.1, ha.1, ht.1]
    · show s.index < rv.2.index
      omega⟩

/-- Span accessor for statements (TS nodes carry `span` directly). -/
def StatementNode.span : StatementNode → SourceSpan
  | .declare _ _ sp => sp
  | .constant _ _ sp => sp
  | .assignment _ _ sp => sp
  | .input _ sp => sp
  | .output _ sp => sp
  | .ifStmt _ _ _ sp => sp
  | .caseStmt _ _ sp => sp
  | .forStmt _ _ _ _ _ sp => sp
  | .repeatStmt _ _ sp => sp
  | .whileStmt _ _ sp => sp
  | .procedureDefinition _ _ _ sp => sp
  | .functionDefinition _ _ _ _ sp => sp
  | .callStatement _ _ sp => sp
  | .returnStmt _ sp => sp
  | .openfile _ _ sp => sp
  | .readfile _ _ sp => sp
  | .writefile _ _ sp => sp
  | .closefile _ sp => sp

mutual
/-- Models `Parser.parseStatements`: skip leading newlines, then the
statement loop until a stop keyword or the end. -/
def parseStatements (s : PState) (stop : List String) :
    {r : StmtList × PState // r.2.tokens = s.tokens ∧ s.index ≤ r.2.index} :=
  let ⟨rn, hn⟩ := consumeNewlinesP s
  have hni : s.index ≤ rn.index := hn.2.1
  have hnlen : rn.tokens.length = s.tokens.length := congrArg List.length hn.1
  let ⟨rl, hl⟩ := parseStatementsLoop rn stop .nil
  have hli : rn.index ≤ rl.2.index := hl.2
  ⟨rl, by
    refine ⟨hl.1.trans hn.1, ?_⟩
    omega⟩
termination_by (s.tokens.length - s.index, 6)
decreasing_by
  all_goals refine Prod.lex_iff.mpr ?_
  all_goals omega

/-- Models the `while (!this.isAtEnd())` loop of `Parser.parseStatements`. -/
def parseStatementsLoop (s : PState) (stop : List String) (acc : StmtList) :
    {r : StmtList × PState // r.2.tokens = s.tokens ∧ s.index ≤ r.2.index} :=
  if hend : s.isAtEnd = true then
    ⟨(acc, s), rfl, le_refl _⟩
  else if hstop : s.current.type = .KEYWORD ∧
      ((s.current.keyword.map (fun k => stop.contains k)).getD false) = true then
    ⟨(acc, s), rfl, le_refl _⟩
  else if heof : s.current.type = .EOF then
    ⟨(acc, s), rfl, le_refl _⟩
  else
    have hne : s.isAtEnd = false := by simpa using hend
    have hlen : s.index < s.tokens.length := PState.lt_len_of_not_end s hne
    let ⟨r1, h1⟩ := parseStatement s
    have h1i : s.index ≤ r1.2.index := h1.2.1
    have h1len : r1.2.tokens.length = s.tokens.length := congrArg List.length h1.1
    match hr : r1.1 with
    | some stmt =>
      have h1s : s.index < r1.2.index := h1.2.2 (by rw [hr]; rfl)
      let ⟨rn, hn⟩ := consumeNewlinesP r1.2
      have hni : r1.2.index ≤ rn.index := hn.2.1
      have hnlen : rn.tokens.length = r1.2.tokens.length := congrArg List.length hn.1
      let ⟨rl, hl⟩ := parseStatementsLoop rn stop (acc.push stmt)
      have hli : rn.index ≤ rl.2.index := hl.2
      ⟨rl, by
        refine ⟨?_, ?_⟩
        · rw [hl.1, hn.1, h1.1]
        · omega⟩
    | none =>
      let ⟨rs, hsr⟩ := synchronizeLineP r1.2
      have hsi : r1.2.index ≤ rs.index := hsr.2.1
      have hslen : rs.tokens.length = r1.2.tokens.length := congrArg List.length hsr.1
      have hprog : s.index < rs.index := by
        rcases Nat.lt_or_ge s.index r1.2.index with hlt | hge
        · omega
        · have hEq : r1.2.index = s.index := by omega
          have hne1 : r1.2.isAtEnd = false := by
            rw [PState.isAtEnd_congr r1.2 s h1.1 hEq]
            exact hne
          have := hsr.2.2 hne1
          omega
      let ⟨rn, hn⟩ := consumeNewlinesP rs
      have hni : rs.index ≤ rn.index := hn.2.1
      have hnlen : rn.tokens.length = rs.tokens.length := congrArg List.length hn.1
      let ⟨rl, hl⟩ := parseStatementsLoop rn stop acc
      have hli : rn.index ≤ rl.2.index := hl.2
      ⟨rl, by
        refine ⟨?_, ?_⟩
        · rw [hl.1, hn.1, hsr.1, h1.1]
        · omega⟩
termination_by (s.tokens.length - s.index, 5)
decreasing_by
  all_goals refine Prod.lex_iff.mpr ?_
  all_goals omega

/-- Models `Parser.parseStatement`: dispatch on the current token. -/
def parseStatement (s : PState) :
    {r : Option StatementNode × PState // r.2.tokens = s.tokens ∧ s.index ≤ r.2.index ∧
      (r.1.isSome = true → s.index < r.2.index)} :=
  if hkw : s.current.type = .KEYWORD then
    if hk1 : s.checkKeyword "DECLARE" = true then
      let ⟨r, hrr⟩ := parseDeclareStatement s hk1
      ⟨r, hrr.1, le_of_lt hrr.2, fun _ => hrr.2⟩
    else if hk2 : s.checkKeyword "CONSTANT" = true then
      let ⟨r, hrr⟩ := parseConstantStatement s hk2
      ⟨r, hrr.1, le_of_lt hrr.2, fun _ => hrr.2⟩
    else if hk3 : s.checkKeyword "INPUT" = true then
      let ⟨r, hrr⟩ := parseInputStatement s hk3
      ⟨(some r.1, r.2), hrr.1, le_of_lt hrr.2, fun _ => hrr.2⟩
    else if hk4 : s.checkKeyword "OUTPUT" = true then
      let ⟨r, hrr⟩ := parseOutputStatement s hk4
      ⟨(some r.1, r.2), hrr.1, le_of_lt hrr.2, fun _ => hrr.2⟩
    else if hk5 : s.checkKeyword "IF" = true then
      let ⟨r, hrr⟩ := parseIfStatement s hk5
      ⟨(some r.1, r.2), hrr.1, le_of_lt hrr.2, fun _ => hrr.2⟩
    else if hk6 : s.checkKeyword "CASE" = true then
      let ⟨r, hrr⟩ := parseCaseStatement s hk6
      ⟨(some r.1, r.2), hrr.1, le_of_lt hrr.2, fun _ => hrr.2⟩
    else if hk7 : s.checkKeyword "FOR" = true then
      let ⟨r, hrr⟩ := parseForStatement s hk7
      ⟨(some r.1, r.2), hrr.1, le_of_lt hrr.2, fun _ => hrr.2⟩
    else if hk8 : s.checkKeyword "REPEAT" = true then
      let ⟨r, hrr⟩ := parseRepeatStatement s hk8
      ⟨(some r.1, r.2), hrr.1, le_of_lt hrr.2, fun _ => hrr.2⟩
    else if hk9 : s.checkKeyword "WHILE" = true then
      let ⟨r, hrr⟩ := parseWhileStatement s hk9
      ⟨(some r.1, r.2), hrr.1, le_of_lt hrr.2, fun _ => hrr.2⟩
    else if hk10 : s.checkKeyword "PROCEDURE" = true then
      let ⟨r, hrr⟩ := parseProcedureDefinition s hk10
      ⟨(some r.1, r.2), hrr.1, le_of_lt hrr.2, fun _ => hrr.2⟩
    else if hk11 : s.checkKeyword "FUNCTION" = true then
      let ⟨r, hrr⟩ := parseFunctionDefinition s hk11
      ⟨(some r.1, r.2), hrr.1, le_of_lt hrr.2, fun _ => hrr.2⟩
    else if hk12 : s.checkKeyword "CALL" = true then
      let ⟨r, hrr⟩ := parseCallStatement s hk12
      ⟨(some r.1, r.2), hrr.1, le_of_lt hrr.2, fun _ => hrr.2⟩
    else if hk13 : s.checkKeyword "RETURN" = true then
      let ⟨r, hrr⟩ := parseReturnStatement s hk13
      ⟨(some r.1, r.2), hrr.1, le_of_lt hrr.2, fun _ => hrr.2⟩
    else if hk14 : s.checkKeyword "OPENFILE" = true then
      let ⟨r, hrr⟩ := parseOpenFileStatement s hk14
      ⟨(some r.1, r.2), hrr.1, le_of_lt hrr.2, fun _ => hrr.2⟩
    else if hk15 : s.checkKeyword "READFILE" = true then
      let ⟨r, hrr⟩ := parseReadFileStatement s hk15
      ⟨(some r.1, r.2), hrr.1, le_of_lt hrr.2, fun _ => hrr.2⟩
    else if hk16 : s.checkKeyword "WRITEFILE" = true then
      let ⟨r, hrr⟩ := parseWriteFileStatement s hk16
      ⟨(some r.1, r.2), hrr.1, le_of_lt hrr.2, fun _ => hrr.2⟩
    else if hk17 : s.checkKeyword "CLOSEFILE" = true then
      let ⟨r, hrr⟩ := parseCloseFileStatement s hk17
      ⟨(some r.1, r.2), hrr.1, le_of_lt hrr.2, fun _ => hrr.2⟩
    else
      ⟨(none, s.error s.current "SYN003"
          ("Unexpected keyword \"" ++ s.current.keyword.getD "undefined" ++ "\".")),
        rfl, le_refl _, fun hx => Bool.noConfusion hx⟩
  else if hid : s.current.type = .IDENTIFIER then
    have hc : s.checkType .IDENTIFIER = true := by
      unfold PState.checkType
      simp [hid]
    let ⟨r, hrr⟩ := parseAssignmentStatement s hc
    ⟨(some r.1, r.2), hrr.1, le_of_lt hrr.2, fun _ => hrr.2⟩
  else
    ⟨(none, s.error s.current "SYN004" "Expected a valid statement."),
      rfl, le_refl _, fun hx => Bool.noConfusion hx⟩
termination_by (s.tokens.length - s.index, 4)
decreasing_by
  all_goals refine Prod.lex_iff.mpr ?_
  all_goals omega

/-- Models `Parser.parseStatementAfterCaseColon`. -/
def parseStatementAfterCaseColon (s : PState) :
    {r : Option StatementNode × PState // r.2.tokens = s.tokens ∧ s.index ≤ r.2.index ∧
      (r.1.isSome = true → s.index < r.2.index)} :=
  if _hnl : s.current.type = .NEWLINE then
    ⟨(none, s.error s.current "SYN023" "CASE clause requires a statement on the same line."),
      rfl, le_refl _, fun hx => Bool.noConfusion hx⟩
  else
    parseStatement s
termination_by (s.tokens.length - s.index, 5)
decreasing_by
  all_goals refine Prod.lex_iff.mpr ?_
  all_goals omega

/-- Models the clause loop of `Parser.parseCaseStatement`. -/
def parseCaseClausesLoop (s : PState) (acc : ClauseList) :
    {r : ClauseList × PState // r.2.tokens = s.tokens ∧ s.index ≤ r.2.index} :=
  if hgo : s.isAtEnd = false ∧ s.checkKeyword "ENDCASE" = false then
    have hlen : s.index < s.tokens.length := PState.lt_len_of_not_end s hgo.1
    if hoth : s.checkKeyword "OTHERWISE" = true then
      have hne := PState.not_end_of_checkKeyword s "OTHERWISE" hoth
      have ha1 : (s.advance).2.tokens = s.tokens := PState.advance_tokens s
      have ha1len : (s.advance).2.tokens.length = s.tokens.length := congrArg List.length ha1
      have ha2 : (s.advance).2.index = s.index + 1 := PState.advance_strict s hne
      let ⟨rs, hsr⟩ := parseStatementAfterCaseColon (s.advance).2
      have hsi : (s.advance).2.index ≤ rs.2.index := hsr.2.1
      have hslen : rs.2.tokens.length = (s.advance).2.tokens.length := congrArg List.length hsr.1
      match rs.1 with
      | some stmt =>
        let ⟨rn, hn⟩ := consumeNewlinesP rs.2
        have hni : rs.2.index ≤ rn.index := hn.2.1
        have hnlen : rn.tokens.length = rs.2.tokens.length := congrArg List.length hn.1
        let ⟨rl, hl⟩ := parseCaseClausesLoop rn
          (acc.push none stmt (spanFrom s.current.span stmt.span))
        have hli : rn.index ≤ rl.2.index := hl.2
        ⟨rl, by
          refine ⟨?_, ?_⟩
          · rw [hl.1, hn.1, hsr.1, ha1]
          · omega⟩
      | none =>
        let ⟨rn, hn⟩ := consumeNewlinesP rs.2
        have hni : rs.2.index ≤ rn.index := hn.2.1
        have hnlen : rn.tokens.length = rs.2.tokens.length := congrArg List.length hn.1
        let ⟨rl, hl⟩ := parseCaseClausesLoop rn acc
        have hli : rn.index ≤ rl.2.index := hl.2
        ⟨rl, by
          refine ⟨?_, ?_⟩
          · rw [hl.1, hn.1, hsr.1, ha1]
          · omega⟩
    else
      let ⟨rv, hv⟩ := parseExpression s 1
      have hvs : s.index < rv.2.index := hv.2.2 hgo.1
      have hvlen : rv.2.tokens.length = s.tokens.length := congrArg List.length hv.1
      let ⟨rc, hcr⟩ := expectTypeP rv.2 .COLON "SYN021" "Expected ':' after CASE value."
      have hci : rv.2.index ≤ rc.2.index := hcr.2.1
      have hclen : rc.2.tokens.length = rv.2.tokens.length := congrArg List.length hcr.1
      let ⟨rs, hsr⟩ := parseStatementAfterCaseColon rc.2
      have hsi : rc.2.index ≤ rs.2.index := hsr.2.1
      have hslen : rs.2.tokens.length = rc.2.tokens.length := congrArg List.length hsr.1
      match rs.1 with
      | some stmt =>
        let ⟨rn, hn⟩ := consumeNewlinesP rs.2
        have hni : rs.2.index ≤ rn.index := hn.2.1
        have hnlen : rn.tokens.length = rs.2.tokens.length := congrArg List.length hn.1
        let ⟨rl, hl⟩ := parseCaseClausesLoop rn
          (acc.push (some rv.1) stmt (spanFrom s.current.span stmt.span))
        have hli : rn.index ≤ rl.2.index := hl.2
        ⟨rl, by
          refine ⟨?_, ?_⟩
          · rw [hl.1, hn.1, hsr.1, hcr.1, hv.1]
          · omega⟩
      | none =>
        let ⟨rn, hn⟩ := consumeNewlinesP rs.2
        have hni : rs.2.index ≤ rn.index := hn.2.1
        have hnlen : rn.tokens.length = rs.2.tokens.length := congrArg List.length hn.1
        let ⟨rl, hl⟩ := parseCaseClausesLoop rn acc
        have hli : rn.index ≤ rl.2.index := hl.2
        ⟨rl, by
          refine ⟨?_, ?_⟩
          · rw [hl.1, hn.1, hsr.1, hcr.1, hv.1]
          · omega⟩
  else
    ⟨(acc, s), rfl, le_refl _⟩
termination_by (s.tokens.length - s.index, 6)
decreasing_by
  all_goals refine Prod.lex_iff.mpr ?_
  all_goals omega

/-- Models `Parser.parseIfStatement`. -/
def parseIfStatement (s : PState) (h : s.checkKeyword "IF" = true) :
    {r : StatementNode × PState // r.2.tokens = s.tokens ∧ s.index < r.2.index} :=
  have hne0 := PState.not_end_of_checkKeyword s "IF" h
  have hlen0 : s.index < s.tokens.length := PState.lt_len_of_not_end s hne0
  let ⟨rk, hk⟩ := expectKeywordP s "IF" "SYN016" none
  have hki : rk.2.index = s.index + 1 := (hk.2.2.2 h).1
  have hklen : rk.2.tokens.length = s.tokens.length := congrArg List.length hk.1
  let ⟨rc, hc⟩ := parseExpression rk.2 1
  have hci : rk.2.index ≤ rc.2.index := hc.2.1
  have hclen : rc.2.tokens.length = rk.2.tokens.length := congrArg List.length hc.1
  let ⟨rn1, hn1⟩ := consumeNewlinesP rc.2
  have hn1i : rc.2.index ≤ rn1.index := hn1.2.1
  have hn1len : rn1.tokens.length = rc.2.tokens.length := congrArg List.length hn1.1
  let ⟨rt, hthen⟩ := expectKeywordP rn1 "THEN" "SYN017" (some "Expected THEN in IF statement.")
  have hti : rn1.index ≤ rt.2.index := hthen.2.1
  have htlen : rt.2.tokens.length = rn1.tokens.length := congrArg List.length hthen.1
  let ⟨rn2, hn2⟩ := consumeNewlinesP rt.2
  have hn2i : rt.2.index ≤ rn2.index := hn2.2.1
  have hn2len : rn2.tokens.length = rt.2.tokens.length := congrArg List.length hn2.1
  let ⟨rb, hb⟩ := parseStatements rn2 ["ELSE", "ENDIF"]
  have hbi : rn2.index ≤ rb.2.index := hb.2
  have hblen : rb.2.tokens.length = rn2.tokens.length := congrArg List.length hb.1
  if he : rb.2.checkKeyword "ELSE" = true then
    have hnee := PState.not_end_of_checkKeyword rb.2 "ELSE" he
    have ha1 : ((rb.2.advance)).2.tokens = rb.2.tokens := PState.advance_tokens rb.2
    have ha1len : ((rb.2.advance)).2.tokens.length = rb.2.tokens.length :=
      congrArg List.length ha1
    have ha2 : ((rb.2.advance)).2.index = rb.2.index + 1 := PState.advance_strict rb.2 hnee
    have hlenb : rb.2.index < rb.2.tokens.length := PState.lt_len_of_not_end rb.2 hnee
    let ⟨rn3, hn3⟩ := consumeNewlinesP ((rb.2.advance)).2
    have hn3i : ((rb.2.advance)).2.index ≤ rn3.index := hn3.2.1
    have hn3len : rn3.tokens.length = ((rb.2.advance)).2.tokens.length :=
      congrArg List.length hn3.1
    let ⟨re, hre⟩ := parseStatements rn3 ["ENDIF"]
    have hei : rn3.index ≤ re.2.index := hre.2
    have helen : re.2.tokens.length = rn3.tokens.length := congrArg List.length hre.1
    let ⟨rf, hf⟩ := expectKeywordP re.2 "ENDIF" "SYN018"
      (some "Expected ENDIF to close IF statement.")
    have hfi : re.2.index ≤ rf.2.index := hf.2.1
    ⟨(.ifStmt rc.1 rb.1 re.1 (spanFrom rk.1.span rf.1.span), rf.2), by
      refine ⟨?_, ?_⟩
      · rw [hf.1, hre.1, hn3.1, ha1, hb.1, hn2.1, hthen.1, hn1.1, hc.1, hk.1]
      · show s.index < rf.2.index
        omega⟩
  else
    let ⟨rf, hf⟩ := expectKeywordP rb.2 "ENDIF" "SYN018"
      (some "Expected ENDIF to close IF statement.")
    have hfi : rb.2.index ≤ rf.2.index := hf.2.1
    ⟨(.ifStmt rc.1 rb.1 .nil (spanFrom rk.1.span rf.1.span), rf.2), by
      refine ⟨?_, ?_⟩
      · rw [hf.1, hb.1, hn2.1, hthen.1, hn1.1, hc.1, hk.1]
      · show s.index < rf.2.index
        omega⟩
termination_by (s.tokens.length - s.index, 3)
decreasing_by
  all_goals refine Prod.lex_iff.mpr ?_
  all_goals omega

/-- Models `Parser.parseCaseStatement`. -/
def parseCaseStatement (s : PState) (h : s.checkKeyword "CASE" = true) :
    {r : StatementNode × PState // r.2.tokens = s.tokens ∧ s.index < r.2.index} :=
  have hne0 := PState.not_end_of_checkKeyword s "CASE" h
  have hlen0 : s.index < s.tokens.length := PState.lt_len_of_not_end s hne0
  let ⟨rk, hk⟩ := expectKeywordP s "CASE" "SYN019" none
  have hki : rk.2.index = s.index + 1 := (hk.2.2.2 h).1
  have hklen : rk.2.tokens.length = s.tokens.length := congrArg List.length hk.1
  let ⟨ro, ho⟩ := expectKeywordP rk.2 "OF" "SYN020" (some "Expected OF in CASE statement.")
  have hoi : rk.2.index ≤ ro.2.index := ho.2.1
  have holen : ro.2.tokens.length = rk.2.tokens.length := congrArg List.length ho.1
  let ⟨re, hre⟩ := parseExpression ro.2 1
  have hei : ro.2.index ≤ re.2.index := hre.2.1
  have helen : re.2.tokens.length = ro.2.tokens.length := congrArg List.length hre.1
  let ⟨rn, hn⟩ := consumeNewlinesP re.2
  have hni : re.2.index ≤ rn.index := hn.2.1
  have hnlen : rn.tokens.length = re.2.tokens.length := congrArg List.length hn.1
  let ⟨rcl, hcl⟩ := parseCaseClausesLoop rn .nil
  have hcli : rn.index ≤ rcl.2.index := hcl.2
  have hcllen : rcl.2.tokens.length = rn.tokens.length := congrArg List.length hcl.1
  let ⟨rend, hendk⟩ := expectKeywordP rcl.2 "ENDCASE" "SYN022"
    (some "Expected ENDCASE to close CASE statement.")
  have hendi : rcl.2.index ≤ rend.2.index := hendk.2.1
  ⟨(.caseStmt re.1 rcl.1 (spanFrom rk.1.span rend.1.span), rend.2), by
    refine ⟨?_, ?_⟩
    · rw [hendk.1, hcl.1, hn.1, hre.1, ho.1, hk.1]
    · show s.index < rend.2.index
      omega⟩
termination_by (s.tokens.length - s.index, 3)
decreasing_by
  all_goals refine Prod.lex_iff.mpr ?_
  all_goals omega

/-- The bottom half of `Parser.parseForStatement`: newlines, the loop
body, `NEXT`, the optional closing-iterator check, and node assembly. -/
def parseForTail (s : PState) (startSpan : SourceSpan) (iterator : IdentNode)
    (startValue endValue : ExpressionNode) (stepValue : Option ExpressionNode) :
    {r : StatementNode × PState // r.2.tokens = s.tokens ∧ s.index ≤ r.2.index} :=
  let ⟨rn, hn⟩ := consumeNewlinesP s
  have hni : s.index ≤ rn.index := hn.2.1
  have hnlen : rn.tokens.length = s.tokens.length := congrArg List.length hn.1
  let ⟨rb, hb⟩ := parseStatements rn ["NEXT"]
  have hbi : rn.index ≤ rb.2.index := hb.2
  have hblen : rb.2.tokens.length = rn.tokens.length := congrArg List.length hb.1
  let ⟨rx, hx⟩ := expectKeywordP rb.2 "NEXT" "SYN027" (some "Expected NEXT to close FOR loop.")
  have hxi : rb.2.index ≤ rx.2.index := hx.2.1
  if hci : rx.2.current.type = .IDENTIFIER then
    have ha1 : ((rx.2.advance)).2.tokens = rx.2.tokens := PState.advance_tokens rx.2
    have ha2 : rx.2.index ≤ ((rx.2.advance)).2.index := PState.advance_le rx.2
    if heq : jsToLower ((rx.2.advance).1).lexeme = jsToLower iterator.name then
      ⟨(.forStmt iterator startValue endValue stepValue rb.1
          (spanFrom startSpan ((rx.2.advance)).2.previous.span), ((rx.2.advance)).2), by
        refine ⟨?_, ?_⟩
        · rw [ha1, hx.1, hb.1, hn.1]
        · show s.index ≤ ((rx.2.advance)).2.index
          omega⟩
    else
      ⟨(.forStmt iterator startValue endValue stepValue rb.1
          (spanFrom startSpan ((rx.2.advance)).2.previous.span),
        ((rx.2.advance)).2.error (rx.2.advance).1 "SYN028"
          ("Iterator mismatch: expected " ++ iterator.name ++ " after NEXT, found " ++
            ((rx.2.advance).1).lexeme ++ ".")), by
        have ht0 : (((rx.2.advance)).2.error (rx.2.advance).1 "SYN028"
            ("Iterator mismatch: expected " ++ iterator.name ++ " after NEXT, found " ++
              ((rx.2.advance).1).lexeme ++ ".")).tokens = ((rx.2.advance)).2.tokens := rfl
        have hi0 : (((rx.2.advance)).2.error (rx.2.advance).1 "SYN028"
            ("Iterator mismatch: expected " ++ iterator.name ++ " after NEXT, found " ++
              ((rx.2.advance).1).lexeme ++ ".")).index = ((rx.2.advance)).2.index := rfl
        refine ⟨?_, ?_⟩
        · rw [ht0, ha1, hx.1, hb.1, hn.1]
        · show s.index ≤ (((rx.2.advance)).2.error (rx.2.advance).1 "SYN028"
              ("Iterator mismatch: expected " ++ iterator.name ++ " after NEXT, found " ++
                ((rx.2.advance).1).lexeme ++ ".")).index
          omega⟩
  else
    ⟨(.forStmt iterator startValue endValue stepValue rb.1
        (spanFrom startSpan rx.2.previous.span), rx.2), by
      refine ⟨?_, ?_⟩
      · rw [hx.1, hb.1, hn.1]
      · show s.index ≤ rx.2.index
        omega⟩
termination_by (s.tokens.length - s.index, 7)
decreasing_by
  all_goals refine Prod.lex_iff.mpr ?_
  all_goals omega

/-- Models `Parser.parseForStatement`. -/
def parseForStatement (s : PState) (h : s.checkKeyword "FOR" = true) :
    {r : StatementNode × PState // r.2.tokens = s.tokens ∧ s.index < r.2.index} :=
  have hne0 := PState.not_end_of_checkKeyword s "FOR" h
  have hlen0 : s.index < s.tokens.length := PState.lt_len_of_not_end s hne0
  let ⟨rk, hk⟩ := expectKeywordP s "FOR" "SYN024" none
  have hki : rk.2.index = s.index + 1 := (hk.2.2.2 h).1
  have hklen : rk.2.tokens.length = s.tokens.length := congrArg List.length hk.1
  let ⟨ri, hi⟩ := parseIdentifierP rk.2
  have hii : rk.2.index ≤ ri.2.index := hi.2
  have hilen : ri.2.tokens.length = rk.2.tokens.length := congrArg List.length hi.1
  let ⟨ra, ha⟩ := expectTypeP ri.2 .ASSIGN "SYN025" "Expected assignment operator in FOR statement."
  have hai : ri.2.index ≤ ra.2.index := ha.2.1
  have halen : ra.2.tokens.length = ri.2.tokens.length := congrArg List.length ha.1
  let ⟨rs1, hs1⟩ := parseExpression ra.2 1
  have hs1i : ra.2.index ≤ rs1.2.index := hs1.2.1
  have hs1len : rs1.2.tokens.length = ra.2.tokens.length := congrArg List.length hs1.1
  let ⟨rt, hto⟩ := expectKeywordP rs1.2 "TO" "SYN026" (some "Expected TO in FOR statement.")
  have hti : rs1.2.index ≤ rt.2.index := hto.2.1
  have htlen : rt.2.tokens.length = rs1.2.tokens.length := congrArg List.length hto.1
  let ⟨re2, he2⟩ := parseExpression rt.2 1
  have he2i : rt.2.index ≤ re2.2.index := he2.2.1
  have he2len : re2.2.tokens.length = rt.2.tokens.length := congrArg List.length he2.1
  if hstep : re2.2.checkKeyword "STEP" = true then
    have hnes := PState.not_end_of_checkKeyword re2.2 "STEP" hstep
    have ha1 : ((re2.2.advance)).2.tokens = re2.2.tokens := PState.advance_tokens re2.2
    have ha1len : ((re2.2.advance)).2.tokens.length = re2.2.tokens.length :=
      congrArg List.length ha1
    have ha2 : ((re2.2.advance)).2.index = re2.2.index + 1 := PState.advance_strict re2.2 hnes
    have hlene : re2.2.index < re2.2.tokens.length := PState.lt_len_of_not_end re2.2 hnes
    let ⟨rs2, hs2⟩ := parseExpression ((re2.2.advance)).2 1
    have hs2i : ((re2.2.advance)).2.index ≤ rs2.2.index := hs2.2.1
    have hs2len : rs2.2.tokens.length = ((re2.2.advance)).2.tokens.length :=
      congrArg List.length hs2.1
    let ⟨rf, hfr⟩ := parseForTail rs2.2 rk.1.span
      (ri.1.getD { name := "InvalidIterator", span := rk.1.span }) rs1.1 re2.1 (some rs2.1)
    have hfi : rs2.2.index ≤ rf.2.index := hfr.2
    ⟨rf, by
      refine ⟨?_, ?_⟩
      · rw [hfr.1, hs2.1, ha1, he2.1, hto.1, hs1.1, ha.1, hi.1, hk.1]
      · omega⟩
  else
    let ⟨rf, hfr⟩ := parseForTail re2.2 rk.1.span
      (ri.1.getD { name := "InvalidIterator", span := rk.1.span }) rs1.1 re2.1 none
    have hfi : re2.2.index ≤ rf.2.index := hfr.2
    ⟨rf, by
      refine ⟨?_, ?_⟩
      · rw [hfr.1, he2.1, hto.1, hs1.1, ha.1, hi.1, hk.1]
      · omega⟩
termination_by (s.tokens.length - s.index, 3)
decreasing_by
  all_goals refine Prod.lex_iff.mpr ?_
  all_goals omega

/-- Models `Parser.parseRepeatStatement`. -/
def parseRepeatStatement (s : PState) (h : s.checkKeyword "REPEAT" = true) :
    {r : StatementNode × PState // r.2.tokens = s.tokens ∧ s.index < r.2.index} :=
  have hne0 := PState.not_end_of_checkKeyword s "REPEAT" h
  have hlen0 : s.index < s.tokens.length := PState.lt_len_of_not_end s hne0
  let ⟨rk, hk⟩ := expectKeywordP s "REPEAT" "SYN029" none
  have hki : rk.2.index = s.index + 1 := (hk.2.2.2 h).1
  have hklen : rk.2.tokens.length = s.tokens.length := congrArg List.length hk.1
  let ⟨rn, hn⟩ := consumeNewlinesP rk.2
  have hni : rk.2.index ≤ rn.index := hn.2.1
  have hnlen : rn.tokens.length = rk.2.tokens.length := congrArg List.length hn.1
  let ⟨rb, hb⟩ := parseStatements rn ["UNTIL"]
  have hbi : rn.index ≤ rb.2.index := hb.2
  have hblen : rb.2.tokens.length = rn.tokens.length := congrArg List.length hb.1
  let ⟨ru, hu⟩ := expectKeywordP rb.2 "UNTIL" "SYN030" (some "Expected UNTIL to close REPEAT loop.")
  have hui : rb.2.index ≤ ru.2.index := hu.2.1
  have hulen : ru.2.tokens.length = rb.2.tokens.length := congrArg List.length hu.1
  let ⟨rc, hcr⟩ := parseExpression ru.2 1
  have hci : ru.2.index ≤ rc.2.index := hcr.2.1
  ⟨(.repeatStmt rb.1 rc.1 (spanFrom rk.1.span rc.1.span), rc.2), by
    refine ⟨?_, ?_⟩
    · rw [hcr.1, hu.1, hb.1, hn.1, hk.1]
    · show s.index < rc.2.index
      omega⟩
termination_by (s.tokens.length - s.index, 3)
decreasing_by
  all_goals refine Prod.lex_iff.mpr ?_
  all_goals omega

/-- Models `Parser.parseWhileStatement`. -/
def parseWhileStatement (s : PState) (h : s.checkKeyword "WHILE" = true) :
    {r : StatementNode × PState // r.2.tokens = s.tokens ∧ s.index < r.2.index} :=
  have hne0 := PState.not_end_of_checkKeyword s "WHILE" h
  have hlen0 : s.index < s.tokens.length := PState.lt_len_of_not_end s hne0
  let ⟨rk, hk⟩ := expectKeywordP s "WHILE" "SYN031" none
  have hki : rk.2.index = s.index + 1 := (hk.2.2.2 h).1
  have hklen : rk.2.tokens.length = s.tokens.length := congrArg List.length hk.1
  let ⟨rc, hc⟩ := parseExpression rk.2 1
  have hci : rk.2.index ≤ rc.2.index := hc.2.1
  have hclen : rc.2.tokens.length = rk.2.tokens.length := congrArg List.length hc.1
  let ⟨rn1, hn1⟩ := consumeNewlinesP rc.2
  have hn1i : rc.2.index ≤ rn1.index := hn1.2.1
  have hn1len : rn1.tokens.length = rc.2.tokens.length := congrArg List.length hn1.1
  let ⟨rd, hd⟩ := expectKeywordP rn1 "DO" "SYN032" (some "Expected DO in WHILE loop.")
  have hdi : rn1.index ≤ rd.2.index := hd.2.1
  have hdlen : rd.2.tokens.length = rn1.tokens.length := congrArg List.length hd.1
  let ⟨rn2, hn2⟩ := consumeNewlinesP rd.2
  have hn2i : rd.2.index ≤ rn2.index := hn2.2.1
  have hn2len : rn2.tokens.length = rd.2.tokens.length := congrArg List.length hn2.1
  let ⟨rb, hb⟩ := parseStatements rn2 ["ENDWHILE"]
  have hbi : rn2.index ≤ rb.2.index := hb.2
  have hblen : rb.2.tokens.length = rn2.tokens.length := congrArg List.length hb.1
  let ⟨rend, hendk⟩ := expectKeywordP rb.2 "ENDWHILE" "SYN033"
    (some "Expected ENDWHILE to close WHILE loop.")
  have hendi : rb.2.index ≤ rend.2.index := hendk.2.1
  ⟨(.whileStmt rc.1 rb.1 (spanFrom rk.1.span rend.1.span), rend.2), by
    refine ⟨?_, ?_⟩
    · rw [hendk.1, hb.1, hn2.1, hd.1, hn1.1, hc.1, hk.1]
    · show s.index < rend.2.index
      omega⟩
termination_by (s.tokens.length - s.index, 3)
decreasing_by
  all_goals refine Prod.lex_iff.mpr ?_
  all_goals omega

/-- Models `Parser.parseProcedureDefinition`. -/
def parseProcedureDefinition (s : PState) (h : s.checkKeyword "PROCEDURE" = true) :
    {r : StatementNode × PState // r.2.tokens = s.tokens ∧ s.index < r.2.index} :=
  have hne0 := PState.not_end_of_checkKeyword s "PROCEDURE" h
  have hlen0 : s.index < s.tokens.length := PState.lt_len_of_not_end s hne0
  let ⟨rk, hk⟩ := expectKeywordP s "PROCEDURE" "SYN034" none
  have hki : rk.2.index = s.index + 1 := (hk.2.2.2 h).1
  have hklen : rk.2.tokens.length = s.tokens.length := congrArg List.length hk.1
  let ⟨rn, hn⟩ := expectTypeP rk.2 .IDENTIFIER "SYN035" "Expected procedure identifier."
  have hni : rk.2.index ≤ rn.2.index := hn.2.1
  have hnlen : rn.2.tokens.length = rk.2.tokens.length := congrArg List.length hn.1
  let ⟨rp, hp⟩ := parseParameterList rn.2
  have hpi : rn.2.index ≤ rp.2.index := hp.2
  have hplen : rp.2.tokens.length = rn.2.tokens.length := congrArg List.length hp.1
  let ⟨rnl, hnl⟩ := consumeNewlinesP rp.2
  have hnli : rp.2.index ≤ rnl.index := hnl.2.1
  have hnllen : rnl.tokens.length = rp.2.tokens.length := congrArg List.length hnl.1
  let ⟨rb, hb⟩ := parseStatements rnl ["ENDPROCEDURE"]
  have hbi : rnl.index ≤ rb.2.index := hb.2
  have hblen : rb.2.tokens.length = rnl.tokens.length := congrArg List.length hb.1
  let ⟨rend, hendk⟩ := expectKeywordP rb.2 "ENDPROCEDURE" "SYN036" (some "Expected ENDPROCEDURE.")
  have hendi : rb.2.index ≤ rend.2.index := hendk.2.1
  ⟨(.procedureDefinition rn.1.lexeme rp.1 rb.1 (spanFrom rk.1.span rend.1.span), rend.2), by
    refine ⟨?_, ?_⟩
    · rw [hendk.1, hb.1, hnl.1, hp.1, hn.1, hk.1]
    · show s.index < rend.2.index
      omega⟩
termination_by (s.tokens.length - s.index, 3)
decreasing_by
  all_goals refine Prod.lex_iff.mpr ?_
  all_goals omega

/-- The bottom half of `Parser.parseFunctionDefinition`: newlines, the
body, and `ENDFUNCTION`. -/
def parseFunctionTail (s : PState) (startSpan : SourceSpan) (name : String)
    (params : List ParameterNode) (returnType : BasicTypeName) :
    {r : StatementNode × PState // r.2.tokens = s.tokens ∧ s.index ≤ r.2.index} :=
  let ⟨rn, hn⟩ := consumeNewlinesP s
  have hni : s.index ≤ rn.index := hn.2.1
  have hnlen : rn.tokens.length = s.tokens.length := congrArg List.length hn.1
  let ⟨rb, hb⟩ := parseStatements rn ["ENDFUNCTION"]
  have hbi : rn.index ≤ rb.2.index := hb.2
  have hblen : rb.2.tokens.length = rn.tokens.length := congrArg List.length hb.1
  let ⟨rend, hendk⟩ := expectKeywordP rb.2 "ENDFUNCTION" "SYN042" (some "Expected ENDFUNCTION.")
  have hendi : rb.2.index ≤ rend.2.index := hendk.2.1
  ⟨(.functionDefinition name params returnType rb.1 (spanFrom startSpan rend.1.span), rend.2), by
    refine ⟨?_, ?_⟩
    · rw [hendk.1, hb.1, hn.1]
    · show s.index ≤ rend.2.index
      omega⟩
termination_by (s.tokens.length - s.index, 7)
decreasing_by
  all_goals refine Prod.lex_iff.mpr ?_
  all_goals omega

/-- Models `Parser.parseFunctionDefinition`. -/
def parseFunctionDefinition (s : PState) (h : s.checkKeyword "FUNCTION" = true) :
    {r : StatementNode × PState // r.2.tokens = s.tokens ∧ s.index < r.2.index} :=
  have hne0 := PState.not_end_of_checkKeyword s "FUNCTION" h
  have hlen0 : s.index < s.tokens.length := PState.lt_len_of_not_end s hne0
  let ⟨rk, hk⟩ := expectKeywordP s "FUNCTION" "SYN037" none
  have hki : rk.2.index = s.index + 1 := (hk.2.2.2 h).1
  have hklen : rk.2.tokens.length = s.tokens.length := congrArg List.length hk.1
  let ⟨rn, hn⟩ := expectTypeP rk.2 .IDENTIFIER "SYN038" "Expected function identifier."
  have hni : rk.2.index ≤ rn.2.index := hn.2.1
  have hnlen : rn.2.tokens.length = rk.2.tokens.length := congrArg List.length hn.1
  let ⟨rp, hp⟩ := parseParameterList rn.2
  have hpi : rn.2.index ≤ rp.2.index := hp.2
  have hplen : rp.2.tokens.length = rn.2.tokens.length := congrArg List.length hp.1
  let ⟨rr, hrr⟩ := expectKeywordP rp.2 "RETURNS" "SYN039"
    (some "Expected RETURNS in function definition.")
  have hrri : rp.2.index ≤ rr.2.index := hrr.2.1
  have hrrlen : rr.2.tokens.length = rp.2.tokens.length := congrArg List.length hrr.1
  let ⟨rt, hrt⟩ := expectTypeP rr.2 .KEYWORD "SYN040" "Expected return data type after RETURNS."
  have hrti : rr.2.index ≤ rt.2.index := hrt.2.1
  have hrtlen : rt.2.tokens.length = rr.2.tokens.length := congrArg List.length hrt.1
  match basicTypeOfKeyword rt.1.keyword with
  | some bt =>
    let ⟨rf, hf⟩ := parseFunctionTail rt.2 rk.1.span rn.1.lexeme rp.1 bt
    have hfi : rt.2.index ≤ rf.2.index := hf.2
    ⟨rf, by
      refine ⟨?_, ?_⟩
      · rw [hf.1, hrt.1, hrr.1, hp.1, hn.1, hk.1]
      · omega⟩
  | none =>
    have ht0 : (rt.2.error rt.1 "SYN041"
        "Function return type must be a basic IGCSE data type.").tokens = rt.2.tokens := rfl
    have ht0len : (rt.2.error rt.1 "SYN041"
        "Function return type must be a basic IGCSE data type.").tokens.length =
        rt.2.tokens.length := congrArg List.length ht0
    have hi0 : (rt.2.error rt.1 "SYN041"
        "Function return type must be a basic IGCSE data type.").index = rt.2.index := rfl
    let ⟨rf, hf⟩ := parseFunctionTail
      (rt.2.error rt.1 "SYN041" "Function return type must be a basic IGCSE data type.")
      rk.1.span rn.1.lexeme rp.1 .INTEGER
    have hfi : (rt.2.error rt.1 "SYN041"
        "Function return type must be a basic IGCSE data type.").index ≤ rf.2.index := hf.2
    ⟨rf, by
      refine ⟨?_, ?_⟩
      · rw [hf.1, ht0, hrt.1, hrr.1, hp.1, hn.1, hk.1]
      · omega⟩
termination_by (s.tokens.length - s.index, 3)
decreasing_by
  all_goals refine Prod.lex_iff.mpr ?_
  all_goals omega
end

/-- Models `Parser.parseProgram`. -/
def parseProgramP (s : PState) :
    {r : ProgramNode × PState // r.2.tokens = s.tokens ∧ s.index ≤ r.2.index} :=
  let ⟨rb, hb⟩ := parseStatements s ["EOF"]
  ⟨({ body := rb.1, span := spanFrom s.current.span rb.2.previous.span }, rb.2), hb⟩

/-- Models `parseSource` (`types.ts`): tokenize, construct the parser over
the shared diagnostics list, and parse a program. -/
def parseSource (source : String) : ProgramNode × List Diagnostic :=
  let t := tokenize source
  let r := parseProgramP { tokens := t.1, index := 0, diags := t.2 }
  (r.val.1, r.val.2.diags)

/-- Models the full compiler facade `compilePseudocode` (`part_008`) from
the raw source text: parse, analyze, merge and sort diagnostics, and gate
Python emission.  The facade has no try/catch, so when the analyzer throws
(`AState.crashed`, see `setCrashed`) the exception surfaces to the caller
instead of a `CompileResult`; `Except.error` carries the thrown
`TypeError` message. -/
def compilePseudocode (request : CompileRequest) : Except String CompileResult :=
  let p := parseSource request.source
  if (analyzeProgram p.1).crashed then
    .error "TypeError: Cannot read properties of undefined (reading 'length')"
  else
    .ok (compileFromStages p.1 p.2)

/-- The analyzer state at construction time, before any builtin seeding
(used by concrete witnesses that exercise the expression layer directly). -/
def emptyAState : AState :=
  { diagnostics := [], symbolTypes := [], functionSignatures := [],
    procedureSignatures := [], crashed := false }

/-! Helper lemmas about the diagnostic comparator and the facade sort. -/

theorem strLeAux_total (a b : List Char) : strLeAux a b = true ∨ strLeAux b a = true := by
  induction a generalizing b with
  | nil => left; rfl
  | cons x xs ih =>
    cases b with
    | nil => right; rfl
    | cons y ys =>
      by_cases h1 : x.toNat < y.toNat
      · left; simp [strLeAux, h1]
      · by_cases h2 : y.toNat < x.toNat
        · right; simp [strLeAux, h2]
        · rcases ih ys with h | h
          · left; simp [strLeAux, h1, h2, h]
          · right; simp [strLeAux, h1, h2, h]

theorem diagLe_total (a b : Diagnostic) : diagLe a b = true ∨ diagLe b a = true := by
  unfold diagLe strLe
  by_cases h1 : a.line = b.line
  · rw [if_neg (not_not_intro h1), if_neg (not_not_intro h1.symm)]
    by_cases h2 : a.column = b.column
    · rw [if_neg (not_not_intro h2), if_neg (not_not_intro h2.symm)]
      exact strLeAux_total a.code.data b.code.data
    · rw [if_pos h2, if_pos (fun h => h2 h.symm)]
      simp only [decide_eq_true_eq]
      omega
  · rw [if_pos h1, if_pos (fun h => h1 h.symm)]
    simp only [decide_eq_true_eq]
    omega

theorem insertDiag_head (d : Diagnostic) (l : List Diagnostic) :
    (insertDiag d l).head? = some d ∨ (insertDiag d l).head? = l.head? := by
  cases l with
  | nil => left; rfl
  | cons e rest =>
    by_cases h : diagLe d e = true
    · left; simp [insertDiag, h]
    · right; simp [insertDiag, h]

theorem chain'_insertDiag (d : Diagnostic) (l : List Diagnostic)
    (h : List.Chain' (fun a b => diagLe a b = true) l) :
    List.Chain' (fun a b => diagLe a b = true) (insertDiag d l) := by
  induction l with
  | nil => simp [insertDiag]
  | cons e rest ih =>
    by_cases hde : diagLe d e = true
    · have heq : insertDiag d (e :: rest) = d :: e :: rest := by
        simp [insertDiag, hde]
      rw [heq]
      exact List.chain'_cons.mpr ⟨hde, h⟩
    · have heq : insertDiag d (e :: rest) = e :: insertDiag d rest := by
        simp [insertDiag, hde]
      rw [heq]
      rcases List.chain'_cons'.mp h with ⟨hhead, htail⟩
      refine List.chain'_cons'.mpr ⟨?_, ih htail⟩
      intro y hy
      rcases insertDiag_head d rest with hh | hh
      · rw [hh] at hy
        have hyd : d = y := by simpa using hy
        rcases diagLe_total d e with h' | h'
        · exact absurd h' hde
        · rw [← hyd]
          exact h'
      · rw [hh] at hy
        exact hhead y hy

theorem chain'_sortDiags (l : List Diagnostic) :
    List.Chain' (fun a b => diagLe a b = true) (sortDiags l) := by
  induction l with
  | nil => simp [sortDiags]
  | cons d rest ih => simpa [sortDiags] using chain'_insertDiag d _ ih

/-- C1: for every source input (equivalently, for every AST and parse-stage
diagnostic list the parser can hand the facade), `compilePseudocode`
returns `success = true` iff no diagnostic in the merged sorted list has
severity `error`, and `success = true` iff the `pythonCode` field is
present on the result. -/
theorem c1_success_iff_no_error_iff_python (ast : ProgramNode) (parseDiagnostics : List Diagnostic) :
    ((compileFromStages ast parseDiagnostics).success = true ↔
      ∀ d ∈ (compileFromStages ast parseDiagnostics).diagnostics, d.severity ≠ Severity.error) ∧
    ((compileFromStages ast parseDiagnostics).success = true ↔
      (compileFromStages ast parseDiagnostics).pythonCode.isSome = true) := by
  simp only [compileFromStages]
  cases hany : (sortDiags (parseDiagnostics ++ (analyzeProgram ast).diagnostics)).any
      (fun d => decide (d.severity = Severity.error)) with
  | false =>
    simp only [hany, Bool.false_eq_true, if_false, Option.isSome_some, iff_true, true_iff]
    refine ⟨?_, trivial⟩
    intro d hd hsev
    have hthis : (sortDiags (parseDiagnostics ++ (analyzeProgram ast).diagnostics)).any
        (fun d => decide (d.severity = Severity.error)) = true :=
      List.any_eq_true.mpr ⟨d, hd, decide_eq_true hsev⟩
    rw [hany] at hthis
    cases hthis
  | true =>
    simp only [hany, if_true, Option.isSome_none, Bool.false_eq_true, false_iff]
    refine ⟨?_, by simp⟩
    intro hall
    rcases List.any_eq_true.mp hany with ⟨d, hd, hsev⟩
    exact hall d hd (of_decide_eq_true hsev)

/-- C8: for every source input (equivalently, for every AST and parse-stage
diagnostic list), the diagnostic list the facade returns is totally ordered
by `(startLine, startColumn, code)`: every adjacent pair satisfies the sort
comparator `diagLe`. -/
theorem c8_diagnostics_sorted (ast : ProgramNode) (parseDiagnostics : List Diagnostic) :
    List.Chain' (fun a b => diagLe a b = true) (compileFromStages ast parseDiagnostics).diagnostics := by
  simp only [compileFromStages]
  cases hany : (sortDiags (parseDiagnostics ++ (analyzeProgram ast).diagnostics)).any
      (fun d => decide (d.severity = Severity.error)) with
  | false =>
    simp only [hany, Bool.false_eq_true, if_false]
    exact chain'_sortDiags _
  | true =>
    simp only [hany, if_true]
    exact chain'_sortDiags _

/- The well-founded tokenizer and parser definitions are sealed by
default; the concrete-input theorems below evaluate the full pipeline
inside the kernel, which needs their unfoldings visible. -/
unseal tokenizeLoop consumeNewlinesP synchronizeLineP parseExpression
  parseBinaryLoop parseUnary parsePrimary parseIdentifierOrCall parseArgsLoop parseParamLoop
  parseStatements parseStatementsLoop parseStatement parseStatementAfterCaseColon
  parseCaseClausesLoop parseIfStatement parseCaseStatement parseForTail parseForStatement
  parseRepeatStatement parseWhileStatement parseProcedureDefinition parseFunctionTail
  parseFunctionDefinition

/-- C9 (the code evaluated at the failing input `CALL Constructor`): the
claim says `compilePseudocode` never surfaces an exception, but on this
source the analyzer's plain-object lookup
`procedureSignatures["constructor"]` finds the inherited, truthy
`Object.prototype.constructor`, skips the `SEM012` guard, and passes
`signature.params` (`undefined`) to `validateCallArguments`, which throws
a `TypeError` at `expected.length`; `compilePseudocode` has no try/catch,
so the exception reaches the caller instead of a `CompileResult`.  The
last two conjuncts show the mechanism on the parsed AST directly: the
analysis is marked crashed and no `SEM012` diagnostic was pushed. -/
theorem c9_call_constructor_crashes :
    compilePseudocode { source := "CALL Constructor", filename := "main.pseudo" } =
      .error "TypeError: Cannot read properties of undefined (reading 'length')" ∧
    (analyzeProgram (parseSource "CALL Constructor").1).crashed = true ∧
    (analyzeProgram c9Program).crashed = true ∧
    (analyzeProgram c9Program).diagnostics = [] := by
  refine ⟨by rfl, by decide, rfl, rfl⟩

/-- C2 (the code evaluated at the failing input): in the function body
`IF TRUE THEN RETURN 1 ELSE RETURN 2 ENDIF` a RETURN statement is textually
present (inside both IF branches), yet the analyzer still emits `SEM011`,
because `analyzeStatements` discards the `sawReturn` results of the
recursive calls for block bodies. -/
theorem c2_sem011_fires_despite_nested_return :
    stmtListHasReturnSpec c2FunctionBody = true ∧
    (analyzeProgram c2Program).diagnostics.map (fun d => d.code) = ["SEM011"] :=
  ⟨rfl, rfl⟩

/-- C3 (counterexample): with `DECLARE Total : INTEGER` followed by
`total <- 1`, the program compiles cleanly (resolution is
case-insensitive), but the emitted `__main__` body assigns to the verbatim
spelling `total`, not to the first-declared spelling `Total` as the claim
states. -/
theorem c3_counterexample_verbatim_spelling :
    (analyzeProgram c3Program).diagnostics = [] ∧
    "    total = 1" ∈ generateLines c3Program (analyzeProgram c3Program) ∧
    "    Total = 1" ∉ generateLines c3Program (analyzeProgram c3Program) :=
  ⟨rfl, by decide, by decide⟩

/-- C3 (amended): identifier resolution is case-insensitive in every stage
— both the analyzer's scope chain and the generator's type lookup depend
only on the lowercased name — while the generator's `normalizeName` is the
identity, so every emitted occurrence keeps its own verbatim source
spelling (not the spelling of the first declaration). -/
theorem c3_amended_case_insensitive_resolution_verbatim_emission :
    (∀ (scope : Scope) (n1 n2 : String), jsToLower n1 = jsToLower n2 →
      scopeLookup scope n1 = scopeLookup scope n2) ∧
    (∀ (sem : AState) (g : GState) (n1 n2 : String), jsToLower n1 = jsToLower n2 →
      lookupTypeGen sem g n1 = lookupTypeGen sem g n2) ∧
    (∀ name : String, normalizeName name = name) ∧
    (∀ (name : String) (sp : SourceSpan), emitExpression (.identifier name sp) = name) := by
  refine ⟨?_, ?_, fun _ => rfl, fun _ _ => rfl⟩
  · intro scope n1 n2 h
    induction scope with
    | nil => rfl
    | cons frame rest ih => simp [scopeLookup, h, ih]
  · intro sem g n1 n2 h
    simp [lookupTypeGen, h]

/-- C3 witness: the amended statement applied at the concrete spellings
`Total` / `total` over a scope declaring `Total`. -/
theorem c3_amended_witness :
    scopeLookup c3WitnessScope "Total" = scopeLookup c3WitnessScope "total" ∧
    normalizeName "Total" = "Total" :=
  ⟨c3_amended_case_insensitive_resolution_verbatim_emission.1 c3WitnessScope "Total" "total" (by decide),
   c3_amended_case_insensitive_resolution_verbatim_emission.2.2.1 "Total"⟩

/-- C4 (counterexample): `OUTPUT x + 1` with `x` undeclared yields both
`SEM019` and `SEM022` (the claim says `SEM022` is suppressed), and
`OUTPUT A[y]` with `y` undeclared yields both `SEM019` and `SEM028` (the
claim says no `SEM028` is emitted for an unknown-typed index). -/
theorem c4_counterexample_unknown_cascades :
    (analyzeProgram c4Program).diagnostics.map (fun d => d.code) = ["SEM019", "SEM022"] ∧
    (analyzeProgram c4ArrayProgram).diagnostics.map (fun d => d.code) = ["SEM019", "SEM028"] :=
  ⟨rfl, rfl⟩

/-- C4 (amended): an unknown operand type does prevent cascades at every
`typesCompatible` check (assignment, argument, RETURN positions accept
`unknown` silently), but the arithmetic operator check is not among them:
whenever one operand of `+ - * / ^` infers to `unknown` — for instance an
undeclared identifier that already produced `SEM019` — the analyzer
additionally emits `SEM022` (and, likewise, an unknown-typed array index
still draws `SEM028`). -/
theorem c4_amended_unknown_compat_but_operator_checks_fire :
    (∀ t : StaticType, typesCompatible .unknown t = true ∧ typesCompatible t .unknown = true) ∧
    (∀ (scope : Option Scope) (st : AState) (l r : ExpressionNode) (op : String) (sp : SourceSpan),
      op ∈ (["+", "-", "*", "/", "^"] : List String) →
      (inferExpressionType l scope st).1 = .unknown →
      inferExpressionType (.binary op l r sp) scope st =
        (UNKNOWN,
          pushError (inferExpressionType r scope (inferExpressionType l scope st).2).2 sp
            "SEM022" ("Operator " ++ op ++ " requires numeric operands."))) := by
  constructor
  · intro t
    exact ⟨by cases t <;> rfl, by cases t <;> rfl⟩
  · intro scope st l r op sp hop hunk
    have hcontains : (["+", "-", "*", "/", "^"] : List String).contains op = true := by
      simp only [List.mem_cons, List.not_mem_nil, or_false] at hop
      rcases hop with h | h | h | h | h <;> subst h <;> rfl
    simp only [inferExpressionType]
    rw [hcontains, hunk]
    simp [isNumeric]

/-- C4 witness: the amended statement at `unknown`-vs-`INTEGER`
compatibility and at the concrete expression `x + 1` with `x` undeclared
(scope absent), evaluated against the empty analyzer state. -/
theorem c4_amended_witness :
    typesCompatible .unknown INTEGER = true ∧
    inferExpressionType
        (.binary "+" (.identifier "x" exSpan) (.literal (.int 1) .INTEGER exSpan) exSpan)
        none emptyAState =
      (UNKNOWN,
        pushError
          (inferExpressionType (.literal (.int 1) .INTEGER exSpan) none
            (inferExpressionType (.identifier "x" exSpan) none emptyAState).2).2 exSpan
          "SEM022" ("Operator " ++ "+" ++ " requires numeric operands.")) :=
  ⟨(c4_amended_unknown_compat_but_operator_checks_fire.1 INTEGER).1,
   c4_amended_unknown_compat_but_operator_checks_fire.2 none emptyAState
     (.identifier "x" exSpan) (.literal (.int 1) .INTEGER exSpan) "+" exSpan
     (by decide) rfl⟩

/-- C6: for every binary expression whose operator is one of `+ - * / ^`,
the analyzer emits `SEM022` (and infers `unknown`) exactly when an operand
type is not numeric; otherwise it emits nothing further and the inferred
result is `REAL` when either operand is `REAL` or the operator is `/`, and
`INTEGER` in every other case (in particular `INTEGER ^ INTEGER` infers
`INTEGER`). -/
theorem c6_arithmetic_operator_typing (scope : Option Scope) (st : AState)
    (l r : ExpressionNode) (op : String) (sp : SourceSpan)
    (hop : op ∈ (["+", "-", "*", "/", "^"] : List String)) :
    inferExpressionType (.binary op l r sp) scope st =
      (if !isNumeric (inferExpressionType l scope st).1 ||
          !isNumeric (inferExpressionType r scope (inferExpressionType l scope st).2).1 then
        (UNKNOWN,
          pushError (inferExpressionType r scope (inferExpressionType l scope st).2).2 sp
            "SEM022" ("Operator " ++ op ++ " requires numeric operands."))
      else if (inferExpressionType l scope st).1 = REAL ∨
          (inferExpressionType r scope (inferExpressionType l scope st).2).1 = REAL ∨ op = "/" then
        (REAL, (inferExpressionType r scope (inferExpressionType l scope st).2).2)
      else
        (INTEGER, (inferExpressionType r scope (inferExpressionType l scope st).2).2)) := by
  have hcontains : (["+", "-", "*", "/", "^"] : List String).contains op = true := by
    simp only [List.mem_cons, List.not_mem_nil, or_false] at hop
    rcases hop with h | h | h | h | h <;> subst h <;> rfl
  simp only [inferExpressionType]
  rw [hcontains]
  by_cases hnum : (!isNumeric (inferExpressionType l scope st).1 ||
      !isNumeric (inferExpressionType r scope (inferExpressionType l scope st).2).1) = true
  · rw [if_pos hnum, if_pos hnum]
    simp
  · rw [if_neg hnum, if_neg hnum]
    have hsplit := hnum
    simp only [Bool.or_eq_true, Bool.not_eq_true', not_or, Bool.not_eq_false] at hsplit
    obtain ⟨h1, h2⟩ := hsplit
    cases ha : (inferExpressionType l scope st).1 with
    | basic ln =>
      cases hb : (inferExpressionType r scope (inferExpressionType l scope st).2).1 with
      | basic rn =>
        simp only [REAL, StaticType.basic.injEq]
        simp
      | unknown =>
        rw [hb] at h2
        cases h2
      | array et dims =>
        rw [hb] at h2
        cases h2
    | unknown =>
      rw [ha] at h1
      cases h1
    | array et dims =>
      rw [ha] at h1
      cases h1

/-- C6 witness: `2 ^ 3` on INTEGER literals infers INTEGER with no
diagnostic. -/
theorem c6_arithmetic_operator_typing_witness :
    inferExpressionType
        (.binary "^" (.literal (.int 2) .INTEGER exSpan) (.literal (.int 3) .INTEGER exSpan) exSpan)
        none emptyAState =
      (INTEGER, emptyAState) :=
  (c6_arithmetic_operator_typing none emptyAState
    (.literal (.int 2) .INTEGER exSpan) (.literal (.int 3) .INTEGER exSpan) "^" exSpan
    (by decide)).trans rfl

/-- Consonance of the inlined array-access case of `inferExpressionType`
with the standalone `resolveArrayAccessType` (the source delegates; the
embedding inlines to keep recursion structural). -/
theorem inferExpressionType_arrayAccess_eq (name : String) (indices : ExprList)
    (sp : SourceSpan) (scope : Option Scope) (st : AState) :
    inferExpressionType (.arrayAccess name indices sp) scope st =
      resolveArrayAccessType name indices sp scope st := rfl

/-- Consonance of the inlined call-validation in `inferExpressionType` with
the standalone `validateCallArgsWithScope`. -/
theorem inferExpressionType_call_eq (name : String) (args : ExprList)
    (sp : SourceSpan) (scope : Option Scope) (st : AState) :
    inferExpressionType (.call name args sp) scope st =
      (match recGet BUILTIN_FUNCTIONS (jsToUpper name) with
       | some builtin =>
         (builtin.returnType, validateCallArgsWithScope args builtin.params sp name scope st)
       | none =>
         match recGet st.functionSignatures (jsToLower name) with
         | none =>
           if OBJECT_PROTOTYPE_KEYS.contains (jsToLower name) then (UNKNOWN, setCrashed st)
           else (UNKNOWN, pushError st sp "SEM024" ("Unknown function \"" ++ name ++ "\"."))
         | some signature =>
           (signature.returnType, validateCallArgsWithScope args signature.params sp name scope st)) := rfl

/-- Consonance of `analyzeClauses`' direct statement analysis with the
source's one-element-list call `analyzeStatements([clause.statement], …)`. -/
theorem analyzeStatements_singleton (s : StatementNode) (scope : Scope)
    (fnRet : Option StaticType) (openFiles : OpenFiles) (st : AState) :
    analyzeStatements (.cons s .nil) scope fnRet openFiles st =
      analyzeStatement s scope fnRet openFiles st := by
  simp [analyzeStatements]

/-- C7 (the original claim evaluated at concrete inputs): the analyzer's
`openFiles` is a plain JS object, so reads walk the prototype chain.
`READFILE "toString", x` with nothing ever opened emits `SEM015` — the
claim allows `SEM015` only for a handle currently recorded in WRITE mode —
and `OPENFILE "__proto__" FOR READ` records nothing (the inherited
`__proto__` setter swallows the string assignment), after which
`READFILE "__proto__", x` emits `SEM015` despite the READ-mode OPENFILE. -/
theorem c7_counterexample_prototype_handles :
    ((analyzeStatement (.readfile (.literal (.str "toString") .STRING exSpan)
          (.ident "x" exSpan) exSpan) c7QuirkScope none [] emptyAState
      ).2.2.2.diagnostics.map (fun d => d.code) = ["SEM015"]) ∧
    ((analyzeStatement (.openfile (.literal (.str "__proto__") .STRING exSpan) .READ exSpan)
        c7QuirkScope none [] emptyAState).2.2.1 = []) ∧
    ((analyzeStatement (.readfile (.literal (.str "__proto__") .STRING exSpan)
          (.ident "x" exSpan) exSpan)
        c7QuirkScope none
        (analyzeStatement (.openfile (.literal (.str "__proto__") .STRING exSpan) .READ exSpan)
          c7QuirkScope none [] emptyAState).2.2.1
        emptyAState).2.2.2.diagnostics.map (fun d => d.code) = ["SEM015"]) :=
  ⟨rfl, rfl, rfl⟩

/-- C7 (amended): file-mode tracking holds verbatim for string-literal
handles whose text is non-empty and not a JS `Object.prototype` property
name — `OPENFILE` records the mode, `READFILE` on a WRITE-recorded handle
emits `SEM015`, a READ-recorded or genuinely absent handle emits nothing,
`WRITEFILE` on a READ-recorded handle emits `SEM016`, `CLOSEFILE` removes
the record, and non-literal identifiers skip the mode map but are still
type-checked.  For handles named after `Object.prototype` properties the
prototype chain leaks through the plain-object map: an unrecorded such
handle reads as an inherited truthy value, so `READFILE` emits `SEM015`
and `WRITEFILE` emits `SEM016` with no `OPENFILE` at all, and
`OPENFILE "__proto__"` records nothing. -/
theorem c7_amended_prototype_aware_mode_tracking :
    (∀ (v : String) (mode : FileMode) (scope : Scope) (fnRet : Option StaticType)
        (openFiles : OpenFiles) (st : AState) (sp : SourceSpan),
      v ≠ "" → v ≠ "__proto__" →
      analyzeStatement (.openfile (.literal (.str v) .STRING sp) mode sp) scope fnRet openFiles st =
        (false, scope, recSet openFiles v mode, st)) ∧
    (∀ (v : String) (target : AssignTarget) (scope : Scope) (fnRet : Option StaticType)
        (openFiles : OpenFiles) (st : AState) (sp : SourceSpan),
      v ≠ "" → recGet openFiles v = some .WRITE →
      analyzeStatement (.readfile (.literal (.str v) .STRING sp) target sp) scope fnRet openFiles st =
        (false, scope, openFiles,
          (resolveAssignableType target scope
            (pushError st sp "SEM015" ("READFILE used on write-only handle \"" ++ v ++ "\"."))).2)) ∧
    (∀ (v : String) (target : AssignTarget) (scope : Scope) (fnRet : Option StaticType)
        (openFiles : OpenFiles) (st : AState) (sp : SourceSpan),
      recGet openFiles v = some .READ ∨
        (recGet openFiles v = none ∧ OBJECT_PROTOTYPE_KEYS.contains v = false) →
      analyzeStatement (.readfile (.literal (.str v) .STRING sp) target sp) scope fnRet openFiles st =
        (false, scope, openFiles, (resolveAssignableType target scope st).2)) ∧
    (∀ (v : String) (value : ExpressionNode) (scope : Scope) (fnRet : Option StaticType)
        (openFiles : OpenFiles) (st : AState) (sp : SourceSpan),
      v ≠ "" → recGet openFiles v = some .READ →
      analyzeStatement (.writefile (.literal (.str v) .STRING sp) value sp) scope fnRet openFiles st =
        (false, scope, openFiles,
          (inferExpressionType value (some scope)
            (pushError st sp "SEM016" ("WRITEFILE used on read-only handle \"" ++ v ++ "\"."))).2)) ∧
    (∀ (v : String) (scope : Scope) (fnRet : Option StaticType)
        (openFiles : OpenFiles) (st : AState) (sp : SourceSpan),
      v ≠ "" →
      analyzeStatement (.closefile (.literal (.str v) .STRING sp) sp) scope fnRet openFiles st =
        (false, scope, recDelete openFiles v, st)) ∧
    (∀ (e : ExpressionNode) (target : AssignTarget) (scope : Scope) (fnRet : Option StaticType)
        (openFiles : OpenFiles) (st : AState) (sp : SourceSpan),
      isStringLiteralExpr e = false →
      analyzeStatement (.readfile e target sp) scope fnRet openFiles st =
        (false, scope, openFiles,
          (resolveAssignableType target scope
            (inferExpressionType e (some scope)
              (inferExpressionType e (some scope) st).2).2).2)) ∧
    (∀ (e : ExpressionNode) (mode : FileMode) (scope : Scope) (fnRet : Option StaticType)
        (openFiles : OpenFiles) (st : AState) (sp : SourceSpan),
      isStringLiteralExpr e = false →
      analyzeStatement (.openfile e mode sp) scope fnRet openFiles st =
        (false, scope, openFiles,
          (inferExpressionType e (some scope)
            (inferExpressionType e (some scope) st).2).2)) ∧
    (∀ (v : String) (target : AssignTarget) (scope : Scope) (fnRet : Option StaticType)
        (openFiles : OpenFiles) (st : AState) (sp : SourceSpan),
      OBJECT_PROTOTYPE_KEYS.contains v = true → recGet openFiles v = none →
      analyzeStatement (.readfile (.literal (.str v) .STRING sp) target sp) scope fnRet openFiles st =
        (false, scope, openFiles,
          (resolveAssignableType target scope
            (pushError st sp "SEM015" ("READFILE used on write-only handle \"" ++ v ++ "\"."))).2)) ∧
    (∀ (v : String) (value : ExpressionNode) (scope : Scope) (fnRet : Option StaticType)
        (openFiles : OpenFiles) (st : AState) (sp : SourceSpan),
      OBJECT_PROTOTYPE_KEYS.contains v = true → recGet openFiles v = none →
      analyzeStatement (.writefile (.literal (.str v) .STRING sp) value sp) scope fnRet openFiles st =
        (false, scope, openFiles,
          (inferExpressionType value (some scope)
            (pushError st sp "SEM016" ("WRITEFILE used on read-only handle \"" ++ v ++ "\"."))).2)) ∧
    (∀ (mode : FileMode) (scope : Scope) (fnRet : Option StaticType)
        (openFiles : OpenFiles) (st : AState) (sp : SourceSpan),
      analyzeStatement (.openfile (.literal (.str "__proto__") .STRING sp) mode sp)
          scope fnRet openFiles st =
        (false, scope, openFiles, st)) := by
  have hlit : ∀ (e : ExpressionNode) (scope : Scope) (st : AState),
      isStringLiteralExpr e = false →
      literalFileName e scope st = (none, (inferExpressionType e (some scope) st).2) := by
    intro e scope st he
    cases e with
    | literal value lt sp =>
      cases value with
      | str s =>
        cases lt <;> first
          | rfl
          | (exfalso; exact Bool.true_eq_false ▸ (he ▸ rfl))
      | int n => cases lt <;> rfl
      | realRaw raw => cases lt <;> rfl
      | bool b => cases lt <;> rfl
    | identifier name sp => rfl
    | unary op operand sp => rfl
    | binary op left right sp => rfl
    | call name args sp => rfl
    | arrayAccess name indices sp => rfl
  refine ⟨?_, ?_, ?_, ?_, ?_, ?_, ?_, ?_, ?_, ?_⟩
  · intro v mode scope fnRet openFiles st sp hv hp
    simp [analyzeStatement, literalFileName, jsObjSet, inferExpressionType, hv, hp]
  · intro v target scope fnRet openFiles st sp hv h
    simp [analyzeStatement, literalFileName, hv, h, inferExpressionType]
  · intro v target scope fnRet openFiles st sp h
    by_cases hv : v = ""
    · rcases h with h | ⟨h, hc⟩ <;>
        simp [analyzeStatement, literalFileName, hv, inferExpressionType]
    · rcases h with h | ⟨h, hc⟩
      · simp [analyzeStatement, literalFileName, hv, h, inferExpressionType]
      · have hc2 : v ∉ OBJECT_PROTOTYPE_KEYS := by simpa using hc
        simp [analyzeStatement, literalFileName, hv, h, hc2, inferExpressionType]
  · intro v value scope fnRet openFiles st sp hv h
    simp [analyzeStatement, literalFileName, hv, h, inferExpressionType]
  · intro v scope fnRet openFiles st sp hv
    simp [analyzeStatement, literalFileName, inferExpressionType, hv]
  · intro e target scope fnRet openFiles st sp he
    simp [analyzeStatement, hlit e scope st he]
  · intro e mode scope fnRet openFiles st sp he
    simp [analyzeStatement, hlit e scope st he]
  · intro v target scope fnRet openFiles st sp hc h
    have hv : v ≠ "" := by
      rintro rfl
      revert hc
      decide
    have hc2 : v ∈ OBJECT_PROTOTYPE_KEYS := by simpa using hc
    simp [analyzeStatement, literalFileName, hv, h, hc2, inferExpressionType]
  · intro v value scope fnRet openFiles st sp hc h
    have hv : v ≠ "" := by
      rintro rfl
      revert hc
      decide
    have hc2 : v ∈ OBJECT_PROTOTYPE_KEYS := by simpa using hc
    simp [analyzeStatement, literalFileName, hv, h, hc2, inferExpressionType]
  · intro mode scope fnRet openFiles st sp
    simp [analyzeStatement, literalFileName, jsObjSet, inferExpressionType]

/-- C7 witness: the amended theorem applied at concrete inputs — an
`OPENFILE` that records `"F"` in WRITE mode, a `READFILE` on `"F"`
recorded in WRITE mode, a `READFILE` on `"F"` recorded in READ mode, a
`WRITEFILE` on `"F"` recorded in READ mode, a `CLOSEFILE` on `"F"`, a
`READFILE` on the unrecorded prototype-key handle `"toString"`, an
`OPENFILE "__proto__"` that records nothing, and a `READFILE` whose file
identifier is the non-literal expression `h`. -/
theorem c7_amended_witness :
    analyzeStatement (.openfile (.literal (.str "F") .STRING exSpan) .WRITE exSpan)
        [[]] none [] emptyAState =
      (false, [[]], recSet [] "F" .WRITE, emptyAState) ∧
    analyzeStatement (.readfile (.literal (.str "F") .STRING exSpan) (.ident "x" exSpan) exSpan)
        [[]] none [("F", .WRITE)] emptyAState =
      (false, [[]], [("F", .WRITE)],
        (resolveAssignableType (.ident "x" exSpan) [[]]
          (pushError emptyAState exSpan "SEM015"
            ("READFILE used on write-only handle \"" ++ "F" ++ "\"."))).2) ∧
    analyzeStatement (.readfile (.literal (.str "F") .STRING exSpan) (.ident "x" exSpan) exSpan)
        [[]] none [("F", .READ)] emptyAState =
      (false, [[]], [("F", .READ)],
        (resolveAssignableType (.ident "x" exSpan) [[]] emptyAState).2) ∧
    analyzeStatement (.writefile (.literal (.str "F") .STRING exSpan)
          (.literal (.str "v") .STRING exSpan) exSpan)
        [[]] none [("F", .READ)] emptyAState =
      (false, [[]], [("F", .READ)],
        (inferExpressionType (.literal (.str "v") .STRING exSpan) (some [[]])
          (pushError emptyAState exSpan "SEM016"
            ("WRITEFILE used on read-only handle \"" ++ "F" ++ "\"."))).2) ∧
    analyzeStatement (.closefile (.literal (.str "F") .STRING exSpan) exSpan)
        [[]] none [("F", .WRITE)] emptyAState =
      (false, [[]], recDelete [("F", .WRITE)] "F", emptyAState) ∧
    analyzeStatement (.readfile (.literal (.str "toString") .STRING exSpan)
          (.ident "x" exSpan) exSpan)
        [[]] none [] emptyAState =
      (false, [[]], [],
        (resolveAssignableType (.ident "x" exSpan) [[]]
          (pushError emptyAState exSpan "SEM015"
            ("READFILE used on write-only handle \"" ++ "toString" ++ "\"."))).2) ∧
    analyzeStatement (.openfile (.literal (.str "__proto__") .STRING exSpan) .READ exSpan)
        [[]] none [] emptyAState =
      (false, [[]], [], emptyAState) ∧
    analyzeStatement (.readfile (.identifier "h" exSpan) (.ident "x" exSpan) exSpan)
        [[]] none [("F", .WRITE)] emptyAState =
      (false, [[]], [("F", .WRITE)],
        (resolveAssignableType (.ident "x" exSpan) [[]]
          (inferExpressionType (.identifier "h" exSpan) (some [[]])
            (inferExpressionType (.identifier "h" exSpan) (some [[]]) emptyAState).2).2).2) :=
  ⟨c7_amended_prototype_aware_mode_tracking.1 "F" .WRITE [[]] none [] emptyAState exSpan
     (by decide) (by decide),
   c7_amended_prototype_aware_mode_tracking.2.1 "F" (.ident "x" exSpan) [[]] none
     [("F", .WRITE)] emptyAState exSpan (by decide) rfl,
   c7_amended_prototype_aware_mode_tracking.2.2.1 "F" (.ident "x" exSpan) [[]] none
     [("F", .READ)] emptyAState exSpan (Or.inl rfl),
   c7_amended_prototype_aware_mode_tracking.2.2.2.1 "F" (.literal (.str "v") .STRING exSpan)
     [[]] none [("F", .READ)] emptyAState exSpan (by decide) rfl,
   c7_amended_prototype_aware_mode_tracking.2.2.2.2.1 "F" [[]] none
     [("F", .WRITE)] emptyAState exSpan (by decide),
   c7_amended_prototype_aware_mode_tracking.2.2.2.2.2.2.2.1 "toString" (.ident "x" exSpan)
     [[]] none [] emptyAState exSpan (by decide) rfl,
   c7_amended_prototype_aware_mode_tracking.2.2.2.2.2.2.2.2.2 .READ [[]] none [] emptyAState exSpan,
   c7_amended_prototype_aware_mode_tracking.2.2.2.2.2.1 (.identifier "h" exSpan)
     (.ident "x" exSpan) [[]] none [("F", .WRITE)] emptyAState exSpan rfl⟩

theorem mem_rangeUp (v e s : Int) (hs : 0 < s) (x : Int) :
    x ∈ rangeUp v e s hs ↔ ∃ k : Nat, x = v + k * s ∧ v + k * s ≤ e := by
  induction v, e, s, hs using rangeUp.induct with
  | case1 v e s hs hle ih =>
    rw [rangeUp, if_pos hle]
    constructor
    · intro hx
      rcases List.mem_cons.mp hx with h | h
      · exact ⟨0, by simpa using h, by simpa using hle⟩
      · rcases ih.mp h with ⟨k, hk, hb⟩
        exact ⟨k + 1, by push_cast at hk ⊢; linarith, by push_cast at hb ⊢; linarith⟩
    · rintro ⟨k, hk, hb⟩
      cases k with
      | zero => simp at hk; simp [hk]
      | succ k =>
        apply List.mem_cons_of_mem
        apply ih.mpr
        refine ⟨k, by push_cast at hk ⊢; linarith, by push_cast at hb ⊢; linarith⟩
  | case2 v e s hs hle =>
    rw [rangeUp, if_neg hle]
    simp only [List.not_mem_nil, false_iff, not_exists]
    rintro k ⟨hk, hb⟩
    have hks : (0 : Int) ≤ k * s := by positivity
    omega

theorem mem_rangeDown (v e s : Int) (hs : s < 0) (x : Int) :
    x ∈ rangeDown v e s hs ↔ ∃ k : Nat, x = v + k * s ∧ e ≤ v + k * s := by
  induction v, e, s, hs using rangeDown.induct with
  | case1 v e s hs hge ih =>
    rw [rangeDown, if_pos hge]
    constructor
    · intro hx
      rcases List.mem_cons.mp hx with h | h
      · exact ⟨0, by simpa using h, by simpa using hge⟩
      · rcases ih.mp h with ⟨k, hk, hb⟩
        exact ⟨k + 1, by push_cast at hk ⊢; linarith, by push_cast at hb ⊢; linarith⟩
    · rintro ⟨k, hk, hb⟩
      cases k with
      | zero => simp at hk; simp [hk]
      | succ k =>
        apply List.mem_cons_of_mem
        apply ih.mpr
        refine ⟨k, by push_cast at hk ⊢; linarith, by push_cast at hb ⊢; linarith⟩
  | case2 v e s hs hge =>
    rw [rangeDown, if_neg hge]
    simp only [List.not_mem_nil, false_iff, not_exists]
    rintro k ⟨hk, hb⟩
    have hks : (k : Int) * s ≤ 0 :=
      mul_nonpos_iff.mpr (Or.inl ⟨Nat.cast_nonneg k, le_of_lt hs⟩)
    omega

/-- C5: the emitted `__inclusive_range` helper raises on a zero step,
yields `5,4,3,2,1` for `(5, 1, -1)`, yields nothing when `s > 0` and
`a > b`, and in general yields exactly the integers `a + k·s` (k ≥ 0) that
have not passed `b` in the direction of `s` — so both endpoints are visited
whenever they are reachable. -/
theorem c5_inclusive_range :
    inclusiveRange 5 1 (-1) = .ok [5, 4, 3, 2, 1] ∧
    (∀ a b : Int, inclusiveRange a b 0 = .error "FOR STEP cannot be zero") ∧
    (∀ a b s : Int, 0 < s → b < a → inclusiveRange a b s = .ok []) ∧
    (∀ (a b s : Int) (hs : 0 < s) (x : Int),
      x ∈ rangeUp a b s hs ↔ ∃ k : Nat, x = a + k * s ∧ a + k * s ≤ b) ∧
    (∀ (a b s : Int) (hs : s < 0) (x : Int),
      x ∈ rangeDown a b s hs ↔ ∃ k : Nat, x = a + k * s ∧ b ≤ a + k * s) := by
  refine ⟨?_, fun a b => rfl, ?_, mem_rangeUp, mem_rangeDown⟩
  · show inclusiveRange 5 1 (-1) = .ok [5, 4, 3, 2, 1]
    rw [inclusiveRange]
    norm_num
    rw [rangeDown, if_pos (by norm_num), rangeDown, if_pos (by norm_num),
      rangeDown, if_pos (by norm_num), rangeDown, if_pos (by norm_num),
      rangeDown, if_pos (by norm_num), rangeDown, if_neg (by norm_num)]
    norm_num
  · intro a b s hs hba
    rw [inclusiveRange]
    rw [dif_neg (by omega), dif_pos hs, rangeUp, if_neg (by omega)]

/-- C5 witness: the zero-step error, an empty upward range with `a > b`,
and concrete memberships — `3 ∈ __inclusive_range(1, 3, 2)` (the reachable
upper endpoint is visited) and `1 ∈ __inclusive_range(5, 1, -1)`. -/
theorem c5_inclusive_range_witness :
    inclusiveRange 3 1 2 = .ok [] ∧
    (3 : Int) ∈ rangeUp 1 3 2 (by norm_num) ∧
    (1 : Int) ∈ rangeDown 5 1 (-1) (by norm_num) :=
  ⟨c5_inclusive_range.2.2.1 3 1 2 (by norm_num) (by norm_num),
   (c5_inclusive_range.2.2.2.1 1 3 2 (by norm_num) 3).mpr ⟨1, by norm_num, by norm_num⟩,
   (c5_inclusive_range.2.2.2.2 5 1 (-1) (by norm_num) 1).mpr ⟨4, by norm_num, by norm_num⟩⟩

/-- C10: in the emitted runtime, `READFILE` on an open READ-mode handle
whose pointer is at or past the end of the virtual file's data returns the
empty string without raising and without changing the runtime state (in
particular without advancing the pointer), so every run of subsequent
`READFILE` calls on that handle returns only empty strings. -/
theorem c10_readfile_at_eof (st : PyRuntimeFiles) (name : String) (handle : PyFileHandle)
    (hopen : recGet st.openFiles name = some handle)
    (hmode : handle.mode = "READ")
    (heof : ((recGet st.vfs name).getD []).length ≤ handle.pointer) :
    pyREADFILE st name = .ok ("", st) ∧
    (∀ n : Nat, pyReadN st name n = .ok (List.replicate n "", st)) := by
  have hstep : pyREADFILE st name = .ok ("", st) := by
    unfold pyREADFILE
    rw [hopen]
    simp [hmode, heof]
  refine ⟨hstep, ?_⟩
  intro n
  induction n with
  | zero => rfl
  | succ n ih =>
    rw [pyReadN, hstep]
    simp only [ih, List.replicate_succ]

/-- C10 witness: the end-of-file read applied at a concrete runtime state
whose handle for `F` is in READ mode with the pointer at the end of a
one-line file, iterated three times. -/
theorem c10_readfile_at_eof_witness :
    pyREADFILE c10WitnessState "F" = .ok ("", c10WitnessState) ∧
    pyReadN c10WitnessState "F" 3 = .ok (List.replicate 3 "", c10WitnessState) :=
  ⟨(c10_readfile_at_eof c10WitnessState "F" { mode := "READ", pointer := 1 }
      rfl rfl (by decide)).1,
   (c10_readfile_at_eof c10WitnessState "F" { mode := "READ", pointer := 1 }
      rfl rfl (by decide)).2 3⟩
